import Mathlib

/-!
GrokProxy core (`src/core.mjs`): a shallow embedding.

The JavaScript of `src/core.mjs` is translated function by function; of `src/worker.mjs`, the
three inlined response mappers are translated as well, under the names `Worker.*`.

* A JavaScript string is a `List Char` (`Str`).  Lean characters are Unicode scalar values, so
  a lone surrogate code unit is not representable; `JSON.parse` decodes one to U+FFFD.
* A JavaScript value that can reach the program (a parsed JSON document, or `undefined`) is a
  `JSVal`.  A number is the exact decimal `m / 10 ^ e`; rounding to binary64 is not modelled.
* Code that can throw returns `Except Str _`, the error being the `message` of the thrown
  `Error`.  Messages of engine-raised `TypeError`s use V8 wording.
* `Date.now()` is a parameter `now`; all clock reads of one call observe the same reading.
* `fetch` is a parameter: a function from the call made to its outcome.
-/

namespace GrokProxy

/-- A JavaScript string, as the list of its characters. -/
abbrev Str := List Char

/-! ## String primitives -/

/-- `s.includes(pat)`. -/
def includes : Str → Str → Bool
  | [], pat => pat.isEmpty
  | c :: cs, pat => pat.isPrefixOf (c :: cs) || includes cs pat

/-- `s.replace(pat, rep)` for a string pattern: the first occurrence only. -/
def replaceFirst (pat rep : Str) : Str → Str
  | [] => if pat.isEmpty then rep else []
  | c :: cs =>
    if pat.isPrefixOf (c :: cs) then rep ++ (c :: cs).drop pat.length
    else c :: replaceFirst pat rep cs

/-- `s.split('\n')`. -/
def splitLines : Str → List Str
  | [] => [[]]
  | c :: cs =>
    if c = '\n' then [] :: splitLines cs
    else
      match splitLines cs with
      | l :: ls => (c :: l) :: ls
      | [] => [[c]]

/-- `lines.join('\n')`. -/
def joinLines : List Str → Str
  | [] => []
  | [l] => l
  | l :: ls => l ++ '\n' :: joinLines ls

/-- White space and line terminators, the characters `String.prototype.trim` strips. -/
def isTrimChar (c : Char) : Bool :=
  let n := c.toNat
  n = 9 || n = 10 || n = 11 || n = 12 || n = 13 || n = 32 || n = 160 || n = 5760
    || (8192 ≤ n && n ≤ 8202) || n = 8232 || n = 8233 || n = 8239 || n = 8287
    || n = 12288 || n = 65279

/-- `s.trim()`. -/
def trim (s : Str) : Str :=
  ((s.dropWhile isTrimChar).reverse.dropWhile isTrimChar).reverse

/-- Number of UTF-16 code units of a string: `s.length`. -/
def utf16Length (s : Str) : Nat :=
  (s.map fun c => if c.toNat < 65536 then 1 else 2).sum

/-! ## JavaScript values -/

/-- A JavaScript value: `undefined`, or a value of the JSON data model.
`num m e` is the number `m / 10 ^ e`. -/
inductive JSVal where
  | undefined
  | null
  | bool (b : Bool)
  | num (m : Int) (e : Nat)
  | str (s : Str)
  | arr (xs : List JSVal)
  | obj (kvs : List (Str × JSVal))

namespace JSVal

instance : Inhabited JSVal := ⟨undefined⟩

/-- A natural number as a JavaScript number. -/
def ofNat (n : Nat) : JSVal := num (Int.ofNat n) 0

/-- `ToBoolean`. -/
def truthy : JSVal → Bool
  | undefined => false
  | null => false
  | bool b => b
  | num m _ => m != 0
  | str s => !s.isEmpty
  | arr _ => true
  | obj _ => true

/-- The operator `a || b` (both operands of this program's uses are free of effects). -/
def or (a b : JSVal) : JSVal := if a.truthy then a else b

/-- `Array.isArray(v)`. -/
def isArray : JSVal → Bool
  | arr _ => true
  | _ => false

/-- `v === s` for a string literal `s`. -/
def strictEqStr : JSVal → Str → Bool
  | str t, s => t == s
  | _, _ => false

/-- `v === undefined || v === null`. -/
def isNullish : JSVal → Bool
  | undefined => true
  | null => true
  | _ => false

end JSVal

/-- Own-property lookup in an object's property list; `undefined` when the key is absent. -/
def lookup (k : Str) : List (Str × JSVal) → JSVal
  | [] => .undefined
  | (k', v) :: rest => if k' = k then v else lookup k rest

/-- Whether an object's property list has the key. -/
def hasKey (k : Str) (kvs : List (Str × JSVal)) : Bool :=
  kvs.any fun p => p.1 == k

/-- The message V8 gives a property read on `undefined` or `null`. -/
def cannotRead (what k : Str) : Str :=
  "Cannot read properties of ".toList ++ what ++ " (reading \x27".toList ++ k ++ "\x27)".toList

namespace JSVal

/-- The property read `v.k`, for the property names this program reads: none of them is a
prototype member except `length` of strings and arrays.  Throws on `undefined` and `null`. -/
def get (v : JSVal) (k : Str) : Except Str JSVal :=
  match v with
  | undefined => .error (cannotRead "undefined".toList k)
  | null => .error (cannotRead "null".toList k)
  | obj kvs => .ok (lookup k kvs)
  | arr xs => .ok (if k = "length".toList then ofNat xs.length else undefined)
  | str s => .ok (if k = "length".toList then ofNat (utf16Length s) else undefined)
  | _ => .ok undefined

/-- The optional read `v?.k`. -/
def getOpt (v : JSVal) (k : Str) : JSVal :=
  match v with
  | obj kvs => lookup k kvs
  | arr xs => if k = "length".toList then ofNat xs.length else undefined
  | str s => if k = "length".toList then ofNat (utf16Length s) else undefined
  | _ => undefined

/-- The optional index read `v?.[0]`. -/
def getOpt0 : JSVal → JSVal
  | arr (x :: _) => x
  | str (c :: _) => if c.toNat < 65536 then str [c] else str [Char.ofNat 65533]
  | obj kvs => lookup "0".toList kvs
  | _ => undefined

end JSVal

/-! ## `JSON.stringify` -/

/-- Decimal digits of a natural number, most significant first. -/
def natDigits (n : Nat) : Str := Nat.toDigits 10 n

/-- Drop the trailing zeros of a digit string. -/
def stripTrailingZeros (ds : Str) : Str :=
  (ds.reverse.dropWhile fun c => c = '0').reverse

/-- `Number::toString` of the non-zero decimal `m / 10 ^ e`, as ECMAScript defines it from the
digit string (`k` digits) and the position `n` of the decimal point. -/
def numToString (m : Int) (e : Nat) : Str :=
  if m = 0 then ['0']
  else
    let all := natDigits m.natAbs
    let ds := stripTrailingZeros all
    let k := ds.length
    let n : Int := (all.length : Int) - (e : Int)
    let sign : Str := if m < 0 then ['-'] else []
    let body : Str :=
      if (k : Int) ≤ n ∧ n ≤ 21 then ds ++ List.replicate (n.toNat - k) '0'
      else if 0 < n ∧ n ≤ 21 then ds.take n.toNat ++ '.' :: ds.drop n.toNat
      else if -6 < n ∧ n ≤ 0 then '0' :: '.' :: (List.replicate (-n).toNat '0' ++ ds)
      else
        let x := n - 1
        let xs : Str := (if x < 0 then '-' else '+') :: natDigits x.natAbs
        match ds with
        | [] => []
        | [d] => d :: 'e' :: xs
        | d :: rest => d :: '.' :: (rest ++ 'e' :: xs)
    sign ++ body

/-- A lower-case hexadecimal digit. -/
def hexDigit (n : Nat) : Char := Nat.digitChar n

/-- One character of a string inside a JSON string literal (`QuoteJSONString`). -/
def quoteChar (c : Char) : Str :=
  let n := c.toNat
  if n = 34 then ['\\', '"']
  else if n = 92 then ['\\', '\\']
  else if n = 8 then ['\\', 'b']
  else if n = 9 then ['\\', 't']
  else if n = 10 then ['\\', 'n']
  else if n = 12 then ['\\', 'f']
  else if n = 13 then ['\\', 'r']
  else if n < 32 then ['\\', 'u', '0', '0', hexDigit (n / 16), hexDigit (n % 16)]
  else [c]

/-- A string as a JSON string literal. -/
def quote (s : Str) : Str := '"' :: (s.flatMap quoteChar ++ ['"'])

mutual
/-- `SerializeJSONProperty` for a value that is not `undefined` at the top. -/
def stringifyVal : JSVal → Str
  | .undefined => "null".toList
  | .null => "null".toList
  | .bool true => "true".toList
  | .bool false => "false".toList
  | .num m e => numToString m e
  | .str s => quote s
  | .arr xs => '[' :: (stringifyElems xs ++ [']'])
  | .obj kvs => '\x7b' :: (stringifyMembers kvs false ++ ['\x7d'])
/-- The elements of an array, comma separated; `undefined` is written `null`. -/
def stringifyElems : List JSVal → Str
  | [] => []
  | [x] => stringifyVal x
  | x :: y :: rest => stringifyVal x ++ ',' :: stringifyElems (y :: rest)
/-- The members of an object, comma separated; a member whose value is `undefined` is left
out.  The flag says whether a member has been written already. -/
def stringifyMembers : List (Str × JSVal) → Bool → Str
  | [], _ => []
  | (_, .undefined) :: rest, started => stringifyMembers rest started
  | (k, v) :: rest, started =>
    (if started then [','] else []) ++ quote k ++ ':' :: stringifyVal v
      ++ stringifyMembers rest true
end

namespace JSON

/-- `JSON.stringify(v)`: `undefined` (here `none`) for `undefined`, else the JSON text. -/
def stringify : JSVal → Option Str
  | .undefined => none
  | v => some (stringifyVal v)

end JSON

/-- A template-literal hole holding `JSON.stringify(v)`. -/
def stringifyHole (v : JSVal) : Str :=
  match JSON.stringify v with
  | some s => s
  | none => "undefined".toList

/-! ## `JSON.parse` -/

/-- Whether a property key is an array index (a canonical numeric string below `2 ^ 32 - 1`):
such keys are enumerated first, in ascending order. -/
def arrayIndex (k : Str) : Option Nat :=
  if k.isEmpty || !k.all Char.isDigit then none
  else if k.head? = some '0' && k.length ≠ 1 then none
  else
    let n := k.foldl (fun acc c => 10 * acc + (c.toNat - 48)) 0
    if n < 4294967295 then some n else none

/-- Insert a new integer-indexed property at its place among the leading index keys. -/
def insertIndex (i : Nat) (k : Str) (v : JSVal) : List (Str × JSVal) → List (Str × JSVal)
  | [] => [(k, v)]
  | (k', v') :: rest =>
    match arrayIndex k' with
    | some j => if j < i then (k', v') :: insertIndex i k v rest else (k, v) :: (k', v') :: rest
    | none => (k, v) :: (k', v') :: rest

/-- Overwrite the value of a property that exists. -/
def replaceValue (k : Str) (v : JSVal) : List (Str × JSVal) → List (Str × JSVal)
  | [] => []
  | (k', v') :: rest => if k' = k then (k', v) :: rest else (k', v') :: replaceValue k v rest

/-- The assignment `o[k] = v` on an ordinary object, keeping the property enumeration order. -/
def setProp (kvs : List (Str × JSVal)) (k : Str) (v : JSVal) : List (Str × JSVal) :=
  if hasKey k kvs then replaceValue k v kvs
  else
    match arrayIndex k with
    | some i => insertIndex i k v kvs
    | none => kvs ++ [(k, v)]

/-- JSON white space. -/
def isJSONSpace (c : Char) : Bool :=
  c.toNat = 32 || c.toNat = 9 || c.toNat = 10 || c.toNat = 13

/-- Skip JSON white space. -/
def skipSpace (s : Str) : Str := s.dropWhile isJSONSpace

/-- The value of a hexadecimal digit. -/
def hexValue (c : Char) : Option Nat :=
  let n := c.toNat
  if 48 ≤ n ∧ n ≤ 57 then some (n - 48)
  else if 97 ≤ n ∧ n ≤ 102 then some (n - 87)
  else if 65 ≤ n ∧ n ≤ 70 then some (n - 55)
  else none

/-- The UTF-16 code units of a character. -/
def utf16Units (c : Char) : List Nat :=
  let n := c.toNat
  if n < 65536 then [n] else [55296 + (n - 65536) / 1024, 56320 + (n - 65536) % 1024]

/-- Decode UTF-16 code units; a surrogate that has no partner becomes U+FFFD. -/
def decodeUtf16 : List Nat → Str
  | [] => []
  | [u] => [if 55296 ≤ u ∧ u < 57344 then Char.ofNat 65533 else Char.ofNat u]
  | u :: v :: rest =>
    if 55296 ≤ u ∧ u < 56320 ∧ 56320 ≤ v ∧ v < 57344 then
      Char.ofNat (65536 + (u - 55296) * 1024 + (v - 56320)) :: decodeUtf16 rest
    else if 55296 ≤ u ∧ u < 57344 then Char.ofNat 65533 :: decodeUtf16 (v :: rest)
    else Char.ofNat u :: decodeUtf16 (v :: rest)

/-- The rest of a JSON string literal after its opening quote: the code units it denotes and
the text after the closing quote. -/
def parseStringBody : Nat → Str → Option (List Nat × Str)
  | 0, _ => none
  | _ + 1, [] => none
  | fuel + 1, c :: cs =>
    if c.toNat = 34 then some ([], cs)
    else if c.toNat = 92 then
      match cs with
      | [] => none
      | d :: ds =>
        if d = 'u' then
          match ds with
          | h1 :: h2 :: h3 :: h4 :: rest =>
            match hexValue h1, hexValue h2, hexValue h3, hexValue h4 with
            | some a, some b, some c', some d' =>
              (parseStringBody fuel rest).map fun r =>
                ((((a * 16 + b) * 16 + c') * 16 + d') :: r.1, r.2)
            | _, _, _, _ => none
          | _ => none
        else
          let unit : Option Nat :=
            if d.toNat = 34 then some 34
            else if d.toNat = 92 then some 92
            else if d = '/' then some 47
            else if d = 'b' then some 8
            else if d = 'f' then some 12
            else if d = 'n' then some 10
            else if d = 'r' then some 13
            else if d = 't' then some 9
            else none
          match unit with
          | some u => (parseStringBody fuel ds).map fun r => (u :: r.1, r.2)
          | none => none
    else if c.toNat < 32 then none
    else (parseStringBody fuel cs).map fun r => (utf16Units c ++ r.1, r.2)

/-- A JSON string literal, the opening quote already read. -/
def parseString (s : Str) : Option (Str × Str) :=
  (parseStringBody (s.length + 1) s).map fun r => (decodeUtf16 r.1, r.2)

/-- The longest run of decimal digits at the front of a string, and the rest. -/
def spanDigits (s : Str) : Str × Str := s.span Char.isDigit

/-- The natural number a digit string denotes. -/
def digitsValue (ds : Str) : Nat := ds.foldl (fun acc c => 10 * acc + (c.toNat - 48)) 0

/-- Remove the factors of ten a decimal with `e` decimal places can shed. -/
def normalizeDecimal : Int → Nat → Int × Nat
  | m, 0 => (m, 0)
  | m, e + 1 => if m % 10 = 0 then normalizeDecimal (m / 10) e else (m, e + 1)

/-- A JSON number literal: `-? int frac? exp?`. -/
def parseNumber (s : Str) : Option (JSVal × Str) :=
  let (neg, s1) := match s with
    | c :: cs => if c = '-' then (true, cs) else (false, c :: cs)
    | [] => (false, [])
  let (ip, s2) := spanDigits s1
  if ip.isEmpty || (ip.head? = some '0' && ip.length ≠ 1) then none
  else
    let fracPart : Option (Str × Str) :=
      match s2 with
      | c :: cs =>
        if c = '.' then
          let (fp, r) := spanDigits cs
          if fp.isEmpty then none else some (fp, r)
        else some ([], c :: cs)
      | [] => some ([], [])
    match fracPart with
    | none => none
    | some (fp, s3) =>
      let expPart : Option (Int × Str) :=
        match s3 with
        | c :: cs =>
          if c = 'e' ∨ c = 'E' then
            let (xneg, cs1) := match cs with
              | d :: ds => if d = '-' then (true, ds) else if d = '+' then (false, ds)
                           else (false, d :: ds)
              | [] => (false, [])
            let (xp, r) := spanDigits cs1
            if xp.isEmpty then none
            else some (if xneg then -(digitsValue xp : Int) else (digitsValue xp : Int), r)
          else some (0, c :: cs)
        | [] => some (0, [])
      match expPart with
      | none => none
      | some (x, s4) =>
        let mag : Int := (digitsValue (ip ++ fp) : Int)
        let m : Int := if neg then -mag else mag
        let shift : Int := x - (fp.length : Int)
        let (m', e') :=
          if 0 ≤ shift then (m * 10 ^ shift.toNat, 0) else normalizeDecimal m (-shift).toNat
        some (.num m' (if m' = 0 then 0 else e'), s4)

mutual
/-- A JSON value, after optional white space. -/
def parseValue : Nat → Str → Option (JSVal × Str)
  | 0, _ => none
  | fuel + 1, s =>
    match skipSpace s with
    | [] => none
    | c :: cs =>
      if c.toNat = 34 then (parseString cs).map fun r => (.str r.1, r.2)
      else if c.toNat = 123 then
        match skipSpace cs with
        | d :: ds => if d.toNat = 125 then some (.obj [], ds) else parseMembers fuel (d :: ds) []
        | [] => none
      else if c = '[' then
        match skipSpace cs with
        | d :: ds => if d = ']' then some (.arr [], ds) else parseElems fuel (d :: ds) []
        | [] => none
      else if "true".toList.isPrefixOf (c :: cs) then some (.bool true, (c :: cs).drop 4)
      else if "false".toList.isPrefixOf (c :: cs) then some (.bool false, (c :: cs).drop 5)
      else if "null".toList.isPrefixOf (c :: cs) then some (.null, (c :: cs).drop 4)
      else parseNumber (c :: cs)
/-- The elements of an array from the next element on, given those read so far. -/
def parseElems : Nat → Str → List JSVal → Option (JSVal × Str)
  | 0, _, _ => none
  | fuel + 1, s, acc =>
    match parseValue fuel s with
    | none => none
    | some (v, r) =>
      match skipSpace r with
      | c :: cs =>
        if c = ',' then parseElems fuel cs (acc ++ [v])
        else if c = ']' then some (.arr (acc ++ [v]), cs)
        else none
      | [] => none
/-- The members of an object from the next key on, given those read so far. -/
def parseMembers : Nat → Str → List (Str × JSVal) → Option (JSVal × Str)
  | 0, _, _ => none
  | fuel + 1, s, acc =>
    match skipSpace s with
    | c :: cs =>
      if c.toNat = 34 then
        match parseString cs with
        | none => none
        | some (k, r) =>
          match skipSpace r with
          | d :: ds =>
            if d = ':' then
              match parseValue fuel ds with
              | none => none
              | some (v, r2) =>
                match skipSpace r2 with
                | x :: xs =>
                  if x = ',' then parseMembers fuel xs (setProp acc k v)
                  else if x.toNat = 125 then some (.obj (setProp acc k v), xs)
                  else none
                | [] => none
            else none
          | [] => none
      else none
    | [] => none
end

namespace JSON

/-- `JSON.parse(text)`: `none` when it throws a `SyntaxError`.  The fuel bounds the number of
nested calls, which never exceeds twice the length of the text. -/
def parse (text : Str) : Option JSVal :=
  match parseValue (2 * text.length + 2) text with
  | some (v, rest) => if (skipSpace rest).isEmpty then some v else none
  | none => none

end JSON

/-! ## Requests, configuration and the upstream -/

/-- The request object an adapter hands to `handleRequest`; `body` is `undefined` when the
adapter has none. -/
structure Request where
  method : Str
  path : Str
  headers : List (Str × Str)
  body : JSVal

/-- The process environment variables the module reads. -/
structure Env where
  GROK_API_BASE : Option Str
  GROK_API_KEY : Option Str

/-- `process.env.GROK_API_BASE || 'https://api.grok.ai'`. -/
def GROK_API_BASE (env : Env) : Str :=
  match env.GROK_API_BASE with
  | some b => if b.isEmpty then "https://api.grok.ai".toList else b
  | none => "https://api.grok.ai".toList

/-- The default upstream model. -/
def DEFAULT_MODEL : Str := "grok-1".toList

/-- A header value by name: `req.headers[name]`. -/
def headerValue (name : Str) : List (Str × Str) → Option Str
  | [] => none
  | (k, v) :: rest => if k = name then some v else headerValue name rest

/-- `getApiKey(req)`: `none` stands for `undefined`. -/
def getApiKey (env : Env) (req : Request) : Option Str :=
  match headerValue "authorization".toList req.headers with
  | some h =>
    let k := replaceFirst "Bearer ".toList [] h
    if k.isEmpty then env.GROK_API_KEY else some k
  | none => env.GROK_API_KEY

/-- The test `!apiKey`. -/
def noKey : Option Str → Bool
  | none => true
  | some k => k.isEmpty

/-- One call of `fetch(url, options)`. -/
structure FetchCall where
  url : Str
  method : Str
  headers : List (Str × Str)
  body : Option Str

/-- What the program observes of an upstream response: its status, the outcome of
`response.json()`, and for a streamed body the decoded chunks `reader.read()` delivers,
followed by the end of the stream or by a read error. -/
structure Response where
  status : Nat
  json : Except Str JSVal
  chunks : List Str
  readError : Option Str

/-- `response.ok`. -/
def Response.ok (r : Response) : Bool := 200 ≤ r.status && r.status ≤ 299

/-- The upstream, as the outcome of each call: a response, or a thrown transport failure. -/
abbrev Fetch := FetchCall → Except Str Response

/-! ## Request mapping -/

/-- `mapModelToGrok(model)`. -/
def mapModelToGrok (model : JSVal) : Except Str JSVal :=
  match model with
  | .undefined => .ok (.str DEFAULT_MODEL)
  | .null => .ok (.str DEFAULT_MODEL)
  | .str s => .ok (if "grok-".toList.isPrefixOf s then .str s else .str DEFAULT_MODEL)
  | _ => .error "model?.startsWith is not a function".toList

/-- Map a callback that may throw over a list, passing the index. -/
def mapIdxM (f : JSVal → Nat → Except Str JSVal) : List JSVal → Nat → Except Str (List JSVal)
  | [], _ => .ok []
  | x :: xs, i =>
    match f x i with
    | .error m => .error m
    | .ok y =>
      match mapIdxM f xs (i + 1) with
      | .error m => .error m
      | .ok ys => .ok (y :: ys)

/-- The call `v.map(f)`, `callee` being the source text of `v.map`. -/
def callMap (callee : Str) (v : JSVal) (f : JSVal → Nat → Except Str JSVal) : Except Str JSVal :=
  match v with
  | .arr xs => (mapIdxM f xs 0).map .arr
  | .undefined => .error (cannotRead "undefined".toList "map".toList)
  | .null => .error (cannotRead "null".toList "map".toList)
  | _ => .error (callee ++ " is not a function".toList)

/-- The callback of `body.messages.map` in `transformChatCompletions`. -/
def mapMessage (msg : JSVal) (_index : Nat) : Except Str JSVal := do
  let r ← msg.get "role".toList
  let role : Str :=
    if r.strictEqStr "system".toList then "system".toList
    else if r.strictEqStr "assistant".toList then "model".toList
    else "user".toList
  let content ← msg.get "content".toList
  pure (.obj [("role".toList, .str role), ("content".toList, content.or (.str []))])

/-- The statement `if (body.stop) grokRequest.stopSequences = ...` of both mappers. -/
def addStopSequences (grokRequest : List (Str × JSVal)) (stop : JSVal) : List (Str × JSVal) :=
  if stop.truthy then
    setProp grokRequest "stopSequences".toList (if stop.isArray then stop else .arr [stop])
  else grokRequest

/-- `transformChatCompletions(body)`. -/
def transformChatCompletions (body : JSVal) : Except Str JSVal := do
  let model ← mapModelToGrok (← body.get "model".toList)
  let messages ← callMap "body.messages.map".toList (← body.get "messages".toList) mapMessage
  let grokRequest : List (Str × JSVal) :=
    [("model".toList, model),
     ("messages".toList, messages),
     ("temperature".toList, (← body.get "temperature".toList).or (.num 1 0)),
     ("maxTokens".toList, (← body.get "max_tokens".toList).or (.num 1024 0)),
     ("topP".toList, (← body.get "top_p".toList).or (.num 1 0)),
     ("stream".toList, (← body.get "stream".toList).or (.bool false))]
  pure (.obj (addStopSequences grokRequest (← body.get "stop".toList)))

/-- `transformCompletions(body)`. -/
def transformCompletions (body : JSVal) : Except Str JSVal := do
  let model ← mapModelToGrok (← body.get "model".toList)
  let grokRequest : List (Str × JSVal) :=
    [("model".toList, model),
     ("prompt".toList, ← body.get "prompt".toList),
     ("temperature".toList, (← body.get "temperature".toList).or (.num 1 0)),
     ("maxTokens".toList, (← body.get "max_tokens".toList).or (.num 1024 0)),
     ("topP".toList, (← body.get "top_p".toList).or (.num 1 0)),
     ("stream".toList, (← body.get "stream".toList).or (.bool false))]
  pure (.obj (addStopSequences grokRequest (← body.get "stop".toList)))

/-- `transformEmbeddings(body)`. -/
def transformEmbeddings (body : JSVal) : Except Str JSVal := do
  let model ← mapModelToGrok (← body.get "model".toList)
  let input ← body.get "input".toList
  pure (.obj [("model".toList, model),
              ("input".toList, if input.isArray then input else .arr [input])])

/-- `transformOpenAIToGrok(req)`. -/
def transformOpenAIToGrok (req : Request) : Except Str JSVal :=
  let body := req.body.or (.obj [])
  let endpoint := req.path
  if includes endpoint "/chat/completions".toList then transformChatCompletions body
  else if includes endpoint "/completions".toList then transformCompletions body
  else if includes endpoint "/embeddings".toList then transformEmbeddings body
  else .error ("Unsupported endpoint: ".toList ++ endpoint)

/-! ## Response mapping -/

/-- `transformGrokStreamToOpenAI(grokResponse)`. -/
def transformGrokStreamToOpenAI (grokResponse : JSVal) : JSVal := grokResponse

/-- The `usage` member of the chat and completions responses. -/
def usageOf (usage : JSVal) : JSVal :=
  .obj [("prompt_tokens".toList, (usage.getOpt "promptTokens".toList).or (.num 0 0)),
        ("completion_tokens".toList, (usage.getOpt "completionTokens".toList).or (.num 0 0)),
        ("total_tokens".toList, (usage.getOpt "totalTokens".toList).or (.num 0 0))]

/-- The callback of `grokResponse.choices.map` in `transformGrokChatToOpenAI`. -/
def mapChatChoice (choice : JSVal) (index : Nat) : Except Str JSVal := do
  let message ← choice.get "message".toList
  let content ← message.get "content".toList
  let finishReason ← choice.get "finishReason".toList
  pure (.obj [("index".toList, .ofNat index),
              ("message".toList, .obj [("role".toList, .str "assistant".toList),
                                       ("content".toList, content)]),
              ("finish_reason".toList, finishReason.or (.str "stop".toList))])

/-- The callback of `grokResponse.choices.map` in `transformGrokCompletionsToOpenAI`. -/
def mapCompletionChoice (choice : JSVal) (index : Nat) : Except Str JSVal := do
  let text ← choice.get "text".toList
  let finishReason ← choice.get "finishReason".toList
  pure (.obj [("index".toList, .ofNat index),
              ("text".toList, text),
              ("finish_reason".toList, finishReason.or (.str "stop".toList))])

/-- The callback of `grokResponse.data.map` in `transformGrokEmbeddingsToOpenAI`. -/
def mapEmbedding (item : JSVal) (index : Nat) : Except Str JSVal := do
  let embedding ← item.get "embedding".toList
  pure (.obj [("object".toList, .str "embedding".toList),
              ("embedding".toList, embedding),
              ("index".toList, .ofNat index)])

/-- The statement `if (xs && xs.length) response.k = xs.map(f)`, given the default `[]`. -/
def mapIfNonEmpty (callee : Str) (xs : JSVal) (f : JSVal → Nat → Except Str JSVal) :
    Except Str JSVal := do
  if xs.truthy then
    let len ← xs.get "length".toList
    if len.truthy then callMap callee xs f else pure (.arr [])
  else pure (.arr [])

/-- `transformGrokChatToOpenAI(grokResponse, originalRequest)`. -/
def transformGrokChatToOpenAI (now : Nat) (grokResponse : JSVal) (originalRequest : Request) :
    Except Str JSVal := do
  if (← originalRequest.body.get "stream".toList).truthy then
    pure (transformGrokStreamToOpenAI grokResponse)
  else
    let model ← originalRequest.body.get "model".toList
    let usage ← grokResponse.get "usage".toList
    let choices ← mapIfNonEmpty "grokResponse.choices.map".toList
      (← grokResponse.get "choices".toList) mapChatChoice
    pure (.obj [("id".toList, .str ("chatcmpl-".toList ++ natDigits now)),
                ("object".toList, .str "chat.completion".toList),
                ("created".toList, .ofNat (now / 1000)),
                ("model".toList, model.or (.str DEFAULT_MODEL)),
                ("choices".toList, choices),
                ("usage".toList, usageOf usage)])

/-- `transformGrokCompletionsToOpenAI(grokResponse, originalRequest)`. -/
def transformGrokCompletionsToOpenAI (now : Nat) (grokResponse : JSVal)
    (originalRequest : Request) : Except Str JSVal := do
  if (← originalRequest.body.get "stream".toList).truthy then
    pure (transformGrokStreamToOpenAI grokResponse)
  else
    let model ← originalRequest.body.get "model".toList
    let usage ← grokResponse.get "usage".toList
    let choices ← mapIfNonEmpty "grokResponse.choices.map".toList
      (← grokResponse.get "choices".toList) mapCompletionChoice
    pure (.obj [("id".toList, .str ("cmpl-".toList ++ natDigits now)),
                ("object".toList, .str "text_completion".toList),
                ("created".toList, .ofNat (now / 1000)),
                ("model".toList, model.or (.str DEFAULT_MODEL)),
                ("choices".toList, choices),
                ("usage".toList, usageOf usage)])

/-- `transformGrokEmbeddingsToOpenAI(grokResponse, originalRequest)`. -/
def transformGrokEmbeddingsToOpenAI (grokResponse : JSVal) (originalRequest : Request) :
    Except Str JSVal := do
  let model ← originalRequest.body.get "model".toList
  let usage ← grokResponse.get "usage".toList
  let data ← mapIfNonEmpty "grokResponse.data.map".toList
    (← grokResponse.get "data".toList) mapEmbedding
  pure (.obj [("object".toList, .str "list".toList),
              ("data".toList, data),
              ("model".toList, model.or (.str DEFAULT_MODEL)),
              ("usage".toList,
                .obj [("prompt_tokens".toList, (usage.getOpt "promptTokens".toList).or (.num 0 0)),
                      ("total_tokens".toList, (usage.getOpt "totalTokens".toList).or (.num 0 0))])])

/-- `transformGrokToOpenAI(grokResponse, originalRequest)`. -/
def transformGrokToOpenAI (now : Nat) (grokResponse : JSVal) (originalRequest : Request) :
    Except Str JSVal :=
  let endpoint := originalRequest.path
  if includes endpoint "/chat/completions".toList then
    transformGrokChatToOpenAI now grokResponse originalRequest
  else if includes endpoint "/completions".toList then
    transformGrokCompletionsToOpenAI now grokResponse originalRequest
  else if includes endpoint "/embeddings".toList then
    transformGrokEmbeddingsToOpenAI grokResponse originalRequest
  else .error ("Unsupported endpoint: ".toList ++ endpoint)

/-! ## Stream translation -/

/-- `transformGrokChatStreamToOpenAI(data, originalRequest)`. -/
def transformGrokChatStreamToOpenAI (now : Nat) (data : JSVal) (originalRequest : Request) :
    Except Str JSVal := do
  let model ← originalRequest.body.get "model".toList
  let choices ← data.get "choices".toList
  let choice := choices.getOpt0
  pure (.obj [("id".toList, .str ("chatcmpl-".toList ++ natDigits now)),
              ("object".toList, .str "chat.completion.chunk".toList),
              ("created".toList, .ofNat (now / 1000)),
              ("model".toList, model.or (.str DEFAULT_MODEL)),
              ("choices".toList, .arr [.obj
                [("index".toList, .num 0 0),
                 ("delta".toList, .obj [("content".toList,
                    ((choice.getOpt "delta".toList).getOpt "content".toList).or (.str []))]),
                 ("finish_reason".toList, (choice.getOpt "finish_reason".toList).or .null)]])])

/-- `transformGrokCompletionStreamToOpenAI(data, originalRequest)`. -/
def transformGrokCompletionStreamToOpenAI (now : Nat) (data : JSVal)
    (originalRequest : Request) : Except Str JSVal := do
  let model ← originalRequest.body.get "model".toList
  let choices ← data.get "choices".toList
  let choice := choices.getOpt0
  pure (.obj [("id".toList, .str ("cmpl-".toList ++ natDigits now)),
              ("object".toList, .str "text_completion.chunk".toList),
              ("created".toList, .ofNat (now / 1000)),
              ("model".toList, model.or (.str DEFAULT_MODEL)),
              ("choices".toList, .arr [.obj
                [("index".toList, .num 0 0),
                 ("text".toList, (choice.getOpt "text".toList).or (.str [])),
                 ("finish_reason".toList, (choice.getOpt "finish_reason".toList).or .null)]])])

/-- The translation of a parsed payload inside the `try` of `transformStreamChunk`: the value
named `transformed`. -/
def transformPayload (now : Nat) (data : JSVal) (originalRequest : Request) :
    Except Str JSVal :=
  let endpoint := originalRequest.path
  if includes endpoint "/chat/completions".toList then
    transformGrokChatStreamToOpenAI now data originalRequest
  else if includes endpoint "/completions".toList then
    transformGrokCompletionStreamToOpenAI now data originalRequest
  else .ok data

/-- One turn of the `for` loop of `transformStreamChunk`: the line pushed to
`transformedLines`, or `none` when the turn pushes nothing. -/
def transformLine (now : Nat) (originalRequest : Request) (line : Str) : Option Str :=
  if (trim line).isEmpty || !"data: ".toList.isPrefixOf line then some line
  else
    match JSON.parse (line.drop 6) with
    | none => some line
    | some data =>
      if data.strictEqStr "[DONE]".toList then none
      else
        match transformPayload now data originalRequest with
        | .ok transformed => some ("data: ".toList ++ stringifyHole transformed)
        | .error _ => some line

/-- `transformStreamChunk(chunk, originalRequest)`. -/
def transformStreamChunk (now : Nat) (chunk : Str) (originalRequest : Request) : Str :=
  if (trim chunk).isEmpty then []
  else
    let lines := splitLines chunk
    let transformedLines := lines.filterMap (transformLine now originalRequest)
    joinLines transformedLines ++ "\n\n".toList

/-! ## The dispatcher -/

/-- The closure `handleRequest` returns as `stream`: the variables it captured. -/
structure Producer where
  call : FetchCall
  req : Request

/-- The object `handleRequest` resolves to: `headers` is empty, `body` is `undefined` and
`stream` is `none` where the object has no such member. -/
structure Result where
  status : Nat
  headers : List (Str × Str)
  body : JSVal
  stream : Option Producer

/-- The result of `handleRequest` together with the upstream calls made on the way. -/
structure Outcome where
  result : Result
  calls : List FetchCall

/-- An immediate result `{ status, body }`. -/
def immediate (status : Nat) (body : JSVal) : Result := ⟨status, [], body, none⟩

/-- The body `{ error: { message, type } }`. -/
def errorBody (message : JSVal) (type : Str) : JSVal :=
  .obj [("error".toList, .obj [("message".toList, message), ("type".toList, .str type)])]

/-- The body `{ error: { message, type, code } }`. -/
def errorBodyWithCode (message : JSVal) (type : Str) (code : JSVal) : JSVal :=
  .obj [("error".toList, .obj [("message".toList, message), ("type".toList, .str type),
                               ("code".toList, code)])]

/-- The result of the `catch` clause of `handleRequest`. -/
def serverError (message : Str) : Result :=
  immediate 500 (errorBody (.str message) "server_error".toList)

/-- The result for a missing API key. -/
def missingKey : Result :=
  immediate 401 (errorBodyWithCode
    (.str ("Missing API key. Please provide it in the Authorization header or as ".toList
      ++ "GROK_API_KEY environment variable.".toList))
    "authentication_error".toList (.str "invalid_api_key".toList))

/-- The result of the `/models` branch. -/
def modelsResult : Result :=
  immediate 200 (.obj [("object".toList, .str "list".toList),
    ("data".toList, .arr [.obj [("id".toList, .str "grok-1".toList),
                                ("object".toList, .str "model".toList),
                                ("created".toList, .num 1699488000 0),
                                ("owned_by".toList, .str "grok".toList)]])])

/-- The upstream URL chosen from the path; `none` is the final `else`. -/
def grokEndpoint (env : Env) (path : Str) : Option Str :=
  if includes path "/chat/completions".toList then
    some (GROK_API_BASE env ++ "/v1/chat/completions".toList)
  else if includes path "/completions".toList then
    some (GROK_API_BASE env ++ "/v1/completions".toList)
  else if includes path "/embeddings".toList then
    some (GROK_API_BASE env ++ "/v1/embeddings".toList)
  else none

/-- The `options` object of the upstream call. -/
def fetchCall (url apiKey : Str) (grokRequest : JSVal) : FetchCall :=
  { url := url
    method := "POST".toList
    headers := [("Content-Type".toList, "application/json".toList),
                ("Authorization".toList, "Bearer ".toList ++ apiKey)]
    body := JSON.stringify grokRequest }

/-- The result for an upstream response that is not `ok`. -/
def upstreamError (status : Nat) (errorData : JSVal) : Except Str Result := do
  let error ← errorData.get "error".toList
  pure (immediate status (errorBodyWithCode
    ((error.getOpt "message".toList).or (.str "Error from Grok API".toList))
    "api_error".toList
    ((error.getOpt "code".toList).or (.str "unknown_error".toList))))

/-- The non-streaming part of `handleRequest`, from the awaited `fetch` on, inside the `try`. -/
def afterFetch (now : Nat) (req : Request) (fetched : Except Str Response) :
    Except Str Result := do
  let response ← fetched
  if !response.ok then
    let errorData ← response.json
    upstreamError response.status errorData
  else
    let grokResponse ← response.json
    let openAIResponse ← transformGrokToOpenAI now grokResponse req
    pure (immediate 200 openAIResponse)

/-- The streaming result, holding the producer. -/
def streaming (call : FetchCall) (req : Request) : Result :=
  { status := 200
    headers := [("Content-Type".toList, "text/event-stream".toList),
                ("Cache-Control".toList, "no-cache".toList),
                ("Connection".toList, "keep-alive".toList)]
    body := .undefined
    stream := some ⟨call, req⟩ }

/-- The `try` block of `handleRequest`, the key being known: the value returned or the message
of the error thrown, and the upstream calls made either way. -/
def handleWithKey (env : Env) (fetch : Fetch) (now : Nat) (req : Request) (apiKey : Str) :
    Except Str Result × List FetchCall :=
  let endpoint := req.path
  if includes endpoint "/models".toList then (.ok modelsResult, [])
  else
    match transformOpenAIToGrok req with
    | .error m => (.error m, [])
    | .ok grokRequest =>
      match grokEndpoint env req.path with
      | none =>
        (.ok (immediate 400
          (errorBody (.str ("Unsupported endpoint: ".toList ++ req.path))
            "invalid_request_error".toList)), [])
      | some url =>
        let call := fetchCall url apiKey grokRequest
        match req.body.get "stream".toList with
        | .error m => (.error m, [])
        | .ok stream =>
          if stream.truthy then (.ok (streaming call req), [])
          else (afterFetch now req (fetch call), [call])

/-- `handleRequest(req)`. -/
def handleRequest (env : Env) (fetch : Fetch) (now : Nat) (req : Request) : Outcome :=
  let apiKey := getApiKey env req
  if noKey apiKey then ⟨missingKey, []⟩
  else
    match handleWithKey env fetch now req (apiKey.getD []) with
    | (.ok result, calls) => ⟨result, calls⟩
    | (.error message, calls) => ⟨serverError message, calls⟩

/-! ## The stream producer -/

/-- An operation on the sink (`streamController`). -/
inductive SinkOp where
  | enqueue (text : Str)
  | close
  deriving DecidableEq

/-- The frame `data: ${JSON.stringify(payload)}\n\n`. -/
def dataFrame (payload : JSVal) : Str :=
  "data: ".toList ++ stringifyHole payload ++ "\n\n".toList

/-- The frame the `catch` clause of the producer enqueues. -/
def errorFrame (message : Str) : Str :=
  dataFrame (.obj [("error".toList, .obj [("message".toList, .str message)])])

/-- The `while (true)` loop of the producer and what follows it, from read number `i` on:
`clock i` is the clock reading while chunk `i` is translated. -/
def pump (clock : Nat → Nat) (req : Request) (readError : Option Str) :
    Nat → List Str → List SinkOp
  | _, [] =>
    match readError with
    | none => [.enqueue "data: [DONE]\n\n".toList, .close]
    | some m => [.enqueue (errorFrame m), .close]
  | i, chunk :: rest =>
    .enqueue (transformStreamChunk (clock i) chunk req) :: pump clock req readError (i + 1) rest

/-- The producer `stream(streamController)`: the operations it performs on the sink, in
order, and the upstream calls it makes. -/
def runProducer (fetch : Fetch) (clock : Nat → Nat) (p : Producer) :
    List SinkOp × List FetchCall :=
  let ops : List SinkOp :=
    match fetch p.call with
    | .error m => [.enqueue (errorFrame m), .close]
    | .ok response =>
      if !response.ok then
        match response.json with
        | .error m => [.enqueue (errorFrame m), .close]
        | .ok errorData =>
          [.enqueue (dataFrame (.obj [("error".toList, errorData)])), .close]
      else pump clock p.req response.readError 0 response.chunks
  (ops, [p.call])

/-- Everything the sink received, concatenated. -/
def sinkText : List SinkOp → Str
  | [] => []
  | .enqueue t :: rest => t ++ sinkText rest
  | .close :: rest => sinkText rest

/-! ## The Cloudflare worker (`worker.mjs`): the inlined response mappers

The worker's mappers are `async` and take the upstream `Response` itself, whose body they read
with `await grokResponse.json()`; they do not use their second argument. -/

/-- `DEFAULT_MODEL` of `worker.mjs`. -/
def Worker.DEFAULT_MODEL : Str := "grok-1".toList

/-- The `usage` member of the worker's chat and completions responses. -/
def Worker.usageOf (usage : JSVal) : JSVal :=
  .obj [("prompt_tokens".toList, (usage.getOpt "promptTokens".toList).or (.num 0 0)),
        ("completion_tokens".toList, (usage.getOpt "completionTokens".toList).or (.num 0 0)),
        ("total_tokens".toList, (usage.getOpt "totalTokens".toList).or (.num 0 0))]

/-- The callback of `responseBody.choices.map` in the worker's `transformGrokChatToOpenAI`. -/
def Worker.mapChatChoice (choice : JSVal) (index : Nat) : Except Str JSVal := do
  let message ← choice.get "message".toList
  let content ← message.get "content".toList
  let finishReason ← choice.get "finishReason".toList
  pure (.obj [("index".toList, .ofNat index),
              ("message".toList, .obj [("role".toList, .str "assistant".toList),
                                       ("content".toList, content)]),
              ("finish_reason".toList, finishReason.or (.str "stop".toList))])

/-- The callback of `responseBody.choices.map` in the worker's
`transformGrokCompletionsToOpenAI`. -/
def Worker.mapCompletionChoice (choice : JSVal) (index : Nat) : Except Str JSVal := do
  let text ← choice.get "text".toList
  let finishReason ← choice.get "finishReason".toList
  pure (.obj [("index".toList, .ofNat index),
              ("text".toList, text),
              ("finish_reason".toList, finishReason.or (.str "stop".toList))])

/-- The callback of `responseBody.data.map` in the worker's
`transformGrokEmbeddingsToOpenAI`. -/
def Worker.mapEmbedding (item : JSVal) (index : Nat) : Except Str JSVal := do
  let embedding ← item.get "embedding".toList
  pure (.obj [("object".toList, .str "embedding".toList),
              ("embedding".toList, embedding),
              ("index".toList, .ofNat index)])

/-- The worker's `transformGrokChatToOpenAI(grokResponse, originalRequest)`. -/
def Worker.transformGrokChatToOpenAI (now : Nat) (grokResponse : Response)
    (_originalRequest : Request) : Except Str JSVal := do
  let responseBody ← grokResponse.json
  let usage ← responseBody.get "usage".toList
  let choices ← mapIfNonEmpty "responseBody.choices.map".toList
    (← responseBody.get "choices".toList) Worker.mapChatChoice
  pure (.obj [("id".toList, .str ("chatcmpl-".toList ++ natDigits now)),
              ("object".toList, .str "chat.completion".toList),
              ("created".toList, .ofNat (now / 1000)),
              ("model".toList, .str Worker.DEFAULT_MODEL),
              ("choices".toList, choices),
              ("usage".toList, Worker.usageOf usage)])

/-- The worker's `transformGrokCompletionsToOpenAI(grokResponse, originalRequest)`. -/
def Worker.transformGrokCompletionsToOpenAI (now : Nat) (grokResponse : Response)
    (_originalRequest : Request) : Except Str JSVal := do
  let responseBody ← grokResponse.json
  let usage ← responseBody.get "usage".toList
  let choices ← mapIfNonEmpty "responseBody.choices.map".toList
    (← responseBody.get "choices".toList) Worker.mapCompletionChoice
  pure (.obj [("id".toList, .str ("cmpl-".toList ++ natDigits now)),
              ("object".toList, .str "text_completion".toList),
              ("created".toList, .ofNat (now / 1000)),
              ("model".toList, .str Worker.DEFAULT_MODEL),
              ("choices".toList, choices),
              ("usage".toList, Worker.usageOf usage)])

/-- The worker's `transformGrokEmbeddingsToOpenAI(grokResponse, originalRequest)`. -/
def Worker.transformGrokEmbeddingsToOpenAI (grokResponse : Response)
    (_originalRequest : Request) : Except Str JSVal := do
  let responseBody ← grokResponse.json
  let usage ← responseBody.get "usage".toList
  let data ← mapIfNonEmpty "responseBody.data.map".toList
    (← responseBody.get "data".toList) Worker.mapEmbedding
  pure (.obj [("object".toList, .str "list".toList),
              ("data".toList, data),
              ("model".toList, .str Worker.DEFAULT_MODEL),
              ("usage".toList,
                .obj [("prompt_tokens".toList, (usage.getOpt "promptTokens".toList).or (.num 0 0)),
                      ("total_tokens".toList, (usage.getOpt "totalTokens".toList).or (.num 0 0))])])

/-! ## Sample inputs -/

/-- A streaming chat-completions request carrying a credential. -/
def sampleStreamRequest : Request :=
  { method := "POST".toList
    path := "/v1/chat/completions".toList
    headers := [("authorization".toList, "Bearer k".toList)]
    body := .obj [("messages".toList, .arr []), ("stream".toList, .bool true)] }

/-- A non-streaming completions request carrying a credential. -/
def sampleCompletionsRequest : Request :=
  { method := "POST".toList
    path := "/v1/completions".toList
    headers := [("authorization".toList, "Bearer k".toList)]
    body := .obj [("prompt".toList, .str "hi".toList)] }

/-- A request for a route the proxy does not know, carrying a credential. -/
def sampleUnknownRouteRequest : Request :=
  { method := "POST".toList
    path := "/v1/foo".toList
    headers := [("authorization".toList, "Bearer k".toList)]
    body := .obj [] }

/-- The upstream body the request mapper gives for `sampleCompletionsRequest`. -/
def sampleCompletionsUpstream : JSVal :=
  .obj [("model".toList, .str "grok-1".toList), ("prompt".toList, .str "hi".toList),
        ("temperature".toList, .num 1 0), ("maxTokens".toList, .num 1024 0),
        ("topP".toList, .num 1 0), ("stream".toList, .bool false)]

/-- The upstream body the request mapper gives for `sampleStreamRequest`. -/
def sampleStreamUpstream : JSVal :=
  .obj [("model".toList, .str "grok-1".toList), ("messages".toList, .arr []),
        ("temperature".toList, .num 1 0), ("maxTokens".toList, .num 1024 0),
        ("topP".toList, .num 1 0), ("stream".toList, .bool true)]

/-- An environment with no variable set. -/
def emptyEnv : Env := ⟨none, none⟩

/-- An upstream whose every call throws a transport failure. -/
def failingFetch : Fetch := fun _ => .error "boom".toList

/-- An upstream that streams the single chunk `data: [DONE]` with its blank line and then
ends normally. -/
def doneFetch : Fetch := fun _ =>
  .ok { status := 200
        json := .error "body already read".toList
        chunks := ["data: [DONE]\n\n".toList]
        readError := none }

/-- An upstream that answers every call with status 429 and a JSON error body. -/
def rateLimitedFetch : Fetch := fun _ =>
  .ok { status := 429
        json := .ok (.obj [("error".toList,
          .obj [("message".toList, .str "slow down".toList),
                ("code".toList, .str "rate_limited".toList)])])
        chunks := []
        readError := none }

/-- An upstream that answers every call with status 429 and a JSON error body whose message is
the empty string. -/
def emptyMessageFetch : Fetch := fun _ =>
  .ok { status := 429
        json := .ok (.obj [("error".toList,
          .obj [("message".toList, .str []),
                ("code".toList, .str "rate_limited".toList)])])
        chunks := []
        readError := none }

/-- A clock that stands still. -/
def fixedClock : Nat → Nat := fun _ => 1700000000123

/-- The completions body `{"prompt":"hi","temperature":0,"max_tokens":0,"top_p":0}`. -/
def zeroParamsBody : JSVal :=
  .obj [("prompt".toList, .str "hi".toList), ("temperature".toList, .num 0 0),
        ("max_tokens".toList, .num 0 0), ("top_p".toList, .num 0 0)]

/-- The chat body `{"messages":[{"role":"assistant","content":null},
{"role":"tool","content":false}]}`. -/
def nullContentBody : JSVal :=
  .obj [("messages".toList, .arr
    [.obj [("role".toList, .str "assistant".toList), ("content".toList, .null)],
     .obj [("role".toList, .str "tool".toList), ("content".toList, .bool false)]])]

/-- A completions request whose `model` is the number 5. -/
def numericModelRequest : Request :=
  { method := "POST".toList
    path := "/v1/completions".toList
    headers := [("authorization".toList, "Bearer k".toList)]
    body := .obj [("model".toList, .num 5 0), ("prompt".toList, .str "hi".toList)] }

/-- A non-streaming chat-completions request for the model `gpt-4`, carrying a credential. -/
def sampleChatRequest : Request :=
  { method := "POST".toList
    path := "/v1/chat/completions".toList
    headers := [("authorization".toList, "Bearer k".toList)]
    body := .obj [("model".toList, .str "gpt-4".toList),
                  ("messages".toList, .arr [.obj [("role".toList, .str "user".toList),
                                                  ("content".toList, .str "hi".toList)]])] }

/-- The chat reply `{"choices":[{"message":{"content":"hello"},"finishReason":""}]}`. -/
def emptyFinishReasonChatReply : JSVal :=
  .obj [("choices".toList, .arr
    [.obj [("message".toList, .obj [("content".toList, .str "hello".toList)]),
           ("finishReason".toList, .str [])]])]

/-- The chat reply `{"choices":[{"message":{"content":"hello"},"finishReason":"length"},
{"message":{"content":"bye"}}],"usage":{"promptTokens":3,"completionTokens":0,
"totalTokens":3}}`. -/
def sampleChatReply : JSVal :=
  .obj [("choices".toList, .arr
    [.obj [("message".toList, .obj [("content".toList, .str "hello".toList)]),
           ("finishReason".toList, .str "length".toList)],
     .obj [("message".toList, .obj [("content".toList, .str "bye".toList)])]]),
    ("usage".toList, .obj [("promptTokens".toList, .num 3 0),
                           ("completionTokens".toList, .num 0 0),
                           ("totalTokens".toList, .num 3 0)])]

/-- A non-streaming embeddings request carrying a credential. -/
def sampleEmbeddingsRequest : Request :=
  { method := "POST".toList
    path := "/v1/embeddings".toList
    headers := [("authorization".toList, "Bearer k".toList)]
    body := .obj [("model".toList, .str "text-embedding-3".toList),
                  ("input".toList, .str "x".toList)] }

/-- The embeddings reply `{"data":[{"embedding":[0.5,2]},{"embedding":[1]}],
"usage":{"promptTokens":2,"totalTokens":2}}`. -/
def sampleEmbeddingsReply : JSVal :=
  .obj [("data".toList, .arr
    [.obj [("embedding".toList, .arr [.num 5 1, .num 2 0])],
     .obj [("embedding".toList, .arr [.num 1 0])]]),
    ("usage".toList, .obj [("promptTokens".toList, .num 2 0),
                           ("totalTokens".toList, .num 2 0)])]

/-- The completions reply `{"choices":[{"text":"hello","finishReason":""}]}`. -/
def emptyFinishReasonCompletionsReply : JSVal :=
  .obj [("choices".toList, .arr
    [.obj [("text".toList, .str "hello".toList), ("finishReason".toList, .str [])]])]

/-- The completions reply `{"choices":[{"text":"hello","finishReason":"length"},
{"text":"bye"}],"usage":{"promptTokens":3,"completionTokens":4,"totalTokens":7}}`. -/
def sampleCompletionsReply : JSVal :=
  .obj [("choices".toList, .arr
    [.obj [("text".toList, .str "hello".toList), ("finishReason".toList, .str "length".toList)],
     .obj [("text".toList, .str "bye".toList)]]),
    ("usage".toList, .obj [("promptTokens".toList, .num 3 0),
                           ("completionTokens".toList, .num 4 0),
                           ("totalTokens".toList, .num 7 0)])]

/-- A non-streaming completions request whose `model` is the empty string. -/
def emptyModelRequest : Request :=
  { method := "POST".toList
    path := "/v1/completions".toList
    headers := [("authorization".toList, "Bearer k".toList)]
    body := .obj [("model".toList, .str []), ("prompt".toList, .str "hi".toList)] }

/-- An upstream that answers every call with status 200 and the given JSON body. -/
def replyFetch (reply : JSVal) : Fetch := fun _ =>
  .ok { status := 200, json := .ok reply, chunks := [], readError := none }

/-- The reply `{"choices":[{}]}`: one choice, with no message and no text. -/
def bareChoiceReply : JSVal := .obj [("choices".toList, .arr [.obj []])]

/-- The chat reply `{"choices":[{"message":{}}]}`: one choice whose message has no content. -/
def noContentReply : JSVal :=
  .obj [("choices".toList, .arr [.obj [("message".toList, .obj [])]])]

/-- The mapped body of `sampleChatReply` for `sampleChatRequest` at the clock reading
1700000000123. -/
def sampleChatMapped : JSVal :=
  .obj [("id".toList, .str "chatcmpl-1700000000123".toList),
        ("object".toList, .str "chat.completion".toList),
        ("created".toList, .ofNat 1700000000),
        ("model".toList, .str "gpt-4".toList),
        ("choices".toList, .arr
          [.obj [("index".toList, .ofNat 0),
                 ("message".toList, .obj [("role".toList, .str "assistant".toList),
                                          ("content".toList, .str "hello".toList)]),
                 ("finish_reason".toList, .str "length".toList)],
           .obj [("index".toList, .ofNat 1),
                 ("message".toList, .obj [("role".toList, .str "assistant".toList),
                                          ("content".toList, .str "bye".toList)]),
                 ("finish_reason".toList, .str "stop".toList)]]),
        ("usage".toList, .obj [("prompt_tokens".toList, .num 3 0),
                               ("completion_tokens".toList, .num 0 0),
                               ("total_tokens".toList, .num 3 0)])]

/-- The embeddings reply `{"data":[{}]}`: one datum, with no embedding. -/
def bareDatumReply : JSVal := .obj [("data".toList, .arr [.obj []])]

/-- A streaming completions request carrying a credential. -/
def sampleStreamCompletionsRequest : Request :=
  { method := "POST".toList
    path := "/v1/completions".toList
    headers := [("authorization".toList, "Bearer k".toList)]
    body := .obj [("prompt".toList, .str "hi".toList), ("stream".toList, .bool true)] }

/-- An upstream that answers every call with status 200, delivers two chunks and then fails
the next read with the message `reset`. -/
def resetAfterTwoChunksFetch : Fetch := fun _ =>
  .ok { status := 200
        json := .error "body already read".toList
        chunks := ["data: \x7b\"choices\":[\x7b\"delta\":\x7b\"content\":\"a\"\x7d\x7d]\x7d\n\n".toList,
                   ": keep-alive\n\n".toList]
        readError := some "reset".toList }

/-- The producer of the sample streaming request. -/
def sampleProducer : Producer :=
  ⟨fetchCall "https://api.grok.ai/v1/chat/completions".toList "k".toList sampleStreamUpstream,
    sampleStreamRequest⟩

/-- A `GET` of the model list that carries a credential and no body. -/
def listModelsRequest : Request :=
  { method := "GET".toList
    path := "/v1/models".toList
    headers := [("authorization".toList, "Bearer k".toList)]
    body := .undefined }

/-- An environment holding a fallback key. -/
def fallbackKeyEnv : Env := ⟨none, some "fallback".toList⟩

/-- The upstream body of the sample chat request. -/
def sampleChatUpstream : JSVal :=
  .obj [("model".toList, .str "grok-1".toList),
        ("messages".toList, .arr [.obj [("role".toList, .str "user".toList),
                                        ("content".toList, .str "hi".toList)]]),
        ("temperature".toList, .num 1 0), ("maxTokens".toList, .num 1024 0),
        ("topP".toList, .num 1 0), ("stream".toList, .bool false)]

/-- An upstream that answers every call with status 502 and a body that is not JSON, so that
reading it as JSON fails with the message of the parser. -/
def badGatewayFetch : Fetch := fun _ =>
  .ok { status := 502
        json := .error "Unexpected token < in JSON at position 0".toList
        chunks := []
        readError := none }

/-- An upstream response of status 200 whose body reads as the JSON value `reply`. -/
def replyResponse (reply : JSVal) : Response :=
  { status := 200, json := .ok reply, chunks := [], readError := none }

/-- The embeddings reply `{"data":[{"embedding":[1]}],
"usage":{"promptTokens":2,"completionTokens":5,"totalTokens":7}}`. -/
def usageEmbeddingsReply : JSVal :=
  .obj [("data".toList, .arr [.obj [("embedding".toList, .arr [.num 1 0])]]),
    ("usage".toList, .obj [("promptTokens".toList, .num 2 0),
                           ("completionTokens".toList, .num 5 0),
                           ("totalTokens".toList, .num 7 0)])]

/-! ## Lemmas on lines and trimming -/

theorem splitLines_ne_nil (s : Str) : splitLines s ≠ [] := by
  induction s with
  | nil => simp [splitLines]
  | cons c cs ih =>
    unfold splitLines
    split
    · simp
    · split <;> simp

theorem splitLines_newline (cs : Str) : splitLines ('\n' :: cs) = [] :: splitLines cs := by
  simp [splitLines]

theorem splitLines_cons_of_ne (c : Char) (cs : Str) (hc : c ≠ '\n') :
    splitLines (c :: cs) =
      match splitLines cs with
      | l :: ls => (c :: l) :: ls
      | [] => [[c]] := by
  rw [splitLines, if_neg hc]

theorem splitLines_of_no_newline (s : Str) (h : '\n' ∉ s) : splitLines s = [s] := by
  induction s with
  | nil => rfl
  | cons c cs ih =>
    have hc : c ≠ '\n' := fun e => h (by simp [e])
    have hcs : '\n' ∉ cs := fun e => h (by simp [e])
    rw [splitLines_cons_of_ne c cs hc, ih hcs]

theorem splitLines_append_newline (a b : Str) (h : '\n' ∉ a) :
    splitLines (a ++ '\n' :: b) = a :: splitLines b := by
  induction a with
  | nil => exact splitLines_newline b
  | cons c cs ih =>
    have hc : c ≠ '\n' := fun e => h (by simp [e])
    have hcs : '\n' ∉ cs := fun e => h (by simp [e])
    show splitLines (c :: (cs ++ '\n' :: b)) = _
    rw [splitLines_cons_of_ne c _ hc, ih hcs]

theorem dropWhile_append_singleton_ne_nil (p : Char → Bool) (l : Str) (c : Char)
    (hc : p c = false) : (l ++ [c]).dropWhile p ≠ [] := by
  induction l with
  | nil => simp [List.dropWhile, hc]
  | cons d ds ih =>
    simp only [List.cons_append, List.dropWhile]
    cases p d <;> simp [ih]

theorem trim_cons_ne_nil (c : Char) (s : Str) (hc : isTrimChar c = false) :
    trim (c :: s) ≠ [] := by
  unfold trim
  simp only [List.dropWhile, hc, List.reverse_cons]
  intro h
  have h2 := congrArg List.reverse h
  simp only [List.reverse_reverse, List.reverse_nil] at h2
  exact dropWhile_append_singleton_ne_nil isTrimChar s.reverse c hc h2

theorem trim_data_ne_nil (rest : Str) : (trim ("data: ".toList ++ rest)).isEmpty = false := by
  have h := trim_cons_ne_nil 'd' ("ata: ".toList ++ rest) (by decide)
  cases hh : trim ("data: ".toList ++ rest) with
  | nil => exact absurd hh h
  | cons _ _ => rfl

/-! ## Lemmas on `JSON.parse` -/

/-- A parse that succeeds with some fuel succeeds with more fuel, with the same result. -/
theorem parse_fuel_mono : ∀ fuel,
    (∀ s r, parseValue fuel s = some r → parseValue (fuel + 1) s = some r)
    ∧ (∀ s acc r, parseElems fuel s acc = some r → parseElems (fuel + 1) s acc = some r)
    ∧ (∀ s acc r, parseMembers fuel s acc = some r → parseMembers (fuel + 1) s acc = some r) := by
  intro fuel
  induction fuel with
  | zero =>
    refine ⟨?_, ?_, ?_⟩
    · intro s r h; simp [parseValue] at h
    · intro s acc r h; simp [parseElems] at h
    · intro s acc r h; simp [parseMembers] at h
  | succ n ih =>
    obtain ⟨ihV, ihE, ihM⟩ := ih
    refine ⟨?_, ?_, ?_⟩
    · intro s r h
      rw [parseValue] at h ⊢
      cases hs : skipSpace s with
      | nil => rw [hs] at h; simp at h
      | cons c cs =>
        rw [hs] at h
        simp only at h ⊢
        split
        · simpa [*] using h
        · split
          · rename_i h1 h2
            simp only [h1, h2, if_false, if_true] at h
            cases hcs : skipSpace cs with
            | nil => rw [hcs] at h; simp at h
            | cons d ds =>
              rw [hcs] at h
              simp only at h ⊢
              split
              · simpa [*] using h
              · rename_i h3
                simp only [h3, if_false] at h
                exact ihM _ _ _ h
          · split
            · rename_i h1 h2 h3
              simp only [h1, h2, h3, if_false, if_true] at h
              cases hcs : skipSpace cs with
              | nil => rw [hcs] at h; simp at h
              | cons d ds =>
                rw [hcs] at h
                simp only at h ⊢
                split
                · simpa [*] using h
                · rename_i h4
                  simp only [h4, if_false] at h
                  exact ihE _ _ _ h
            · rename_i h1 h2 h3
              simpa [h1, h2, h3] using h
    · intro s acc r h
      rw [parseElems] at h ⊢
      cases hv : parseValue n s with
      | none => rw [hv] at h; simp at h
      | some p =>
        obtain ⟨v, rest⟩ := p
        rw [hv] at h
        rw [ihV _ _ hv]
        simp only at h ⊢
        cases hr : skipSpace rest with
        | nil => rw [hr] at h; simp at h
        | cons c cs =>
          rw [hr] at h
          simp only at h ⊢
          split
          · rename_i h1
            simp only [h1, if_true] at h
            exact ihE _ _ _ h
          · rename_i h1
            simpa [h1] using h
    · intro s acc r h
      rw [parseMembers] at h ⊢
      cases hs : skipSpace s with
      | nil => rw [hs] at h; simp at h
      | cons c cs =>
        rw [hs] at h
        simp only at h ⊢
        split
        · rename_i h1
          simp only [h1, if_true] at h
          cases hk : parseString cs with
          | none => rw [hk] at h; simp at h
          | some p =>
            obtain ⟨k, r1⟩ := p
            rw [hk] at h
            simp only at h ⊢
            cases hr : skipSpace r1 with
            | nil => rw [hr] at h; simp at h
            | cons d ds =>
              rw [hr] at h
              simp only at h ⊢
              split
              · rename_i h2
                simp only [h2, if_true] at h
                cases hv : parseValue n ds with
                | none => rw [hv] at h; simp at h
                | some q =>
                  obtain ⟨v, r2⟩ := q
                  rw [hv] at h
                  rw [ihV _ _ hv]
                  simp only at h ⊢
                  cases hr2 : skipSpace r2 with
                  | nil => rw [hr2] at h; simp at h
                  | cons x xs =>
                    rw [hr2] at h
                    simp only at h ⊢
                    split
                    · rename_i h3
                      simp only [h3, if_true] at h
                      exact ihM _ _ _ h
                    · rename_i h3
                      simpa [h3] using h
              · rename_i h2
                simp [h2] at h
        · rename_i h1
          simp [h1] at h

/-- The text `[DONE]` is not JSON, whatever the fuel. -/
theorem parseValue_done_marker : ∀ fuel, parseValue fuel "[DONE]".toList = none
  | 0 => rfl
  | 1 => rfl
  | 2 => rfl
  | _ + 3 => rfl

/-- The text `oops` is not JSON, whatever the fuel. -/
theorem parseValue_oops : ∀ fuel, parseValue fuel "oops".toList = none
  | 0 => rfl
  | _ + 1 => rfl

/-- The text `{"a` is not JSON, whatever the fuel. -/
theorem parseValue_cut_payload : ∀ fuel, parseValue fuel "\x7b\"a".toList = none
  | 0 => rfl
  | 1 => rfl
  | _ + 2 => rfl

/-! ## Lemmas on the translation of one line -/

theorem transformLine_nil (now : Nat) (req : Request) : transformLine now req [] = some [] := rfl

theorem transformLine_data_ok (now : Nat) (req : Request) (j : Str) (d t : JSVal)
    (hp : JSON.parse j = some d) (hd : d.strictEqStr "[DONE]".toList = false)
    (ht : transformPayload now d req = .ok t) :
    transformLine now req ("data: ".toList ++ j) = some ("data: ".toList ++ stringifyHole t) := by
  have hpre : "data: ".toList.isPrefixOf ("data: ".toList ++ j) = true := by simp
  have hdrop : ("data: ".toList ++ j).drop 6 = j := rfl
  simp only [transformLine, trim_data_ne_nil, hpre, hdrop, hp, hd, ht, Bool.not_true,
    Bool.or_self, Bool.false_eq_true, if_false]

theorem transformLine_data_malformed (now : Nat) (req : Request) (j : Str)
    (hp : JSON.parse j = none) :
    transformLine now req ("data: ".toList ++ j) = some ("data: ".toList ++ j) := by
  have hpre : "data: ".toList.isPrefixOf ("data: ".toList ++ j) = true := by simp
  have hdrop : ("data: ".toList ++ j).drop 6 = j := rfl
  simp only [transformLine, trim_data_ne_nil, hpre, hdrop, hp, Bool.not_true,
    Bool.or_self, Bool.false_eq_true, if_false]

theorem transformStreamChunk_of_lines (now : Nat) (req : Request) (chunk : Str)
    (h : (trim chunk).isEmpty = false) :
    transformStreamChunk now chunk req =
      joinLines ((splitLines chunk).filterMap (transformLine now req)) ++ "\n\n".toList := by
  simp only [transformStreamChunk, h, Bool.false_eq_true, if_false]

theorem transformStreamChunk_blank (now : Nat) (req : Request) (chunk : Str)
    (h : (trim chunk).isEmpty = true) : transformStreamChunk now chunk req = [] := by
  simp only [transformStreamChunk, h, if_true]

theorem not_mem_data (j : Str) (h : '\n' ∉ j) : '\n' ∉ "data: ".toList ++ j := by
  intro hm
  rcases List.mem_append.mp hm with h1 | h2
  · exact absurd h1 (by decide)
  · exact h h2

/-! ## Lemmas on property reads -/

theorem JSVal.get_of_not_nullish (v : JSVal) (k : Str) (h : v.isNullish = false) :
    v.get k = .ok (v.getOpt k) := by
  cases v <;> first | rfl | exact absurd h (by simp [JSVal.isNullish])

/-! ## Lemmas on blank chunks -/

theorem all_trimChar_of_trim_eq_nil (s : Str) (h : trim s = []) : ∀ c ∈ s, isTrimChar c = true := by
  unfold trim at h
  have h1 : (s.dropWhile isTrimChar).reverse.dropWhile isTrimChar = [] := by
    have := congrArg List.reverse h
    simpa using this
  have h2 : ∀ c ∈ s.dropWhile isTrimChar, isTrimChar c = true := by
    intro c hc
    exact (List.dropWhile_eq_nil_iff.mp h1) c (List.mem_reverse.mpr hc)
  have h3 : (s.dropWhile isTrimChar).dropWhile isTrimChar = [] :=
    List.dropWhile_eq_nil_iff.mpr h2
  rw [List.dropWhile_idempotent] at h3
  exact List.dropWhile_eq_nil_iff.mp h3

theorem mem_of_mem_splitLines (s : Str) : ∀ l ∈ splitLines s, ∀ c ∈ l, c ∈ s := by
  induction s with
  | nil =>
    intro l hl c hc
    simp [splitLines] at hl
    subst hl
    exact absurd hc (List.not_mem_nil c)
  | cons a as ih =>
    intro l hl c hc
    by_cases ha : a = '\n'
    · subst ha
      rw [splitLines_newline] at hl
      rcases List.mem_cons.mp hl with h | h
      · subst h; exact absurd hc (List.not_mem_nil c)
      · exact List.mem_cons_of_mem _ (ih l h c hc)
    · rw [splitLines_cons_of_ne a as ha] at hl
      cases hsp : splitLines as with
      | nil => exact absurd hsp (splitLines_ne_nil as)
      | cons l0 ls =>
        rw [hsp] at hl ih
        rcases List.mem_cons.mp hl with h | h
        · subst h
          rcases List.mem_cons.mp hc with h' | h'
          · subst h'; exact List.mem_cons_self _ _
          · exact List.mem_cons_of_mem _ (ih l0 (List.mem_cons_self _ _) c h')
        · exact List.mem_cons_of_mem _ (ih l (List.mem_cons_of_mem _ h) c hc)

theorem eq_data_append_of_isPrefixOf (l : Str) (h : "data: ".toList.isPrefixOf l = true) :
    l = "data: ".toList ++ l.drop 6 := by
  have hp : "data: ".toList <+: l := List.isPrefixOf_iff_prefix.mp h
  have := List.prefix_iff_eq_append.mp hp
  simpa using this.symm

theorem trim_ne_nil_of_data_line (chunk l : Str) (hl : l ∈ splitLines chunk)
    (hd : "data: ".toList.isPrefixOf l = true) : (trim chunk).isEmpty = false := by
  cases ht : trim chunk with
  | cons _ _ => rfl
  | nil =>
    exfalso
    have hmem : 'd' ∈ l := by
      rw [eq_data_append_of_isPrefixOf l hd]
      exact List.mem_append_left _ (by decide)
    have := all_trimChar_of_trim_eq_nil chunk ht 'd' (mem_of_mem_splitLines chunk l hl 'd' hmem)
    exact absurd this (by decide)

/-! ## C1: a frame cut into two chunks -/

set_option maxRecDepth 100000 in
/-- C1 (as stated, refuted): the frame `data: {"a":1}` followed by a blank line is cut inside
its payload.  Fed whole it gives one translated frame; fed as two chunks it gives the two
pieces, each passed through as a line of its own, and no translated frame. -/
theorem C1_cut_inside_payload :
    (JSON.parse "\x7b\"a\":1\x7d".toList).isSome = true
    ∧ "data: \x7b\"a".toList ++ "\":1\x7d\n\n".toList = "data: \x7b\"a\":1\x7d\n\n".toList
    ∧ transformStreamChunk 1700000000123 "data: \x7b\"a\":1\x7d\n\n".toList sampleStreamRequest
      = "data: \x7b\"id\":\"chatcmpl-1700000000123\",\"object\":\"chat.completion.chunk\",\"created\":1700000000,\"model\":\"grok-1\",\"choices\":[\x7b\"index\":0,\"delta\":\x7b\"content\":\"\"\x7d,\"finish_reason\":null\x7d]\x7d\n\n\n\n".toList
    ∧ transformStreamChunk 1700000000123 "data: \x7b\"a".toList sampleStreamRequest
        ++ transformStreamChunk 1700000000123 "\":1\x7d\n\n".toList sampleStreamRequest
      = "data: \x7b\"a\n\n\":1\x7d\n\n\n\n".toList := by
  decide

/-- C1 (amended): for a frame whose payload `j` has no line break and parses to a value the
translation accepts, the uncut frame gives the translated line followed by four line breaks,
and each of the two cuts that leave the whole `data:` line in the first chunk gives the same
translated line, once, followed by two respectively three line breaks, whatever the clock
reads when the second chunk arrives. -/
theorem C1_cut_after_payload (now later : Nat) (req : Request) (j : Str) (d t : JSVal)
    (hj : '\n' ∉ j) (hp : JSON.parse j = some d)
    (hd : d.strictEqStr "[DONE]".toList = false)
    (ht : transformPayload now d req = .ok t) :
    transformStreamChunk now ("data: ".toList ++ j ++ "\n\n".toList) req
      = "data: ".toList ++ stringifyHole t ++ "\n\n\n\n".toList
    ∧ transformStreamChunk now ("data: ".toList ++ j) req
        ++ transformStreamChunk later "\n\n".toList req
      = "data: ".toList ++ stringifyHole t ++ "\n\n".toList
    ∧ transformStreamChunk now ("data: ".toList ++ j ++ "\n".toList) req
        ++ transformStreamChunk later "\n".toList req
      = "data: ".toList ++ stringifyHole t ++ "\n\n\n".toList := by
  have hline := transformLine_data_ok now req j d t hp hd ht
  have hnl := not_mem_data j hj
  have hblank2 : transformStreamChunk later "\n\n".toList req = [] :=
    transformStreamChunk_blank later req _ (by decide)
  have hblank1 : transformStreamChunk later "\n".toList req = [] :=
    transformStreamChunk_blank later req _ (by decide)
  refine ⟨?_, ?_, ?_⟩
  · have hsplit : splitLines ("data: ".toList ++ j ++ "\n\n".toList)
        = [("data: ".toList ++ j), [], []] :=
      splitLines_append_newline ("data: ".toList ++ j) ['\n'] hnl
    have htrim : (trim ("data: ".toList ++ j ++ "\n\n".toList)).isEmpty = false := by
      rw [List.append_assoc]; exact trim_data_ne_nil _
    rw [transformStreamChunk_of_lines now req _ htrim, hsplit]
    simp only [List.filterMap_cons, List.filterMap_nil, hline, transformLine_nil, joinLines]
    simp
  · have hsplit : splitLines ("data: ".toList ++ j) = [("data: ".toList ++ j)] :=
      splitLines_of_no_newline _ hnl
    rw [transformStreamChunk_of_lines now req _ (trim_data_ne_nil j), hsplit, hblank2]
    simp only [List.filterMap_cons, List.filterMap_nil, hline, joinLines]
    simp
  · have hsplit : splitLines ("data: ".toList ++ j ++ "\n".toList)
        = [("data: ".toList ++ j), []] :=
      splitLines_append_newline ("data: ".toList ++ j) [] hnl
    have htrim : (trim ("data: ".toList ++ j ++ "\n".toList)).isEmpty = false := by
      rw [List.append_assoc]; exact trim_data_ne_nil _
    rw [transformStreamChunk_of_lines now req _ htrim, hsplit, hblank1]
    simp only [List.filterMap_cons, List.filterMap_nil, hline, transformLine_nil, joinLines]
    simp

set_option maxRecDepth 100000 in
/-- C1 (amended), at the frame `data: {"a":1}` on the chat route. -/
theorem C1_cut_after_payload_witness :
    transformStreamChunk 1700000000123 ("data: ".toList ++ "\x7b\"a\":1\x7d".toList
        ++ "\n\n".toList) sampleStreamRequest
      = "data: ".toList ++ stringifyHole (.obj
          [("id".toList, .str "chatcmpl-1700000000123".toList),
           ("object".toList, .str "chat.completion.chunk".toList),
           ("created".toList, .ofNat 1700000000),
           ("model".toList, .str "grok-1".toList),
           ("choices".toList, .arr [.obj
             [("index".toList, .num 0 0),
              ("delta".toList, .obj [("content".toList, .str [])]),
              ("finish_reason".toList, .null)]])]) ++ "\n\n\n\n".toList
    ∧ transformStreamChunk 1700000000123 ("data: ".toList ++ "\x7b\"a\":1\x7d".toList)
          sampleStreamRequest
        ++ transformStreamChunk 1700000000456 "\n\n".toList sampleStreamRequest
      = "data: ".toList ++ stringifyHole (.obj
          [("id".toList, .str "chatcmpl-1700000000123".toList),
           ("object".toList, .str "chat.completion.chunk".toList),
           ("created".toList, .ofNat 1700000000),
           ("model".toList, .str "grok-1".toList),
           ("choices".toList, .arr [.obj
             [("index".toList, .num 0 0),
              ("delta".toList, .obj [("content".toList, .str [])]),
              ("finish_reason".toList, .null)]])]) ++ "\n\n".toList
    ∧ transformStreamChunk 1700000000123 ("data: ".toList ++ "\x7b\"a\":1\x7d".toList
          ++ "\n".toList) sampleStreamRequest
        ++ transformStreamChunk 1700000000456 "\n".toList sampleStreamRequest
      = "data: ".toList ++ stringifyHole (.obj
          [("id".toList, .str "chatcmpl-1700000000123".toList),
           ("object".toList, .str "chat.completion.chunk".toList),
           ("created".toList, .ofNat 1700000000),
           ("model".toList, .str "grok-1".toList),
           ("choices".toList, .arr [.obj
             [("index".toList, .num 0 0),
              ("delta".toList, .obj [("content".toList, .str [])]),
              ("finish_reason".toList, .null)]])]) ++ "\n\n\n".toList :=
  C1_cut_after_payload 1700000000123 1700000000456 sampleStreamRequest "\x7b\"a\":1\x7d".toList
    (.obj [("a".toList, .num 1 0)]) _ (by decide) rfl rfl rfl

/-! ## C2: the `[DONE]` sentinel -/

set_option maxRecDepth 100000 in
/-- C2 (the code breaks it): the upstream sends the one chunk `data: [DONE]` and ends.  The
producer forwards the upstream marker and then adds its own, so the sink receives the line
`data: [DONE]` twice. -/
theorem C2_done_marker_forwarded :
    (handleRequest emptyEnv doneFetch 1700000000123 sampleStreamRequest).result.stream
      = some ⟨fetchCall "https://api.grok.ai/v1/chat/completions".toList "k".toList
          sampleStreamUpstream,
          sampleStreamRequest⟩
    ∧ (runProducer doneFetch fixedClock
        ⟨fetchCall "https://api.grok.ai/v1/chat/completions".toList "k".toList
          sampleStreamUpstream,
          sampleStreamRequest⟩).1
      = [.enqueue "data: [DONE]\n\n\n\n".toList, .enqueue "data: [DONE]\n\n".toList, .close]
    ∧ (splitLines (sinkText (runProducer doneFetch fixedClock
        ⟨fetchCall "https://api.grok.ai/v1/chat/completions".toList "k".toList
          sampleStreamUpstream,
          sampleStreamRequest⟩).1)).count "data: [DONE]".toList = 2 :=
  ⟨rfl, by decide, by decide⟩

/-! ## C3: a malformed line inside a chunk -/

set_option maxRecDepth 100000 in
/-- C3 (as stated, refuted): on the chat route the chunk holds the malformed line `data: oops`
and the line `data: null`, whose payload is valid JSON.  The second line is not translated:
the output carries both lines unchanged. -/
theorem C3_null_payload_not_translated :
    (JSON.parse "oops".toList).isNone = true
    ∧ (JSON.parse "null".toList).isSome = true
    ∧ transformStreamChunk 1700000000123 "data: oops\ndata: null\n\n".toList sampleStreamRequest
      = "data: oops\ndata: null\n\n\n\n".toList := by
  decide

/-- C3 (amended): in a chunk, a `data: ` line `l` standing between the lines `pre` and `post`
is output in place, the other lines being handled as they are without it.  If its payload is
not valid JSON the line is output unchanged.  If its payload parses to a value other than the
string `[DONE]` that the translation accepts, the line is output as `data: ` followed by the
JSON text of the translation.  For a request that has a body the translation accepts every
value but `null`: on the chat and completions routes it gives the chunk object of the route,
on other routes the parsed value itself. -/
theorem C3_malformed_line_passthrough (now : Nat) (req : Request) (chunk : Str)
    (pre post : List Str) (l : Str)
    (hs : splitLines chunk = pre ++ l :: post)
    (hl : "data: ".toList.isPrefixOf l = true) :
    (JSON.parse (l.drop 6) = none →
      transformStreamChunk now chunk req
        = joinLines (pre.filterMap (transformLine now req) ++
            l :: post.filterMap (transformLine now req)) ++ "\n\n".toList)
    ∧ (∀ d t, JSON.parse (l.drop 6) = some d → d.strictEqStr "[DONE]".toList = false →
        transformPayload now d req = .ok t →
        transformStreamChunk now chunk req
          = joinLines (pre.filterMap (transformLine now req) ++
              ("data: ".toList ++ stringifyHole t) :: post.filterMap (transformLine now req))
            ++ "\n\n".toList)
    ∧ (∀ d, d.isNullish = false → req.body.isNullish = false →
        includes req.path "/chat/completions".toList = true →
        transformPayload now d req = .ok (.obj
          [("id".toList, .str ("chatcmpl-".toList ++ natDigits now)),
           ("object".toList, .str "chat.completion.chunk".toList),
           ("created".toList, .ofNat (now / 1000)),
           ("model".toList, (req.body.getOpt "model".toList).or (.str DEFAULT_MODEL)),
           ("choices".toList, .arr [.obj
             [("index".toList, .num 0 0),
              ("delta".toList, .obj [("content".toList,
                ((((d.getOpt "choices".toList).getOpt0).getOpt "delta".toList).getOpt
                  "content".toList).or (.str []))]),
              ("finish_reason".toList,
                (((d.getOpt "choices".toList).getOpt0).getOpt "finish_reason".toList).or
                  .null)]])]))
    ∧ (∀ d, d.isNullish = false → req.body.isNullish = false →
        includes req.path "/chat/completions".toList = false →
        includes req.path "/completions".toList = true →
        transformPayload now d req = .ok (.obj
          [("id".toList, .str ("cmpl-".toList ++ natDigits now)),
           ("object".toList, .str "text_completion.chunk".toList),
           ("created".toList, .ofNat (now / 1000)),
           ("model".toList, (req.body.getOpt "model".toList).or (.str DEFAULT_MODEL)),
           ("choices".toList, .arr [.obj
             [("index".toList, .num 0 0),
              ("text".toList,
                (((d.getOpt "choices".toList).getOpt0).getOpt "text".toList).or (.str [])),
              ("finish_reason".toList,
                (((d.getOpt "choices".toList).getOpt0).getOpt "finish_reason".toList).or
                  .null)]])]))
    ∧ (∀ d, includes req.path "/chat/completions".toList = false →
        includes req.path "/completions".toList = false →
        transformPayload now d req = .ok d) := by
  have hmem : l ∈ splitLines chunk := by rw [hs]; simp
  have htrim := trim_ne_nil_of_data_line chunk l hmem hl
  have hld := eq_data_append_of_isPrefixOf l hl
  refine ⟨?_, ?_, ?_, ?_, ?_⟩
  · intro hp
    have hline : transformLine now req l = some l := by
      have := transformLine_data_malformed now req (l.drop 6) hp
      rwa [← hld] at this
    rw [transformStreamChunk_of_lines now req chunk htrim, hs, List.filterMap_append,
      List.filterMap_cons, hline]
  · intro d t hp hd ht
    have hline : transformLine now req l = some ("data: ".toList ++ stringifyHole t) := by
      have := transformLine_data_ok now req (l.drop 6) d t hp hd ht
      rwa [← hld] at this
    rw [transformStreamChunk_of_lines now req chunk htrim, hs, List.filterMap_append,
      List.filterMap_cons, hline]
  · intro d hd hb hchat
    rw [transformPayload, if_pos hchat, transformGrokChatStreamToOpenAI,
      JSVal.get_of_not_nullish _ _ hb, JSVal.get_of_not_nullish _ _ hd]
    rfl
  · intro d hd hb hchat hcomp
    rw [transformPayload, if_neg (by rw [hchat]; decide), if_pos hcomp,
      transformGrokCompletionStreamToOpenAI,
      JSVal.get_of_not_nullish _ _ hb, JSVal.get_of_not_nullish _ _ hd]
    rfl
  · intro d hchat hcomp
    rw [transformPayload, if_neg (by rw [hchat]; decide), if_neg (by rw [hcomp]; decide)]

set_option maxRecDepth 100000 in
/-- C3 (amended), at a chunk holding the malformed line `data: oops` and then the line
`data: 5`: the first is output unchanged, the second translated. -/
theorem C3_malformed_line_passthrough_witness :
    splitLines "data: oops\ndata: 5\n\n".toList
      = [] ++ "data: oops".toList :: ["data: 5".toList, [], []]
    ∧ "data: ".toList.isPrefixOf "data: oops".toList = true
    ∧ (JSON.parse ("data: oops".toList.drop 6)).isNone = true
    ∧ transformStreamChunk 1700000000123 "data: oops\ndata: 5\n\n".toList sampleStreamRequest
      = "data: oops\ndata: \x7b\"id\":\"chatcmpl-1700000000123\",\"object\":\"chat.completion.chunk\",\"created\":1700000000,\"model\":\"grok-1\",\"choices\":[\x7b\"index\":0,\"delta\":\x7b\"content\":\"\"\x7d,\"finish_reason\":null\x7d]\x7d\n\n\n\n".toList :=
  ⟨by decide, by decide, by decide,
    ((C3_malformed_line_passthrough 1700000000123 sampleStreamRequest
      "data: oops\ndata: 5\n\n".toList [] ["data: 5".toList, [], []] "data: oops".toList
      (by decide) (by decide)).1 rfl).trans (by decide)⟩

/-! ## C4: a route the proxy does not know -/

set_option maxRecDepth 100000 in
/-- C4 (the code breaks it): a request with a credential for the path `/v1/foo`, which
contains none of the four route names.  The request mapper throws before the route check, so
the result is status 500 with error type `server_error`, not 400 with
`invalid_request_error`. -/
theorem C4_unknown_route_gives_500 :
    includes sampleUnknownRouteRequest.path "/models".toList = false
    ∧ includes sampleUnknownRouteRequest.path "/chat/completions".toList = false
    ∧ includes sampleUnknownRouteRequest.path "/completions".toList = false
    ∧ includes sampleUnknownRouteRequest.path "/embeddings".toList = false
    ∧ getApiKey emptyEnv sampleUnknownRouteRequest = some "k".toList
    ∧ (handleRequest emptyEnv failingFetch 0 sampleUnknownRouteRequest).result.status = 500
    ∧ stringifyHole (handleRequest emptyEnv failingFetch 0 sampleUnknownRouteRequest).result.body
      = "\x7b\"error\":\x7b\"message\":\"Unsupported endpoint: /v1/foo\",\"type\":\"server_error\"\x7d\x7d".toList
    ∧ (handleRequest emptyEnv failingFetch 0 sampleUnknownRouteRequest).calls = [] := by
  refine ⟨by decide, by decide, by decide, by decide, by decide, by decide, by decide, rfl⟩

/-- The general form of C4: whatever the request, with a credential and a path that contains
none of the four route names the result is the one of the `catch` clause. -/
theorem handleRequest_unknown_route (env : Env) (fetch : Fetch) (now : Nat) (req : Request)
    (hkey : noKey (getApiKey env req) = false)
    (h1 : includes req.path "/models".toList = false)
    (h2 : includes req.path "/chat/completions".toList = false)
    (h3 : includes req.path "/completions".toList = false)
    (h4 : includes req.path "/embeddings".toList = false) :
    handleRequest env fetch now req
      = ⟨serverError ("Unsupported endpoint: ".toList ++ req.path), []⟩ := by
  simp only [handleRequest, hkey, handleWithKey, transformOpenAIToGrok, h1, h2, h3, h4,
    Bool.false_eq_true, if_false]

/-! ## C5: no credential -/

/-- C5: a request with no `authorization` header, in a process with no `GROK_API_KEY`, gets
status 401 with error type `authentication_error`; no upstream call is made and the result
holds no producer that could make one later. -/
theorem C5_missing_credential (env : Env) (fetch : Fetch) (now : Nat) (req : Request)
    (hh : headerValue "authorization".toList req.headers = none)
    (he : env.GROK_API_KEY = none) :
    (handleRequest env fetch now req).result.status = 401
    ∧ ((handleRequest env fetch now req).result.body.getOpt "error".toList).getOpt "type".toList
      = .str "authentication_error".toList
    ∧ (handleRequest env fetch now req).calls = []
    ∧ (handleRequest env fetch now req).result.stream = none := by
  have hk : noKey (getApiKey env req) = true := by
    simp only [getApiKey, hh, he, noKey]
  have hr : handleRequest env fetch now req = ⟨missingKey, []⟩ := by
    simp only [handleRequest, hk, if_true]
  rw [hr]
  exact ⟨rfl, rfl, rfl, rfl⟩

/-- C5, at a chat-completions request with a valid body and no header. -/
theorem C5_missing_credential_witness :
    (handleRequest emptyEnv failingFetch 0
      ⟨"POST".toList, "/v1/chat/completions".toList, [],
        .obj [("messages".toList, .arr [])]⟩).result.status = 401
    ∧ ((handleRequest emptyEnv failingFetch 0
      ⟨"POST".toList, "/v1/chat/completions".toList, [],
        .obj [("messages".toList, .arr [])]⟩).result.body.getOpt "error".toList).getOpt
          "type".toList = .str "authentication_error".toList
    ∧ (handleRequest emptyEnv failingFetch 0
      ⟨"POST".toList, "/v1/chat/completions".toList, [],
        .obj [("messages".toList, .arr [])]⟩).calls = []
    ∧ (handleRequest emptyEnv failingFetch 0
      ⟨"POST".toList, "/v1/chat/completions".toList, [],
        .obj [("messages".toList, .arr [])]⟩).result.stream = none :=
  C5_missing_credential emptyEnv failingFetch 0 _ rfl rfl

/-! ## Lemmas on the dispatcher -/

theorem noKey_some (key : Str) (h : key.isEmpty = false) : noKey (some key) = false := by
  simp only [noKey, h]

/-- The non-streaming path of `handleRequest`: one upstream call, and the `catch` clause
around what follows it. -/
theorem handleRequest_nonstreaming (env : Env) (fetch : Fetch) (now : Nat) (req : Request)
    (key url : Str) (grokRequest st : JSVal)
    (hkey : getApiKey env req = some key) (hne : key.isEmpty = false)
    (hmodels : includes req.path "/models".toList = false)
    (hmap : transformOpenAIToGrok req = .ok grokRequest)
    (hurl : grokEndpoint env req.path = some url)
    (hst : req.body.get "stream".toList = .ok st) (hfalsy : st.truthy = false) :
    handleRequest env fetch now req =
      match afterFetch now req (fetch (fetchCall url key grokRequest)) with
      | .ok result => ⟨result, [fetchCall url key grokRequest]⟩
      | .error message => ⟨serverError message, [fetchCall url key grokRequest]⟩ := by
  simp only [handleRequest, hkey, noKey_some key hne, handleWithKey, hmodels, hmap, hurl, hst,
    hfalsy, Bool.false_eq_true, if_false, Option.getD_some]
  cases afterFetch now req (fetch (fetchCall url key grokRequest)) <;> rfl

/-- The streaming path of `handleRequest`: the producer is returned and no call is made. -/
theorem handleRequest_streaming (env : Env) (fetch : Fetch) (now : Nat) (req : Request)
    (key url : Str) (grokRequest st : JSVal)
    (hkey : getApiKey env req = some key) (hne : key.isEmpty = false)
    (hmodels : includes req.path "/models".toList = false)
    (hmap : transformOpenAIToGrok req = .ok grokRequest)
    (hurl : grokEndpoint env req.path = some url)
    (hst : req.body.get "stream".toList = .ok st) (htruthy : st.truthy = true) :
    handleRequest env fetch now req = ⟨streaming (fetchCall url key grokRequest) req, []⟩ := by
  simp only [handleRequest, hkey, noKey_some key hne, handleWithKey, hmodels, hmap, hurl, hst,
    htruthy, Bool.false_eq_true, if_false, if_true, Option.getD_some]

/-! ## C6: an upstream error on a non-streaming request -/

set_option maxRecDepth 100000 in
/-- C6 (as stated, refuted): a non-streaming completions request; the upstream answers 429
with the error body `{"error":{"message":"","code":"rate_limited"}}`.  The member
`error.message` is present, yet the result carries the generic message. -/
theorem C6_empty_message_replaced :
    hasKey "message".toList
      [("message".toList, JSVal.str []), ("code".toList, JSVal.str "rate_limited".toList)] = true
    ∧ (handleRequest emptyEnv emptyMessageFetch 0 sampleCompletionsRequest).result.status = 429
    ∧ stringifyHole (handleRequest emptyEnv emptyMessageFetch 0 sampleCompletionsRequest).result.body
      = "\x7b\"error\":\x7b\"message\":\"Error from Grok API\",\"type\":\"api_error\",\"code\":\"rate_limited\"\x7d\x7d".toList := by
  decide

/-- C6 (amended): on a non-streaming request with a credential that the request mapper
accepts, when the upstream call answers with a non-successful status and a JSON error body
`e` other than `null`, the result is immediate with that status and error type `api_error`;
its message is `e.error.message` when that value is truthy and `Error from Grok API`
otherwise, its code is `e.error.code` when that value is truthy and `unknown_error`
otherwise; exactly one upstream call is made. -/
theorem C6_upstream_error (env : Env) (fetch : Fetch) (now : Nat) (req : Request)
    (key url : Str) (grokRequest st e : JSVal) (response : Response)
    (hkey : getApiKey env req = some key) (hne : key.isEmpty = false)
    (hmodels : includes req.path "/models".toList = false)
    (hmap : transformOpenAIToGrok req = .ok grokRequest)
    (hurl : grokEndpoint env req.path = some url)
    (hst : req.body.get "stream".toList = .ok st) (hfalsy : st.truthy = false)
    (hfetch : fetch (fetchCall url key grokRequest) = .ok response)
    (hok : response.ok = false)
    (hjson : response.json = .ok e) (he : e.isNullish = false) :
    handleRequest env fetch now req =
      ⟨immediate response.status (errorBodyWithCode
          (((e.getOpt "error".toList).getOpt "message".toList).or
            (.str "Error from Grok API".toList))
          "api_error".toList
          (((e.getOpt "error".toList).getOpt "code".toList).or
            (.str "unknown_error".toList))),
        [fetchCall url key grokRequest]⟩
    ∧ (handleRequest env fetch now req).result.status = response.status
    ∧ (handleRequest env fetch now req).result.stream = none
    ∧ ((handleRequest env fetch now req).result.body.getOpt "error".toList).getOpt "type".toList
        = .str "api_error".toList
    ∧ (((e.getOpt "error".toList).getOpt "message".toList).truthy = true →
        ((handleRequest env fetch now req).result.body.getOpt "error".toList).getOpt
          "message".toList = (e.getOpt "error".toList).getOpt "message".toList)
    ∧ (((e.getOpt "error".toList).getOpt "message".toList).truthy = false →
        ((handleRequest env fetch now req).result.body.getOpt "error".toList).getOpt
          "message".toList = .str "Error from Grok API".toList)
    ∧ (((e.getOpt "error".toList).getOpt "code".toList).truthy = true →
        ((handleRequest env fetch now req).result.body.getOpt "error".toList).getOpt
          "code".toList = (e.getOpt "error".toList).getOpt "code".toList)
    ∧ (((e.getOpt "error".toList).getOpt "code".toList).truthy = false →
        ((handleRequest env fetch now req).result.body.getOpt "error".toList).getOpt
          "code".toList = .str "unknown_error".toList) := by
  have hafter : afterFetch now req (fetch (fetchCall url key grokRequest))
      = .ok (immediate response.status (errorBodyWithCode
          (((e.getOpt "error".toList).getOpt "message".toList).or
            (.str "Error from Grok API".toList))
          "api_error".toList
          (((e.getOpt "error".toList).getOpt "code".toList).or
            (.str "unknown_error".toList)))) := by
    rw [hfetch]
    simp only [afterFetch, upstreamError, hok, hjson, JSVal.get_of_not_nullish _ _ he,
      bind, Except.bind, pure, Except.pure, Bool.not_false, if_true]
  have hr := handleRequest_nonstreaming env fetch now req key url grokRequest st
    hkey hne hmodels hmap hurl hst hfalsy
  rw [hafter] at hr
  rw [hr]
  refine ⟨rfl, rfl, rfl, rfl, ?_, ?_, ?_, ?_⟩
  · intro h
    show JSVal.or _ _ = _
    simp only [JSVal.or, h, if_true]
  · intro h
    show JSVal.or _ _ = _
    simp only [JSVal.or, h, Bool.false_eq_true, if_false]
  · intro h
    show JSVal.or _ _ = _
    simp only [JSVal.or, h, if_true]
  · intro h
    show JSVal.or _ _ = _
    simp only [JSVal.or, h, Bool.false_eq_true, if_false]

set_option maxRecDepth 100000 in
/-- C6 (amended), at a completions request answered with status 429 and the error body
`{"error":{"message":"slow down","code":"rate_limited"}}`. -/
theorem C6_upstream_error_witness :
    (handleRequest emptyEnv rateLimitedFetch 0 sampleCompletionsRequest).result.status = 429
    ∧ stringifyHole (handleRequest emptyEnv rateLimitedFetch 0 sampleCompletionsRequest).result.body
      = "\x7b\"error\":\x7b\"message\":\"slow down\",\"type\":\"api_error\",\"code\":\"rate_limited\"\x7d\x7d".toList :=
  ⟨(C6_upstream_error emptyEnv rateLimitedFetch 0 sampleCompletionsRequest "k".toList
      "https://api.grok.ai/v1/completions".toList sampleCompletionsUpstream .undefined
      (.obj [("error".toList, .obj [("message".toList, .str "slow down".toList),
                                    ("code".toList, .str "rate_limited".toList)])])
      ⟨429, .ok (.obj [("error".toList, .obj [("message".toList, .str "slow down".toList),
                                    ("code".toList, .str "rate_limited".toList)])]), [], none⟩
      (by decide) (by decide) (by decide) rfl (by decide) rfl rfl rfl (by decide) rfl rfl).2.1,
    by decide⟩

/-! ## C7: a streaming request -/

set_option maxRecDepth 100000 in
/-- C7 (as stated, refuted): a streaming chat request; the upstream answers 429.  The result
of `handleRequest` is the Streaming one with status 200, returned before any upstream call;
the call is made by the producer, which enqueues one frame and closes. -/
theorem C7_streaming_200_despite_upstream_error :
    (handleRequest emptyEnv rateLimitedFetch 0 sampleStreamRequest).result.status = 200
    ∧ (handleRequest emptyEnv rateLimitedFetch 0 sampleStreamRequest).result.stream
      = some ⟨fetchCall "https://api.grok.ai/v1/chat/completions".toList "k".toList
          sampleStreamUpstream, sampleStreamRequest⟩
    ∧ (handleRequest emptyEnv rateLimitedFetch 0 sampleStreamRequest).calls = []
    ∧ (rateLimitedFetch (fetchCall "https://api.grok.ai/v1/chat/completions".toList "k".toList
          sampleStreamUpstream)).toOption.map Response.status = some 429
    ∧ (runProducer rateLimitedFetch fixedClock
        ⟨fetchCall "https://api.grok.ai/v1/chat/completions".toList "k".toList
          sampleStreamUpstream, sampleStreamRequest⟩).1.length = 2
    ∧ (runProducer rateLimitedFetch fixedClock
        ⟨fetchCall "https://api.grok.ai/v1/chat/completions".toList "k".toList
          sampleStreamUpstream, sampleStreamRequest⟩).2
      = [fetchCall "https://api.grok.ai/v1/chat/completions".toList "k".toList
          sampleStreamUpstream] :=
  ⟨by decide, rfl, rfl, by decide, by decide, rfl⟩

/-- C7 (amended): on a streaming request with a credential that the request mapper accepts,
`handleRequest` returns the Streaming result with status 200 and the event-stream headers at
once, having made no upstream call; the producer makes the call, once.  When the upstream
answers with a non-successful status, the producer enqueues one frame and closes the sink,
and the status is reported nowhere; when the upstream call succeeds the producer runs the
chunk loop. -/
theorem C7_streaming_result (env : Env) (fetch : Fetch) (now : Nat) (req : Request)
    (key url : Str) (grokRequest st : JSVal)
    (hkey : getApiKey env req = some key) (hne : key.isEmpty = false)
    (hmodels : includes req.path "/models".toList = false)
    (hmap : transformOpenAIToGrok req = .ok grokRequest)
    (hurl : grokEndpoint env req.path = some url)
    (hst : req.body.get "stream".toList = .ok st) (htruthy : st.truthy = true) :
    handleRequest env fetch now req = ⟨streaming (fetchCall url key grokRequest) req, []⟩
    ∧ (handleRequest env fetch now req).result.status = 200
    ∧ (handleRequest env fetch now req).result.stream
        = some ⟨fetchCall url key grokRequest, req⟩
    ∧ headerValue "Content-Type".toList (handleRequest env fetch now req).result.headers
        = some "text/event-stream".toList
    ∧ (handleRequest env fetch now req).calls = []
    ∧ (∀ (upstream : Fetch) (clock : Nat → Nat) (response : Response),
        upstream (fetchCall url key grokRequest) = .ok response → response.ok = false →
        ∃ frame, runProducer upstream clock ⟨fetchCall url key grokRequest, req⟩
          = ([.enqueue frame, .close], [fetchCall url key grokRequest]))
    ∧ (∀ (upstream : Fetch) (clock : Nat → Nat) (response : Response),
        upstream (fetchCall url key grokRequest) = .ok response → response.ok = true →
        runProducer upstream clock ⟨fetchCall url key grokRequest, req⟩
          = (pump clock req response.readError 0 response.chunks,
             [fetchCall url key grokRequest])) := by
  have hr := handleRequest_streaming env fetch now req key url grokRequest st
    hkey hne hmodels hmap hurl hst htruthy
  rw [hr]
  refine ⟨rfl, rfl, rfl, rfl, rfl, ?_, ?_⟩
  · intro upstream clock response hf hok
    cases hjson : response.json with
    | error m =>
      refine ⟨errorFrame m, ?_⟩
      simp only [runProducer, hf, hok, hjson, Bool.not_false, if_true]
    | ok e =>
      refine ⟨dataFrame (.obj [("error".toList, e)]), ?_⟩
      simp only [runProducer, hf, hok, hjson, Bool.not_false, if_true]
  · intro upstream clock response hf hok
    simp only [runProducer, hf, hok, Bool.not_true, Bool.false_eq_true, if_false]

set_option maxRecDepth 100000 in
/-- C7 (amended), at a streaming chat request. -/
theorem C7_streaming_result_witness :
    (handleRequest emptyEnv rateLimitedFetch 0 sampleStreamRequest).result.status = 200
    ∧ (handleRequest emptyEnv rateLimitedFetch 0 sampleStreamRequest).calls = [] :=
  ⟨(C7_streaming_result emptyEnv rateLimitedFetch 0 sampleStreamRequest "k".toList
      "https://api.grok.ai/v1/chat/completions".toList sampleStreamUpstream (.bool true)
      (by decide) (by decide) (by decide) rfl (by decide) rfl rfl).2.1,
    rfl⟩

/-! ## C8: failures inside `handleRequest` -/

set_option maxRecDepth 100000 in
/-- C8 (as stated, refuted): a streaming chat request; the upstream call throws.  The result
of `handleRequest` has status 200, not 500; the failure shows as the error frame the producer
enqueues. -/
theorem C8_streaming_200_despite_transport_failure :
    (handleRequest emptyEnv failingFetch 0 sampleStreamRequest).result.status = 200
    ∧ (handleRequest emptyEnv failingFetch 0 sampleStreamRequest).result.stream
      = some ⟨fetchCall "https://api.grok.ai/v1/chat/completions".toList "k".toList
          sampleStreamUpstream, sampleStreamRequest⟩
    ∧ (failingFetch (fetchCall "https://api.grok.ai/v1/chat/completions".toList "k".toList
          sampleStreamUpstream)).toOption.isNone = true
    ∧ (runProducer failingFetch fixedClock
        ⟨fetchCall "https://api.grok.ai/v1/chat/completions".toList "k".toList
          sampleStreamUpstream, sampleStreamRequest⟩).1
      = [.enqueue "data: \x7b\"error\":\x7b\"message\":\"boom\"\x7d\x7d\n\n".toList, .close] :=
  ⟨by decide, rfl, by decide, by decide⟩

/-- C8 (amended): `handleRequest` is total, every throwing step lying inside its `try`.  For a
request with a credential whose path does not contain `/models`: when the request mapping
fails, or the read of `req.body.stream` fails (no body), the result is the `catch` result and
no upstream call is made; on a non-streaming request, when the upstream call throws, when the
response body cannot be read as JSON, or when the response mapping fails, the result is the
`catch` result after one upstream call.  The `catch` result has status 500, error type
`server_error` and the failure message.  (On a streaming request the upstream call is made by
the producer, after `handleRequest` has returned.) -/
theorem C8_failures_become_500 (env : Env) (fetch : Fetch) (now : Nat) (req : Request)
    (key : Str)
    (hkey : getApiKey env req = some key) (hne : key.isEmpty = false)
    (hmodels : includes req.path "/models".toList = false) :
    (∀ m, transformOpenAIToGrok req = .error m →
      handleRequest env fetch now req = ⟨serverError m, []⟩)
    ∧ (∀ g url m, transformOpenAIToGrok req = .ok g → grokEndpoint env req.path = some url →
        req.body.get "stream".toList = .error m →
        handleRequest env fetch now req = ⟨serverError m, []⟩)
    ∧ (∀ g url st m, transformOpenAIToGrok req = .ok g → grokEndpoint env req.path = some url →
        req.body.get "stream".toList = .ok st → st.truthy = false →
        fetch (fetchCall url key g) = .error m →
        handleRequest env fetch now req = ⟨serverError m, [fetchCall url key g]⟩)
    ∧ (∀ g url st response m, transformOpenAIToGrok req = .ok g →
        grokEndpoint env req.path = some url →
        req.body.get "stream".toList = .ok st → st.truthy = false →
        fetch (fetchCall url key g) = .ok response → response.json = .error m →
        handleRequest env fetch now req = ⟨serverError m, [fetchCall url key g]⟩)
    ∧ (∀ g url st response grokResponse m, transformOpenAIToGrok req = .ok g →
        grokEndpoint env req.path = some url →
        req.body.get "stream".toList = .ok st → st.truthy = false →
        fetch (fetchCall url key g) = .ok response → response.ok = true →
        response.json = .ok grokResponse →
        transformGrokToOpenAI now grokResponse req = .error m →
        handleRequest env fetch now req = ⟨serverError m, [fetchCall url key g]⟩)
    ∧ (∀ m, (serverError m).status = 500
        ∧ ((serverError m).body.getOpt "error".toList).getOpt "type".toList
            = .str "server_error".toList
        ∧ ((serverError m).body.getOpt "error".toList).getOpt "message".toList = .str m
        ∧ (serverError m).stream = none) := by
  refine ⟨?_, ?_, ?_, ?_, ?_, fun m => ⟨rfl, rfl, rfl, rfl⟩⟩
  · intro m hmap
    simp only [handleRequest, hkey, noKey_some key hne, handleWithKey, hmodels, hmap,
      Bool.false_eq_true, if_false]
  · intro g url m hmap hurl hst
    simp only [handleRequest, hkey, noKey_some key hne, handleWithKey, hmodels, hmap, hurl,
      hst, Bool.false_eq_true, if_false]
  · intro g url st m hmap hurl hst hfalsy hfetch
    rw [handleRequest_nonstreaming env fetch now req key url g st hkey hne hmodels hmap hurl
      hst hfalsy, hfetch]
    rfl
  · intro g url st response m hmap hurl hst hfalsy hfetch hjson
    rw [handleRequest_nonstreaming env fetch now req key url g st hkey hne hmodels hmap hurl
      hst hfalsy, hfetch]
    have : afterFetch now req (.ok response) = .error m := by
      cases hok : response.ok <;>
        simp only [afterFetch, hok, hjson, bind, Except.bind, Bool.not_false, Bool.not_true,
          Bool.false_eq_true, if_true, if_false]
    rw [this]
  · intro g url st response grokResponse m hmap hurl hst hfalsy hfetch hok hjson hresp
    rw [handleRequest_nonstreaming env fetch now req key url g st hkey hne hmodels hmap hurl
      hst hfalsy, hfetch]
    have : afterFetch now req (.ok response) = .error m := by
      simp only [afterFetch, hok, hjson, hresp, bind, Except.bind, Bool.not_true,
        Bool.false_eq_true, if_false]
    rw [this]

set_option maxRecDepth 100000 in
/-- C8 (amended), at a non-streaming completions request whose upstream call throws. -/
theorem C8_failures_become_500_witness :
    handleRequest emptyEnv failingFetch 0 sampleCompletionsRequest
      = ⟨serverError "boom".toList,
         [fetchCall "https://api.grok.ai/v1/completions".toList "k".toList
           sampleCompletionsUpstream]⟩
    ∧ (serverError "boom".toList).status = 500 :=
  ⟨(C8_failures_become_500 emptyEnv failingFetch 0 sampleCompletionsRequest "k".toList
      (by decide) (by decide) (by decide)).2.2.1 sampleCompletionsUpstream
      "https://api.grok.ai/v1/completions".toList .undefined "boom".toList
      rfl (by decide) rfl rfl rfl,
    rfl⟩

/-! ## Lemmas on the request mappers -/

theorem JSVal.get_error_of_nullish (v : JSVal) (k : Str) (h : v.isNullish = true) :
    ∃ m, v.get k = .error m := by
  cases v <;> first | exact ⟨_, rfl⟩ | exact absurd h (by simp [JSVal.isNullish])

theorem lookup_append_of_ne (k k' : Str) (v : JSVal) (hk : k' ≠ k)
    (kvs : List (Str × JSVal)) : lookup k (kvs ++ [(k', v)]) = lookup k kvs := by
  induction kvs with
  | nil => simp [lookup, hk]
  | cons p rest ih =>
    obtain ⟨a, b⟩ := p
    show lookup k ((a, b) :: (rest ++ [(k', v)])) = _
    simp only [lookup, ih]

theorem hasKey_cons_false (k a : Str) (b : JSVal) (rest : List (Str × JSVal))
    (h : hasKey k ((a, b) :: rest) = false) : a ≠ k ∧ hasKey k rest = false := by
  simp only [hasKey, List.any_cons, Bool.or_eq_false_iff] at h
  refine ⟨?_, h.2⟩
  intro e
  have := h.1
  simp [e] at this

theorem lookup_append_self (k : Str) (v : JSVal) (kvs : List (Str × JSVal))
    (h : hasKey k kvs = false) : lookup k (kvs ++ [(k, v)]) = v := by
  induction kvs with
  | nil => simp [lookup]
  | cons p rest ih =>
    obtain ⟨a, b⟩ := p
    obtain ⟨h1, h2⟩ := hasKey_cons_false k a b rest h
    show lookup k ((a, b) :: (rest ++ [(k, v)])) = _
    simp only [lookup, h1, if_false, ih h2]

theorem hasKey_append_of_ne (k k' : Str) (v : JSVal) (hk : k' ≠ k)
    (kvs : List (Str × JSVal)) : hasKey k (kvs ++ [(k', v)]) = hasKey k kvs := by
  simp [hasKey, hk]

theorem addStopSequences_eq (kvs : List (Str × JSVal)) (stop : JSVal)
    (h : hasKey "stopSequences".toList kvs = false) :
    addStopSequences kvs stop =
      if stop.truthy then
        kvs ++ [("stopSequences".toList, if stop.isArray then stop else .arr [stop])]
      else kvs := by
  have hidx : arrayIndex "stopSequences".toList = none := by decide
  simp only [addStopSequences, setProp, h, hidx, Bool.false_eq_true, if_false]

theorem lookup_addStopSequences_of_ne (kvs : List (Str × JSVal)) (stop : JSVal) (k : Str)
    (h : hasKey "stopSequences".toList kvs = false) (hk : "stopSequences".toList ≠ k) :
    lookup k (addStopSequences kvs stop) = lookup k kvs := by
  rw [addStopSequences_eq kvs stop h]
  split
  · exact lookup_append_of_ne k _ _ hk kvs
  · rfl

/-- What `transformCompletions` returns: the fixed members, then the stop statement. -/
theorem transformCompletions_form (body up : JSVal) (h : transformCompletions body = .ok up) :
    ∃ kvs, up = .obj (addStopSequences kvs (body.getOpt "stop".toList))
      ∧ hasKey "stopSequences".toList kvs = false
      ∧ lookup "temperature".toList kvs = (body.getOpt "temperature".toList).or (.num 1 0)
      ∧ lookup "maxTokens".toList kvs = (body.getOpt "max_tokens".toList).or (.num 1024 0)
      ∧ lookup "topP".toList kvs = (body.getOpt "top_p".toList).or (.num 1 0)
      ∧ lookup "stream".toList kvs = (body.getOpt "stream".toList).or (.bool false)
      ∧ lookup "prompt".toList kvs = body.getOpt "prompt".toList := by
  cases hb : body.isNullish with
  | true =>
    obtain ⟨m, hm⟩ := JSVal.get_error_of_nullish body "model".toList hb
    simp only [transformCompletions, hm, bind, Except.bind] at h
    cases h
  | false =>
    simp only [transformCompletions, JSVal.get_of_not_nullish _ _ hb, bind, Except.bind,
      pure, Except.pure] at h
    cases hm : mapModelToGrok (body.getOpt "model".toList) with
    | error e => rw [hm] at h; cases h
    | ok model =>
      rw [hm] at h
      injection h with h
      exact ⟨_, h.symm, rfl, rfl, rfl, rfl, rfl, rfl⟩

/-- What `transformChatCompletions` returns: the fixed members, then the stop statement. -/
theorem transformChatCompletions_form (body up : JSVal)
    (h : transformChatCompletions body = .ok up) :
    ∃ kvs, up = .obj (addStopSequences kvs (body.getOpt "stop".toList))
      ∧ hasKey "stopSequences".toList kvs = false
      ∧ lookup "temperature".toList kvs = (body.getOpt "temperature".toList).or (.num 1 0)
      ∧ lookup "maxTokens".toList kvs = (body.getOpt "max_tokens".toList).or (.num 1024 0)
      ∧ lookup "topP".toList kvs = (body.getOpt "top_p".toList).or (.num 1 0)
      ∧ lookup "stream".toList kvs = (body.getOpt "stream".toList).or (.bool false) := by
  cases hb : body.isNullish with
  | true =>
    obtain ⟨m, hm⟩ := JSVal.get_error_of_nullish body "model".toList hb
    simp only [transformChatCompletions, hm, bind, Except.bind] at h
    cases h
  | false =>
    simp only [transformChatCompletions, JSVal.get_of_not_nullish _ _ hb, bind, Except.bind,
      pure, Except.pure] at h
    cases hm : mapModelToGrok (body.getOpt "model".toList) with
    | error e => rw [hm] at h; cases h
    | ok model =>
      rw [hm] at h
      cases hmsg : callMap "body.messages.map".toList (body.getOpt "messages".toList)
          mapMessage with
      | error e => rw [hmsg] at h; cases h
      | ok messages =>
        rw [hmsg] at h
        injection h with h
        exact ⟨_, h.symm, rfl, rfl, rfl, rfl, rfl⟩

/-- What both completion mappers return. -/
theorem mapper_form (body up : JSVal)
    (h : transformChatCompletions body = .ok up ∨ transformCompletions body = .ok up) :
    ∃ kvs, up = .obj (addStopSequences kvs (body.getOpt "stop".toList))
      ∧ hasKey "stopSequences".toList kvs = false
      ∧ lookup "temperature".toList kvs = (body.getOpt "temperature".toList).or (.num 1 0)
      ∧ lookup "maxTokens".toList kvs = (body.getOpt "max_tokens".toList).or (.num 1024 0)
      ∧ lookup "topP".toList kvs = (body.getOpt "top_p".toList).or (.num 1 0)
      ∧ lookup "stream".toList kvs = (body.getOpt "stream".toList).or (.bool false) := by
  rcases h with h | h
  · exact transformChatCompletions_form body up h
  · obtain ⟨kvs, h1, h2, h3, h4, h5, h6, _⟩ := transformCompletions_form body up h
    exact ⟨kvs, h1, h2, h3, h4, h5, h6⟩

theorem mapModelToGrok_returns (model : JSVal)
    (h : model = .undefined ∨ model = .null ∨ ∃ s, model = .str s) :
    ∃ out, mapModelToGrok model = .ok out := by
  rcases h with h | h | ⟨s, h⟩ <;> subst h <;> exact ⟨_, rfl⟩

theorem mapMessage_returns (msg : JSVal) (i : Nat) (h : msg.isNullish = false) :
    ∃ out, mapMessage msg i = .ok out := by
  simp only [mapMessage, JSVal.get_of_not_nullish _ _ h, bind, Except.bind, pure, Except.pure]
  exact ⟨_, rfl⟩

theorem mapIdxM_mapMessage_returns (ms : List JSVal) (h : ∀ m ∈ ms, m.isNullish = false) :
    ∀ i, ∃ out, mapIdxM mapMessage ms i = .ok out := by
  induction ms with
  | nil => intro i; exact ⟨[], rfl⟩
  | cons m rest ih =>
    intro i
    obtain ⟨y, hy⟩ := mapMessage_returns m i (h m (List.mem_cons_self _ _))
    obtain ⟨ys, hys⟩ := ih (fun x hx => h x (List.mem_cons_of_mem _ hx)) (i + 1)
    exact ⟨y :: ys, by simp only [mapIdxM, hy, hys]⟩

/-- The completions mapper returns for every body that is not `undefined` or `null` and whose
`model` is absent, `null` or a string. -/
theorem transformCompletions_returns (body : JSVal) (hb : body.isNullish = false)
    (hm : body.getOpt "model".toList = .undefined ∨ body.getOpt "model".toList = .null
      ∨ ∃ s, body.getOpt "model".toList = .str s) :
    ∃ up, transformCompletions body = .ok up := by
  obtain ⟨model, hmodel⟩ := mapModelToGrok_returns _ hm
  simp only [transformCompletions, JSVal.get_of_not_nullish _ _ hb, bind, Except.bind,
    pure, Except.pure, hmodel]
  exact ⟨_, rfl⟩

/-- The chat mapper returns for every body that is not `undefined` or `null`, whose `model` is
absent, `null` or a string, and whose `messages` is an array without `null` elements. -/
theorem transformChatCompletions_returns (body : JSVal) (ms : List JSVal)
    (hb : body.isNullish = false)
    (hm : body.getOpt "model".toList = .undefined ∨ body.getOpt "model".toList = .null
      ∨ ∃ s, body.getOpt "model".toList = .str s)
    (hmsgs : body.getOpt "messages".toList = .arr ms)
    (hms : ∀ m ∈ ms, m.isNullish = false) :
    ∃ up, transformChatCompletions body = .ok up := by
  obtain ⟨model, hmodel⟩ := mapModelToGrok_returns _ hm
  obtain ⟨out, hout⟩ := mapIdxM_mapMessage_returns ms hms 0
  simp only [transformChatCompletions, JSVal.get_of_not_nullish _ _ hb, bind, Except.bind,
    pure, Except.pure, hmodel, hmsgs, callMap, hout, Except.map]
  exact ⟨_, rfl⟩

/-! ## C9: stop sequences -/

/-- C9: in the upstream body of the chat and of the completions mapper, a non-empty string
`stop` becomes the one-element array holding it, an array `stop` is kept as it is, and with no
`stop` the upstream body has no `stopSequences` key. -/
theorem C9_stop_sequences (body up : JSVal)
    (h : transformChatCompletions body = .ok up ∨ transformCompletions body = .ok up) :
    (∀ s, s ≠ [] → body.getOpt "stop".toList = .str s →
        up.getOpt "stopSequences".toList = .arr [.str s])
    ∧ (∀ xs, body.getOpt "stop".toList = .arr xs →
        up.getOpt "stopSequences".toList = .arr xs)
    ∧ (body.getOpt "stop".toList = .undefined →
        ∃ kvs, up = .obj kvs ∧ hasKey "stopSequences".toList kvs = false) := by
  obtain ⟨kvs, hup, hkey, _, _, _, _⟩ := mapper_form body up h
  rw [addStopSequences_eq kvs _ hkey] at hup
  refine ⟨?_, ?_, ?_⟩
  · intro s hs hstop
    have ht : (JSVal.str s).truthy = true := by
      cases s with
      | nil => exact absurd rfl hs
      | cons _ _ => rfl
    rw [hstop, if_pos ht] at hup
    rw [hup]
    exact lookup_append_self _ _ kvs hkey
  · intro xs hstop
    have ht : (JSVal.arr xs).truthy = true := rfl
    have ha : (JSVal.arr xs).isArray = true := rfl
    rw [hstop, if_pos ht, if_pos ha] at hup
    rw [hup]
    exact lookup_append_self _ _ kvs hkey
  · intro hstop
    rw [hstop, if_neg (by decide)] at hup
    exact ⟨kvs, hup, hkey⟩

set_option maxRecDepth 100000 in
/-- C9, at the chat body `{"messages":[],"stop":"foo"}`. -/
theorem C9_stop_sequences_witness :
    transformChatCompletions
        (.obj [("messages".toList, .arr []), ("stop".toList, .str "foo".toList)])
      = .ok (.obj [("model".toList, .str "grok-1".toList), ("messages".toList, .arr []),
          ("temperature".toList, .num 1 0), ("maxTokens".toList, .num 1024 0),
          ("topP".toList, .num 1 0), ("stream".toList, .bool false),
          ("stopSequences".toList, .arr [.str "foo".toList])])
    ∧ JSVal.getOpt (.obj [("model".toList, .str "grok-1".toList), ("messages".toList, .arr []),
          ("temperature".toList, .num 1 0), ("maxTokens".toList, .num 1024 0),
          ("topP".toList, .num 1 0), ("stream".toList, .bool false),
          ("stopSequences".toList, .arr [.str "foo".toList])]) "stopSequences".toList
      = .arr [.str "foo".toList] :=
  ⟨rfl, (C9_stop_sequences
      (.obj [("messages".toList, .arr []), ("stop".toList, .str "foo".toList)]) _
      (Or.inl rfl)).1 "foo".toList (by decide) rfl⟩

/-! ## C10: defaults -/

/-- C10: in the upstream body of the chat and of the completions mapper, when `temperature`,
`max_tokens`, `top_p` and `stream` are all absent the upstream has temperature 1, maxTokens
1024, topP 1 and stream false; and the completions mapper carries `prompt` over unchanged. -/
theorem C10_defaults (body up : JSVal)
    (h : transformChatCompletions body = .ok up ∨ transformCompletions body = .ok up) :
    (body.getOpt "temperature".toList = .undefined →
      body.getOpt "max_tokens".toList = .undefined →
      body.getOpt "top_p".toList = .undefined →
      body.getOpt "stream".toList = .undefined →
        up.getOpt "temperature".toList = .num 1 0
        ∧ up.getOpt "maxTokens".toList = .num 1024 0
        ∧ up.getOpt "topP".toList = .num 1 0
        ∧ up.getOpt "stream".toList = .bool false)
    ∧ (transformCompletions body = .ok up →
        up.getOpt "prompt".toList = body.getOpt "prompt".toList) := by
  refine ⟨?_, ?_⟩
  · intro h1 h2 h3 h4
    obtain ⟨kvs, hup, hkey, ht, hm, hp, hs⟩ := mapper_form body up h
    rw [h1] at ht
    rw [h2] at hm
    rw [h3] at hp
    rw [h4] at hs
    rw [hup]
    refine ⟨?_, ?_, ?_, ?_⟩
    · exact (lookup_addStopSequences_of_ne kvs _ _ hkey (by decide)).trans ht
    · exact (lookup_addStopSequences_of_ne kvs _ _ hkey (by decide)).trans hm
    · exact (lookup_addStopSequences_of_ne kvs _ _ hkey (by decide)).trans hp
    · exact (lookup_addStopSequences_of_ne kvs _ _ hkey (by decide)).trans hs
  · intro hc
    obtain ⟨kvs, hup, hkey, _, _, _, _, hprompt⟩ := transformCompletions_form body up hc
    rw [hup]
    exact (lookup_addStopSequences_of_ne kvs _ _ hkey (by decide)).trans hprompt

set_option maxRecDepth 100000 in
/-- C10, at the completions body `{"prompt":"hi"}`. -/
theorem C10_defaults_witness :
    transformCompletions sampleCompletionsRequest.body = .ok sampleCompletionsUpstream
    ∧ (sampleCompletionsUpstream.getOpt "temperature".toList = .num 1 0
        ∧ sampleCompletionsUpstream.getOpt "maxTokens".toList = .num 1024 0
        ∧ sampleCompletionsUpstream.getOpt "topP".toList = .num 1 0
        ∧ sampleCompletionsUpstream.getOpt "stream".toList = .bool false)
    ∧ sampleCompletionsUpstream.getOpt "prompt".toList = .str "hi".toList :=
  ⟨rfl,
    (C10_defaults sampleCompletionsRequest.body sampleCompletionsUpstream (Or.inr rfl)).1
      rfl rfl rfl rfl,
    (C10_defaults sampleCompletionsRequest.body sampleCompletionsUpstream (Or.inr rfl)).2 rfl⟩

/-! ## C11: numeric fields that are present -/

set_option maxRecDepth 100000 in
/-- C11 (as stated, refuted): the completions body has `temperature`, `max_tokens` and
`top_p` present with the value 0.  The upstream body carries the defaults 1, 1024 and 1, not
the inbound values. -/
theorem C11_zero_replaced_by_default :
    zeroParamsBody.getOpt "temperature".toList = .num 0 0
    ∧ zeroParamsBody.getOpt "max_tokens".toList = .num 0 0
    ∧ zeroParamsBody.getOpt "top_p".toList = .num 0 0
    ∧ (transformCompletions zeroParamsBody).toOption.map stringifyVal
      = some "\x7b\"model\":\"grok-1\",\"prompt\":\"hi\",\"temperature\":1,\"maxTokens\":1024,\"topP\":1,\"stream\":false\x7d".toList :=
  ⟨rfl, rfl, rfl, by decide⟩

/-- C11 (amended): in the upstream body of the chat and of the completions mapper, a
`temperature`, `max_tokens` or `top_p` that is a number other than 0 is carried over
unchanged, and one that is 0 is replaced by the default (1, 1024, 1), as an absent one is. -/
theorem C11_numeric_fields (body up : JSVal)
    (h : transformChatCompletions body = .ok up ∨ transformCompletions body = .ok up) :
    (∀ m e, m ≠ 0 → body.getOpt "temperature".toList = .num m e →
        up.getOpt "temperature".toList = .num m e)
    ∧ (∀ m e, m ≠ 0 → body.getOpt "max_tokens".toList = .num m e →
        up.getOpt "maxTokens".toList = .num m e)
    ∧ (∀ m e, m ≠ 0 → body.getOpt "top_p".toList = .num m e →
        up.getOpt "topP".toList = .num m e)
    ∧ (∀ e, body.getOpt "temperature".toList = .num 0 e →
        up.getOpt "temperature".toList = .num 1 0)
    ∧ (∀ e, body.getOpt "max_tokens".toList = .num 0 e →
        up.getOpt "maxTokens".toList = .num 1024 0)
    ∧ (∀ e, body.getOpt "top_p".toList = .num 0 e →
        up.getOpt "topP".toList = .num 1 0) := by
  obtain ⟨kvs, hup, hkey, ht, hm, hp, _⟩ := mapper_form body up h
  have hnum : ∀ (m : Int) (e : Nat) (d : JSVal), m ≠ 0 → (JSVal.num m e).or d = .num m e := by
    intro m e d hm0
    simp [JSVal.or, JSVal.truthy, hm0]
  have hzero : ∀ (e : Nat) (d : JSVal), (JSVal.num 0 e).or d = d := by
    intro e d
    simp [JSVal.or, JSVal.truthy]
  rw [hup]
  refine ⟨?_, ?_, ?_, ?_, ?_, ?_⟩
  · intro m e hm0 hb
    rw [hb, hnum m e _ hm0] at ht
    exact (lookup_addStopSequences_of_ne kvs _ _ hkey (by decide)).trans ht
  · intro m e hm0 hb
    rw [hb, hnum m e _ hm0] at hm
    exact (lookup_addStopSequences_of_ne kvs _ _ hkey (by decide)).trans hm
  · intro m e hm0 hb
    rw [hb, hnum m e _ hm0] at hp
    exact (lookup_addStopSequences_of_ne kvs _ _ hkey (by decide)).trans hp
  · intro e hb
    rw [hb, hzero] at ht
    exact (lookup_addStopSequences_of_ne kvs _ _ hkey (by decide)).trans ht
  · intro e hb
    rw [hb, hzero] at hm
    exact (lookup_addStopSequences_of_ne kvs _ _ hkey (by decide)).trans hm
  · intro e hb
    rw [hb, hzero] at hp
    exact (lookup_addStopSequences_of_ne kvs _ _ hkey (by decide)).trans hp

set_option maxRecDepth 100000 in
/-- C11 (amended), at the completions body
`{"prompt":"hi","temperature":0.7,"max_tokens":256,"top_p":0}`. -/
theorem C11_numeric_fields_witness :
    transformCompletions
        (.obj [("prompt".toList, .str "hi".toList), ("temperature".toList, .num 7 1),
               ("max_tokens".toList, .num 256 0), ("top_p".toList, .num 0 0)])
      = .ok (.obj [("model".toList, .str "grok-1".toList), ("prompt".toList, .str "hi".toList),
          ("temperature".toList, .num 7 1), ("maxTokens".toList, .num 256 0),
          ("topP".toList, .num 1 0), ("stream".toList, .bool false)])
    ∧ JSVal.getOpt (.obj [("model".toList, .str "grok-1".toList),
          ("prompt".toList, .str "hi".toList),
          ("temperature".toList, .num 7 1), ("maxTokens".toList, .num 256 0),
          ("topP".toList, .num 1 0), ("stream".toList, .bool false)]) "temperature".toList
      = .num 7 1
    ∧ JSVal.getOpt (.obj [("model".toList, .str "grok-1".toList),
          ("prompt".toList, .str "hi".toList),
          ("temperature".toList, .num 7 1), ("maxTokens".toList, .num 256 0),
          ("topP".toList, .num 1 0), ("stream".toList, .bool false)]) "topP".toList
      = .num 1 0 :=
  ⟨rfl,
    (C11_numeric_fields
      (.obj [("prompt".toList, .str "hi".toList), ("temperature".toList, .num 7 1),
             ("max_tokens".toList, .num 256 0), ("top_p".toList, .num 0 0)]) _
      (Or.inr rfl)).1 7 1 (by decide) rfl,
    (C11_numeric_fields
      (.obj [("prompt".toList, .str "hi".toList), ("temperature".toList, .num 7 1),
             ("max_tokens".toList, .num 256 0), ("top_p".toList, .num 0 0)]) _
      (Or.inr rfl)).2.2.2.2.2 0 rfl⟩

/-! ## Lemmas on mapped lists -/

/-- What a successful `map` with a throwing callback returns: as many elements as it was
given, the element at each position being the callback's result there. -/
theorem mapIdxM_ok (f : JSVal → Nat → Except Str JSVal) :
    ∀ (xs : List JSVal) (i : Nat) (out : List JSVal), mapIdxM f xs i = .ok out →
      out.length = xs.length
      ∧ ∀ (j : Nat) (x : JSVal), xs[j]? = some x →
          ∃ y, out[j]? = some y ∧ f x (i + j) = .ok y := by
  intro xs
  induction xs with
  | nil =>
    intro i out h
    simp only [mapIdxM] at h
    injection h with h
    subst h
    exact ⟨rfl, fun j x hx => by simp at hx⟩
  | cons x rest ih =>
    intro i out h
    simp only [mapIdxM] at h
    cases hf : f x i with
    | error m => rw [hf] at h; cases h
    | ok y =>
      rw [hf] at h
      cases hr : mapIdxM f rest (i + 1) with
      | error m => rw [hr] at h; cases h
      | ok ys =>
        rw [hr] at h
        injection h with h
        subst h
        obtain ⟨hlen, hel⟩ := ih (i + 1) ys hr
        refine ⟨by simp [hlen], ?_⟩
        intro j x' hx
        cases j with
        | zero =>
          simp only [List.getElem?_cons_zero, Option.some.injEq] at hx
          subst hx
          exact ⟨y, by simp, by simpa using hf⟩
        | succ k =>
          simp only [List.getElem?_cons_succ] at hx
          obtain ⟨y', hy', hfy⟩ := hel k x' hx
          refine ⟨y', by simpa using hy', ?_⟩
          have hidx : i + (k + 1) = i + 1 + k := by omega
          rw [hidx]
          exact hfy

/-- A `map` returns when its callback returns on every element. -/
theorem mapIdxM_returns (f : JSVal → Nat → Except Str JSVal) (xs : List JSVal)
    (h : ∀ x ∈ xs, ∀ k, ∃ y, f x k = .ok y) : ∀ i, ∃ out, mapIdxM f xs i = .ok out := by
  induction xs with
  | nil => intro i; exact ⟨[], rfl⟩
  | cons x rest ih =>
    intro i
    obtain ⟨y, hy⟩ := h x (List.mem_cons_self _ _) i
    obtain ⟨ys, hys⟩ := ih (fun z hz => h z (List.mem_cons_of_mem _ hz)) (i + 1)
    exact ⟨y :: ys, by simp only [mapIdxM, hy, hys]⟩

theorem JSVal.strictEqStr_eq_true_iff (v : JSVal) (s : Str) :
    v.strictEqStr s = true ↔ v = .str s := by
  cases v <;> simp [JSVal.strictEqStr]

theorem JSVal.or_of_truthy (a b : JSVal) (h : a.truthy = true) : a.or b = a := by
  simp only [JSVal.or, h, if_true]

theorem JSVal.or_of_falsy (a b : JSVal) (h : a.truthy = false) : a.or b = b := by
  simp only [JSVal.or, h, Bool.false_eq_true, if_false]

/-- What the callback of `body.messages.map` returns. -/
theorem mapMessage_ok (msg : JSVal) (i : Nat) (y : JSVal) (h : mapMessage msg i = .ok y) :
    ∃ role, y = .obj [("role".toList, .str role),
                      ("content".toList, (msg.getOpt "content".toList).or (.str []))]
      ∧ (msg.getOpt "role".toList = .str "system".toList → role = "system".toList)
      ∧ (msg.getOpt "role".toList = .str "assistant".toList → role = "model".toList)
      ∧ (msg.getOpt "role".toList ≠ .str "system".toList →
          msg.getOpt "role".toList ≠ .str "assistant".toList → role = "user".toList) := by
  cases hn : msg.isNullish with
  | true =>
    obtain ⟨m, hm⟩ := JSVal.get_error_of_nullish msg "role".toList hn
    simp only [mapMessage, hm, bind, Except.bind] at h
    cases h
  | false =>
    simp only [mapMessage, JSVal.get_of_not_nullish _ _ hn, bind, Except.bind, pure,
      Except.pure] at h
    injection h with h
    refine ⟨_, h.symm, ?_, ?_, ?_⟩
    · intro hr
      rw [hr]
      rfl
    · intro hr
      rw [hr]
      rfl
    · intro h1 h2
      have e1 : (msg.getOpt "role".toList).strictEqStr "system".toList = false := by
        cases hb : (msg.getOpt "role".toList).strictEqStr "system".toList with
        | false => rfl
        | true => exact absurd ((JSVal.strictEqStr_eq_true_iff _ _).mp hb) h1
      have e2 : (msg.getOpt "role".toList).strictEqStr "assistant".toList = false := by
        cases hb : (msg.getOpt "role".toList).strictEqStr "assistant".toList with
        | false => rfl
        | true => exact absurd ((JSVal.strictEqStr_eq_true_iff _ _).mp hb) h2
      simp only [e1, e2, Bool.false_eq_true, if_false]

/-- The `messages` member of what `transformChatCompletions` returns. -/
theorem transformChatCompletions_messages (body up : JSVal)
    (h : transformChatCompletions body = .ok up) (ms : List JSVal)
    (hms : body.getOpt "messages".toList = .arr ms) :
    ∃ out, mapIdxM mapMessage ms 0 = .ok out ∧ up.getOpt "messages".toList = .arr out := by
  cases hb : body.isNullish with
  | true =>
    obtain ⟨m, hm⟩ := JSVal.get_error_of_nullish body "model".toList hb
    simp only [transformChatCompletions, hm, bind, Except.bind] at h
    cases h
  | false =>
    simp only [transformChatCompletions, JSVal.get_of_not_nullish _ _ hb, bind, Except.bind,
      pure, Except.pure, hms, callMap, Except.map] at h
    cases hm : mapModelToGrok (body.getOpt "model".toList) with
    | error e => rw [hm] at h; cases h
    | ok model =>
      rw [hm] at h
      cases hmsg : mapIdxM mapMessage ms 0 with
      | error e => rw [hmsg] at h; cases h
      | ok out =>
        rw [hmsg] at h
        injection h with h
        refine ⟨out, rfl, ?_⟩
        rw [← h]
        refine (lookup_addStopSequences_of_ne _ _ _ ?_ (by decide)).trans ?_ <;> rfl

/-! ## C12: the message list -/

set_option maxRecDepth 100000 in
/-- C12 (as stated, refuted): the chat body has one message whose content is `null` and one
whose content is `false`; both contents are present.  The upstream messages carry the empty
string in their place. -/
theorem C12_falsy_content_replaced :
    (nullContentBody.getOpt "messages".toList).getOpt0.getOpt "content".toList = .null
    ∧ (transformChatCompletions nullContentBody).toOption.map
        (fun up => stringifyVal (up.getOpt "messages".toList))
      = some "[\x7b\"role\":\"model\",\"content\":\"\"\x7d,\x7b\"role\":\"user\",\"content\":\"\"\x7d]".toList :=
  ⟨rfl, by decide⟩

/-- C12 (amended): the upstream `messages` of the chat mapper has the length and the order of
the inbound list; its i-th element has exactly the members `role` and `content`, the role
being `system` for the inbound role `system`, `model` for `assistant` and `user` for any other
role, and the content being the inbound content when that is truthy and the empty string
otherwise (content absent, `null`, `false`, 0 or the empty string). -/
theorem C12_messages (body up : JSVal) (h : transformChatCompletions body = .ok up)
    (ms : List JSVal) (hms : body.getOpt "messages".toList = .arr ms) :
    ∃ out, up.getOpt "messages".toList = .arr out
      ∧ out.length = ms.length
      ∧ ∀ (i : Nat) (m : JSVal), ms[i]? = some m →
          ∃ (role : Str) (content : JSVal),
            out[i]? = some (.obj [("role".toList, .str role), ("content".toList, content)])
            ∧ (m.getOpt "role".toList = .str "system".toList → role = "system".toList)
            ∧ (m.getOpt "role".toList = .str "assistant".toList → role = "model".toList)
            ∧ (m.getOpt "role".toList ≠ .str "system".toList →
                m.getOpt "role".toList ≠ .str "assistant".toList → role = "user".toList)
            ∧ ((m.getOpt "content".toList).truthy = true →
                content = m.getOpt "content".toList)
            ∧ ((m.getOpt "content".toList).truthy = false → content = .str []) := by
  obtain ⟨out, hmap, hup⟩ := transformChatCompletions_messages body up h ms hms
  obtain ⟨hlen, hel⟩ := mapIdxM_ok mapMessage ms 0 out hmap
  refine ⟨out, hup, hlen, ?_⟩
  intro i m hm
  obtain ⟨y, hy, hfy⟩ := hel i m hm
  obtain ⟨role, hyeq, h1, h2, h3⟩ := mapMessage_ok m (0 + i) y hfy
  refine ⟨role, (m.getOpt "content".toList).or (.str []), ?_, h1, h2, h3, ?_, ?_⟩
  · rw [hy, hyeq]
  · exact JSVal.or_of_truthy _ _
  · exact JSVal.or_of_falsy _ _

set_option maxRecDepth 100000 in
/-- C12 (amended), at the chat body
`{"messages":[{"role":"system","content":"be brief"},{"role":"assistant"}]}`. -/
theorem C12_messages_witness :
    ∃ out, JSVal.getOpt (.obj [("model".toList, .str "grok-1".toList),
          ("messages".toList, .arr
            [.obj [("role".toList, .str "system".toList),
                   ("content".toList, .str "be brief".toList)],
             .obj [("role".toList, .str "model".toList), ("content".toList, .str [])]]),
          ("temperature".toList, .num 1 0), ("maxTokens".toList, .num 1024 0),
          ("topP".toList, .num 1 0), ("stream".toList, .bool false)]) "messages".toList
        = .arr out
      ∧ out.length = 2 :=
  (C12_messages
    (.obj [("messages".toList, .arr
      [.obj [("role".toList, .str "system".toList), ("content".toList, .str "be brief".toList)],
       .obj [("role".toList, .str "assistant".toList)]])])
    _ rfl
    [.obj [("role".toList, .str "system".toList), ("content".toList, .str "be brief".toList)],
     .obj [("role".toList, .str "assistant".toList)]] rfl).imp fun _ hout => ⟨hout.1, hout.2.1⟩

/-! ## Lemmas on the model -/

/-- What `mapModelToGrok` returns when it returns. -/
theorem mapModelToGrok_ok (model out : JSVal) (h : mapModelToGrok model = .ok out) :
    (∀ s, model = .str s → "grok-".toList.isPrefixOf s = true → out = .str s)
    ∧ (∀ s, model = .str s → "grok-".toList.isPrefixOf s = false → out = .str DEFAULT_MODEL)
    ∧ (model = .undefined → out = .str DEFAULT_MODEL)
    ∧ (model = .null → out = .str DEFAULT_MODEL)
    ∧ (∃ t, out = .str t ∧ "grok-".toList.isPrefixOf t = true)
    ∧ mapModelToGrok out = .ok out := by
  have hd : "grok-".toList.isPrefixOf DEFAULT_MODEL = true := by decide
  cases model with
  | undefined =>
    injection h with h
    subst h
    refine ⟨?_, ?_, ?_, ?_, ⟨_, rfl, hd⟩, rfl⟩
    · intro s e; cases e
    · intro s e; cases e
    · intro _; rfl
    · intro e; cases e
  | null =>
    injection h with h
    subst h
    refine ⟨?_, ?_, ?_, ?_, ⟨_, rfl, hd⟩, rfl⟩
    · intro s e; cases e
    · intro s e; cases e
    · intro e; cases e
    · intro _; rfl
  | str t =>
    simp only [mapModelToGrok] at h
    injection h with h
    by_cases hp : "grok-".toList.isPrefixOf t = true
    · rw [if_pos hp] at h
      subst h
      refine ⟨?_, ?_, ?_, ?_, ⟨t, rfl, hp⟩, ?_⟩
      · intro s e _
        exact e
      · intro s e hs
        injection e with e
        subst e
        rw [hp] at hs
        cases hs
      · intro e; cases e
      · intro e; cases e
      · simp only [mapModelToGrok, hp, if_true]
    · rw [if_neg hp] at h
      subst h
      refine ⟨?_, ?_, ?_, ?_, ⟨_, rfl, hd⟩, rfl⟩
      · intro s e hs
        injection e with e
        subst e
        exact absurd hs hp
      · intro s _ _
        rfl
      · intro e; cases e
      · intro e; cases e
  | bool b => cases h
  | num m e => cases h
  | arr xs => cases h
  | obj kvs => cases h

/-- The `model` member of the upstream body is what `mapModelToGrok` gives, in all three
request mappers. -/
theorem mapper_model (body up : JSVal)
    (h : transformChatCompletions body = .ok up ∨ transformCompletions body = .ok up
      ∨ transformEmbeddings body = .ok up) :
    mapModelToGrok (body.getOpt "model".toList) = .ok (up.getOpt "model".toList) := by
  cases hb : body.isNullish with
  | true =>
    obtain ⟨m, hm⟩ := JSVal.get_error_of_nullish body "model".toList hb
    rcases h with h | h | h
    · simp only [transformChatCompletions, hm, bind, Except.bind] at h
      cases h
    · simp only [transformCompletions, hm, bind, Except.bind] at h
      cases h
    · simp only [transformEmbeddings, hm, bind, Except.bind] at h
      cases h
  | false =>
    rcases h with h | h | h
    · simp only [transformChatCompletions, JSVal.get_of_not_nullish _ _ hb, bind, Except.bind,
        pure, Except.pure] at h
      cases hm : mapModelToGrok (body.getOpt "model".toList) with
      | error e => rw [hm] at h; cases h
      | ok model =>
        rw [hm] at h
        cases hmsg : callMap "body.messages.map".toList (body.getOpt "messages".toList)
            mapMessage with
        | error e => rw [hmsg] at h; cases h
        | ok messages =>
          rw [hmsg] at h
          injection h with h
          rw [← h]
          refine congrArg Except.ok (Eq.symm ?_)
          refine (lookup_addStopSequences_of_ne _ _ _ ?_ (by decide)).trans ?_ <;> rfl
    · simp only [transformCompletions, JSVal.get_of_not_nullish _ _ hb, bind, Except.bind,
        pure, Except.pure] at h
      cases hm : mapModelToGrok (body.getOpt "model".toList) with
      | error e => rw [hm] at h; cases h
      | ok model =>
        rw [hm] at h
        injection h with h
        rw [← h]
        refine congrArg Except.ok (Eq.symm ?_)
        refine (lookup_addStopSequences_of_ne _ _ _ ?_ (by decide)).trans ?_ <;> rfl
    · simp only [transformEmbeddings, JSVal.get_of_not_nullish _ _ hb, bind, Except.bind,
        pure, Except.pure] at h
      cases hm : mapModelToGrok (body.getOpt "model".toList) with
      | error e => rw [hm] at h; cases h
      | ok model =>
        rw [hm] at h
        injection h with h
        rw [← h]
        rfl

/-! ## C13: the upstream model -/

set_option maxRecDepth 100000 in
/-- C13 (as stated, refuted): the completions body `{"model":5,"prompt":"hi"}`.  The model
mapping throws, the request mapper with it, and `handleRequest` answers 500. -/
theorem C13_numeric_model_throws :
    (mapModelToGrok (.num 5 0)).toOption.isNone = true
    ∧ (transformOpenAIToGrok numericModelRequest).toOption.isNone = true
    ∧ (handleRequest emptyEnv failingFetch 0 numericModelRequest).result.status = 500
    ∧ stringifyHole (handleRequest emptyEnv failingFetch 0 numericModelRequest).result.body
      = "\x7b\"error\":\x7b\"message\":\"model?.startsWith is not a function\",\"type\":\"server_error\"\x7d\x7d".toList := by
  decide

/-- C13 (amended): when the inbound `model` is absent, `null` or a string, the model mapping
does not fail.  In the upstream body of each of the three request mappers the `model` is the
inbound `model` when that is a string starting with `grok-`, and `grok-1` when it is any other
string or absent; it is always a string starting with `grok-`, and mapping it again changes
nothing. -/
theorem C13_model (body up : JSVal)
    (h : transformChatCompletions body = .ok up ∨ transformCompletions body = .ok up
      ∨ transformEmbeddings body = .ok up) :
    (∀ s, body.getOpt "model".toList = .str s → "grok-".toList.isPrefixOf s = true →
        up.getOpt "model".toList = .str s)
    ∧ (∀ s, body.getOpt "model".toList = .str s → "grok-".toList.isPrefixOf s = false →
        up.getOpt "model".toList = .str "grok-1".toList)
    ∧ (body.getOpt "model".toList = .undefined →
        up.getOpt "model".toList = .str "grok-1".toList)
    ∧ (∃ t, up.getOpt "model".toList = .str t ∧ "grok-".toList.isPrefixOf t = true)
    ∧ mapModelToGrok (up.getOpt "model".toList) = .ok (up.getOpt "model".toList)
    ∧ (∀ model : JSVal, model = .undefined ∨ model = .null ∨ (∃ s, model = .str s) →
        ∃ out, mapModelToGrok model = .ok out) := by
  obtain ⟨h1, h2, h3, _, h5, h6⟩ := mapModelToGrok_ok _ _ (mapper_model body up h)
  exact ⟨h1, h2, h3, h5, h6, fun model hm => mapModelToGrok_returns model hm⟩

set_option maxRecDepth 100000 in
/-- C13 (amended), at the embeddings body `{"model":"gpt-4","input":"x"}` and at the
completions body `{"model":"grok-2","prompt":"hi"}`. -/
theorem C13_model_witness :
    JSVal.getOpt (.obj [("model".toList, .str "grok-1".toList),
        ("input".toList, .arr [.str "x".toList])]) "model".toList = .str "grok-1".toList
    ∧ JSVal.getOpt (.obj [("model".toList, .str "grok-2".toList),
        ("prompt".toList, .str "hi".toList),
        ("temperature".toList, .num 1 0), ("maxTokens".toList, .num 1024 0),
        ("topP".toList, .num 1 0), ("stream".toList, .bool false)]) "model".toList
      = .str "grok-2".toList :=
  ⟨(C13_model
      (.obj [("model".toList, .str "gpt-4".toList), ("input".toList, .str "x".toList)]) _
      (Or.inr (Or.inr rfl))).2.1 "gpt-4".toList rfl (by decide),
    (C13_model
      (.obj [("model".toList, .str "grok-2".toList), ("prompt".toList, .str "hi".toList)]) _
      (Or.inr (Or.inl rfl))).1 "grok-2".toList rfl (by decide)⟩

/-! ## Lemmas on routes -/

/-- `includes` is the infix relation. -/
theorem includes_iff_contains (s pat : Str) : includes s pat = true ↔ pat <:+: s := by
  induction s with
  | nil =>
    simp only [includes, List.isEmpty_iff]
    constructor
    · intro h; subst h; exact List.infix_refl _
    · intro h; exact List.eq_nil_of_infix_nil h
  | cons c cs ih =>
    simp only [includes, Bool.or_eq_true, List.isPrefixOf_iff_prefix, ih]
    exact List.infix_cons_iff.symm

/-- A path that contains `/chat/completions` contains `/completions`. -/
theorem includes_completions_of_chat (path : Str)
    (h : includes path "/chat/completions".toList = true) :
    includes path "/completions".toList = true := by
  rw [includes_iff_contains] at h ⊢
  have hin : "/completions".toList <:+: "/chat/completions".toList :=
    ⟨"/chat".toList, [], by decide⟩
  exact hin.trans h

theorem grokEndpoint_chat (env : Env) (path : Str)
    (h : includes path "/chat/completions".toList = true) :
    grokEndpoint env path = some (GROK_API_BASE env ++ "/v1/chat/completions".toList) := by
  simp only [grokEndpoint, h, if_true]

theorem grokEndpoint_completions (env : Env) (path : Str)
    (h1 : includes path "/chat/completions".toList = false)
    (h2 : includes path "/completions".toList = true) :
    grokEndpoint env path = some (GROK_API_BASE env ++ "/v1/completions".toList) := by
  simp only [grokEndpoint, h1, h2, Bool.false_eq_true, if_false, if_true]

/-- The completions URL is chosen only on the completions branch. -/
theorem grokEndpoint_completions_only (env : Env) (path : Str)
    (h : grokEndpoint env path = some (GROK_API_BASE env ++ "/v1/completions".toList)) :
    includes path "/chat/completions".toList = false
    ∧ includes path "/completions".toList = true := by
  cases h1 : includes path "/chat/completions".toList with
  | true =>
    rw [grokEndpoint_chat env path h1] at h
    injection h with h
    exact absurd (List.append_cancel_left h) (by decide)
  | false =>
    refine ⟨rfl, ?_⟩
    cases h2 : includes path "/completions".toList with
    | true => rfl
    | false =>
      exfalso
      simp only [grokEndpoint, h1, h2, Bool.false_eq_true, if_false] at h
      split at h
      · injection h with h
        exact absurd (List.append_cancel_left h) (by decide)
      · cases h

/-! ## C14: route selection -/

/-- C14: a path that contains `/chat/completions` also contains `/completions`, and for it
the request body is built by `transformChatCompletions`, the upstream URL is the
`/v1/chat/completions` endpoint and the reply is mapped by `transformGrokChatToOpenAI`; when
it does not contain `/models` either, `handleRequest` makes its one upstream call to that URL
with that body and answers with that mapping of the reply, or, on a streaming request, hands
that URL and body to the producer.  The completions mapper, URL and
response mapper are used for a path that contains `/completions` but not `/chat/completions`,
and the completions URL is chosen for no other path. -/
theorem C14_route_dispatch (env : Env) (req : Request) (now : Nat) (grokResponse : JSVal) :
    (includes req.path "/chat/completions".toList = true →
      includes req.path "/completions".toList = true
      ∧ transformOpenAIToGrok req = transformChatCompletions (req.body.or (.obj []))
      ∧ grokEndpoint env req.path
          = some (GROK_API_BASE env ++ "/v1/chat/completions".toList)
      ∧ transformGrokToOpenAI now grokResponse req
          = transformGrokChatToOpenAI now grokResponse req)
    ∧ (includes req.path "/chat/completions".toList = true →
        includes req.path "/models".toList = false →
        ∀ (fetch : Fetch) (key : Str) (g st : JSVal) (response : Response),
          getApiKey env req = some key → key.isEmpty = false →
          transformChatCompletions (req.body.or (.obj [])) = .ok g →
          req.body.get "stream".toList = .ok st → st.truthy = false →
          fetch (fetchCall (GROK_API_BASE env ++ "/v1/chat/completions".toList) key g)
            = .ok response →
          response.ok = true → response.json = .ok grokResponse →
          handleRequest env fetch now req =
            ⟨match transformGrokChatToOpenAI now grokResponse req with
              | .ok body => immediate 200 body
              | .error message => serverError message,
             [fetchCall (GROK_API_BASE env ++ "/v1/chat/completions".toList) key g]⟩)
    ∧ (includes req.path "/chat/completions".toList = false →
        includes req.path "/completions".toList = true →
        transformOpenAIToGrok req = transformCompletions (req.body.or (.obj []))
        ∧ grokEndpoint env req.path = some (GROK_API_BASE env ++ "/v1/completions".toList)
        ∧ transformGrokToOpenAI now grokResponse req
            = transformGrokCompletionsToOpenAI now grokResponse req)
    ∧ (grokEndpoint env req.path = some (GROK_API_BASE env ++ "/v1/completions".toList) →
        includes req.path "/chat/completions".toList = false
        ∧ includes req.path "/completions".toList = true)
    ∧ (includes req.path "/chat/completions".toList = true →
        includes req.path "/models".toList = false →
        ∀ (fetch : Fetch) (key : Str) (g st : JSVal),
          getApiKey env req = some key → key.isEmpty = false →
          transformChatCompletions (req.body.or (.obj [])) = .ok g →
          req.body.get "stream".toList = .ok st → st.truthy = true →
          handleRequest env fetch now req =
            ⟨streaming
              (fetchCall (GROK_API_BASE env ++ "/v1/chat/completions".toList) key g) req,
             []⟩) := by
  have hchat : includes req.path "/chat/completions".toList = true →
      transformOpenAIToGrok req = transformChatCompletions (req.body.or (.obj []))
      ∧ transformGrokToOpenAI now grokResponse req
          = transformGrokChatToOpenAI now grokResponse req := by
    intro h
    constructor
    · simp only [transformOpenAIToGrok, h, if_true]
    · simp only [transformGrokToOpenAI, h, if_true]
  refine ⟨?_, ?_, ?_, grokEndpoint_completions_only env req.path, ?_⟩
  rotate_left 3
  · intro h hmodels fetch key g st hkey hne hmap hst htruthy
    have hmap2 : transformOpenAIToGrok req = .ok g := by rw [(hchat h).1]; exact hmap
    exact handleRequest_streaming env fetch now req key _ g st hkey hne hmodels hmap2
      (grokEndpoint_chat env _ h) hst htruthy
  · intro h
    exact ⟨includes_completions_of_chat _ h, (hchat h).1, grokEndpoint_chat env _ h,
      (hchat h).2⟩
  · intro h hmodels fetch key g st response hkey hne hmap hst hfalsy hfetch hok hjson
    have hmap2 : transformOpenAIToGrok req = .ok g := by rw [(hchat h).1]; exact hmap
    rw [handleRequest_nonstreaming env fetch now req key _ g st hkey hne hmodels hmap2
      (grokEndpoint_chat env _ h) hst hfalsy, hfetch]
    have hafter : afterFetch now req (.ok response)
        = match transformGrokChatToOpenAI now grokResponse req with
          | .ok body => .ok (immediate 200 body)
          | .error message => .error message := by
      simp only [afterFetch, hok, hjson, (hchat h).2, bind, Except.bind, pure, Except.pure,
        Bool.not_true, Bool.false_eq_true, if_false]
      cases transformGrokChatToOpenAI now grokResponse req <;> rfl
    rw [hafter]
    cases transformGrokChatToOpenAI now grokResponse req <;> rfl
  · intro h1 h2
    refine ⟨?_, grokEndpoint_completions env _ h1 h2, ?_⟩
    · simp only [transformOpenAIToGrok, h1, h2, Bool.false_eq_true, if_false, if_true]
    · simp only [transformGrokToOpenAI, h1, h2, Bool.false_eq_true, if_false, if_true]

set_option maxRecDepth 100000 in
/-- C14, at the path `/v1/chat/completions` and at the path `/v1/completions`. -/
theorem C14_route_dispatch_witness :
    (includes sampleStreamRequest.path "/completions".toList = true
      ∧ transformOpenAIToGrok sampleStreamRequest
          = transformChatCompletions (sampleStreamRequest.body.or (.obj []))
      ∧ grokEndpoint emptyEnv sampleStreamRequest.path
          = some (GROK_API_BASE emptyEnv ++ "/v1/chat/completions".toList)
      ∧ transformGrokToOpenAI 0 (.obj []) sampleStreamRequest
          = transformGrokChatToOpenAI 0 (.obj []) sampleStreamRequest)
    ∧ (transformOpenAIToGrok sampleCompletionsRequest
          = transformCompletions (sampleCompletionsRequest.body.or (.obj []))
      ∧ grokEndpoint emptyEnv sampleCompletionsRequest.path
          = some (GROK_API_BASE emptyEnv ++ "/v1/completions".toList)
      ∧ transformGrokToOpenAI 0 (.obj []) sampleCompletionsRequest
          = transformGrokCompletionsToOpenAI 0 (.obj []) sampleCompletionsRequest) :=
  ⟨(C14_route_dispatch emptyEnv sampleStreamRequest 0 (.obj [])).1 (by decide),
    (C14_route_dispatch emptyEnv sampleCompletionsRequest 0 (.obj [])).2.2.1
      (by decide) (by decide)⟩

/-! ## Lemmas on the response mappers -/

theorem JSVal.isNullish_of_getOpt_isNullish_false (v : JSVal) (k : Str)
    (h : (v.getOpt k).isNullish = false) : v.isNullish = false := by
  cases v <;> first | rfl | exact absurd h (by simp [JSVal.getOpt, JSVal.isNullish])

theorem JSVal.isNullish_of_getOpt_arr (v : JSVal) (k : Str) (xs : List JSVal)
    (h : v.getOpt k = .arr xs) : v.isNullish = false :=
  JSVal.isNullish_of_getOpt_isNullish_false v k (by rw [h]; rfl)

theorem mapIfNonEmpty_arr (callee : Str) (xs : List JSVal)
    (f : JSVal → Nat → Except Str JSVal) :
    mapIfNonEmpty callee (.arr xs) f = (mapIdxM f xs 0).map .arr := by
  cases xs with
  | nil => rfl
  | cons x rest =>
    have hlen : (JSVal.ofNat (x :: rest).length).truthy = true := by
      simp [JSVal.ofNat, JSVal.truthy]
      omega
    simp only [mapIfNonEmpty, JSVal.truthy, JSVal.get, if_true, bind, Except.bind, hlen,
      callMap]
    rfl

theorem mapIfNonEmpty_of_falsy (callee : Str) (xs : JSVal)
    (f : JSVal → Nat → Except Str JSVal) (h : xs.truthy = false) :
    mapIfNonEmpty callee xs f = .ok (.arr []) := by
  simp only [mapIfNonEmpty, h, Bool.false_eq_true, if_false]
  rfl

/-- What the callback of the chat `choices.map` returns. -/
theorem mapChatChoice_ok (choice : JSVal) (i : Nat) (y : JSVal)
    (h : mapChatChoice choice i = .ok y) :
    y = .obj [("index".toList, .ofNat i),
              ("message".toList, .obj [("role".toList, .str "assistant".toList),
                ("content".toList,
                  (choice.getOpt "message".toList).getOpt "content".toList)]),
              ("finish_reason".toList,
                (choice.getOpt "finishReason".toList).or (.str "stop".toList))] := by
  cases hn : choice.isNullish with
  | true =>
    obtain ⟨m, hm⟩ := JSVal.get_error_of_nullish choice "message".toList hn
    simp only [mapChatChoice, hm, bind, Except.bind] at h
    cases h
  | false =>
    simp only [mapChatChoice, JSVal.get_of_not_nullish _ _ hn, bind, Except.bind] at h
    cases hm : (choice.getOpt "message".toList).isNullish with
    | true =>
      obtain ⟨m, hm2⟩ := JSVal.get_error_of_nullish _ "content".toList hm
      simp only [hm2] at h
      cases h
    | false =>
      simp only [JSVal.get_of_not_nullish _ _ hm, pure, Except.pure] at h
      injection h with h
      exact h.symm

theorem mapChatChoice_returns (choice : JSVal) (i : Nat)
    (h : (choice.getOpt "message".toList).isNullish = false) :
    ∃ y, mapChatChoice choice i = .ok y := by
  have hn := JSVal.isNullish_of_getOpt_isNullish_false _ _ h
  simp only [mapChatChoice, JSVal.get_of_not_nullish _ _ hn, JSVal.get_of_not_nullish _ _ h,
    bind, Except.bind, pure, Except.pure]
  exact ⟨_, rfl⟩

/-- What the callback of the completions `choices.map` returns. -/
theorem mapCompletionChoice_ok (choice : JSVal) (i : Nat) (y : JSVal)
    (h : mapCompletionChoice choice i = .ok y) :
    y = .obj [("index".toList, .ofNat i),
              ("text".toList, choice.getOpt "text".toList),
              ("finish_reason".toList,
                (choice.getOpt "finishReason".toList).or (.str "stop".toList))] := by
  cases hn : choice.isNullish with
  | true =>
    obtain ⟨m, hm⟩ := JSVal.get_error_of_nullish choice "text".toList hn
    simp only [mapCompletionChoice, hm, bind, Except.bind] at h
    cases h
  | false =>
    simp only [mapCompletionChoice, JSVal.get_of_not_nullish _ _ hn, bind, Except.bind, pure,
      Except.pure] at h
    injection h with h
    exact h.symm

theorem mapCompletionChoice_returns (choice : JSVal) (i : Nat)
    (h : choice.isNullish = false) : ∃ y, mapCompletionChoice choice i = .ok y := by
  simp only [mapCompletionChoice, JSVal.get_of_not_nullish _ _ h, bind, Except.bind, pure,
    Except.pure]
  exact ⟨_, rfl⟩

/-- What the callback of the embeddings `data.map` returns. -/
theorem mapEmbedding_ok (item : JSVal) (i : Nat) (y : JSVal)
    (h : mapEmbedding item i = .ok y) :
    y = .obj [("object".toList, .str "embedding".toList),
              ("embedding".toList, item.getOpt "embedding".toList),
              ("index".toList, .ofNat i)] := by
  cases hn : item.isNullish with
  | true =>
    obtain ⟨m, hm⟩ := JSVal.get_error_of_nullish item "embedding".toList hn
    simp only [mapEmbedding, hm, bind, Except.bind] at h
    cases h
  | false =>
    simp only [mapEmbedding, JSVal.get_of_not_nullish _ _ hn, bind, Except.bind, pure,
      Except.pure] at h
    injection h with h
    exact h.symm

theorem mapEmbedding_returns (item : JSVal) (i : Nat)
    (h : item.isNullish = false) : ∃ y, mapEmbedding item i = .ok y := by
  simp only [mapEmbedding, JSVal.get_of_not_nullish _ _ h, bind, Except.bind, pure,
    Except.pure]
  exact ⟨_, rfl⟩

/-- `transformGrokChatToOpenAI` on a non-streaming request, the request having a body and the
reply not being `null`. -/
theorem transformGrokChatToOpenAI_eq (now : Nat) (g : JSVal) (req : Request)
    (hb : req.body.isNullish = false)
    (hs : (req.body.getOpt "stream".toList).truthy = false)
    (hg : g.isNullish = false) :
    transformGrokChatToOpenAI now g req =
      (mapIfNonEmpty "grokResponse.choices.map".toList (g.getOpt "choices".toList)
        mapChatChoice).map fun choices =>
        .obj [("id".toList, .str ("chatcmpl-".toList ++ natDigits now)),
              ("object".toList, .str "chat.completion".toList),
              ("created".toList, .ofNat (now / 1000)),
              ("model".toList, (req.body.getOpt "model".toList).or (.str DEFAULT_MODEL)),
              ("choices".toList, choices),
              ("usage".toList, usageOf (g.getOpt "usage".toList))] := by
  simp only [transformGrokChatToOpenAI, JSVal.get_of_not_nullish _ _ hb,
    JSVal.get_of_not_nullish _ _ hg, hs, bind, Except.bind, pure, Except.pure,
    Bool.false_eq_true, if_false, Except.map]

/-- `transformGrokCompletionsToOpenAI` on a non-streaming request, the request having a body
and the reply not being `null`. -/
theorem transformGrokCompletionsToOpenAI_eq (now : Nat) (g : JSVal) (req : Request)
    (hb : req.body.isNullish = false)
    (hs : (req.body.getOpt "stream".toList).truthy = false)
    (hg : g.isNullish = false) :
    transformGrokCompletionsToOpenAI now g req =
      (mapIfNonEmpty "grokResponse.choices.map".toList (g.getOpt "choices".toList)
        mapCompletionChoice).map fun choices =>
        .obj [("id".toList, .str ("cmpl-".toList ++ natDigits now)),
              ("object".toList, .str "text_completion".toList),
              ("created".toList, .ofNat (now / 1000)),
              ("model".toList, (req.body.getOpt "model".toList).or (.str DEFAULT_MODEL)),
              ("choices".toList, choices),
              ("usage".toList, usageOf (g.getOpt "usage".toList))] := by
  simp only [transformGrokCompletionsToOpenAI, JSVal.get_of_not_nullish _ _ hb,
    JSVal.get_of_not_nullish _ _ hg, hs, bind, Except.bind, pure, Except.pure,
    Bool.false_eq_true, if_false, Except.map]

/-- `transformGrokEmbeddingsToOpenAI`, the request having a body and the reply not being
`null`. -/
theorem transformGrokEmbeddingsToOpenAI_eq (g : JSVal) (req : Request)
    (hb : req.body.isNullish = false) (hg : g.isNullish = false) :
    transformGrokEmbeddingsToOpenAI g req =
      (mapIfNonEmpty "grokResponse.data.map".toList (g.getOpt "data".toList)
        mapEmbedding).map fun data =>
        .obj [("object".toList, .str "list".toList),
              ("data".toList, data),
              ("model".toList, (req.body.getOpt "model".toList).or (.str DEFAULT_MODEL)),
              ("usage".toList, .obj
                [("prompt_tokens".toList,
                   ((g.getOpt "usage".toList).getOpt "promptTokens".toList).or (.num 0 0)),
                 ("total_tokens".toList,
                   ((g.getOpt "usage".toList).getOpt "totalTokens".toList).or (.num 0 0))])] := by
  simp only [transformGrokEmbeddingsToOpenAI, JSVal.get_of_not_nullish _ _ hb,
    JSVal.get_of_not_nullish _ _ hg, bind, Except.bind, pure, Except.pure, Except.map]

/-- A response mapper that returns was given a request with a body and a reply other than
`null`. -/
theorem not_nullish_of_response_ok (now : Nat) (g : JSVal) (req : Request) (out : JSVal)
    (hs : (req.body.getOpt "stream".toList).truthy = false)
    (h : transformGrokChatToOpenAI now g req = .ok out
      ∨ transformGrokCompletionsToOpenAI now g req = .ok out
      ∨ transformGrokEmbeddingsToOpenAI g req = .ok out) :
    req.body.isNullish = false ∧ g.isNullish = false := by
  cases hb : req.body.isNullish with
  | true =>
    exfalso
    obtain ⟨m, hm⟩ := JSVal.get_error_of_nullish req.body "stream".toList hb
    obtain ⟨m2, hm2⟩ := JSVal.get_error_of_nullish req.body "model".toList hb
    rcases h with h | h | h
    · simp only [transformGrokChatToOpenAI, hm, bind, Except.bind] at h
      cases h
    · simp only [transformGrokCompletionsToOpenAI, hm, bind, Except.bind] at h
      cases h
    · simp only [transformGrokEmbeddingsToOpenAI, hm2, bind, Except.bind] at h
      cases h
  | false =>
    refine ⟨rfl, ?_⟩
    cases hg : g.isNullish with
    | false => rfl
    | true =>
      exfalso
      obtain ⟨m, hm⟩ := JSVal.get_error_of_nullish g "usage".toList hg
      rcases h with h | h | h
      · simp only [transformGrokChatToOpenAI, JSVal.get_of_not_nullish _ _ hb, hs, hm, bind,
          Except.bind, Bool.false_eq_true, if_false] at h
        cases h
      · simp only [transformGrokCompletionsToOpenAI, JSVal.get_of_not_nullish _ _ hb, hs, hm,
          bind, Except.bind, Bool.false_eq_true, if_false] at h
        cases h
      · simp only [transformGrokEmbeddingsToOpenAI, JSVal.get_of_not_nullish _ _ hb, hm, bind,
          Except.bind] at h
        cases h

theorem Except.map_eq_ok_inv {α β : Type} (x : Except Str α) (f : α → β) (y : β)
    (h : x.map f = .ok y) : ∃ a, x = .ok a ∧ y = f a := by
  cases x with
  | error e => cases h
  | ok a =>
    injection h with h
    exact ⟨a, rfl, h.symm⟩

/-- The list a `choices` or `data` member is mapped to, when the member is an array and the
mapping returns. -/
theorem mapIfNonEmpty_arr_ok (callee : Str) (xs : List JSVal)
    (f : JSVal → Nat → Except Str JSVal) (mapped : JSVal)
    (h : mapIfNonEmpty callee (.arr xs) f = .ok mapped) :
    ∃ outs, mapped = .arr outs ∧ outs.length = xs.length
      ∧ ∀ (i : Nat) (x : JSVal), xs[i]? = some x →
          ∃ y, outs[i]? = some y ∧ f x i = .ok y := by
  rw [mapIfNonEmpty_arr] at h
  obtain ⟨outs, hmap, hout⟩ := Except.map_eq_ok_inv _ _ _ h
  obtain ⟨hlen, hel⟩ := mapIdxM_ok f xs 0 outs hmap
  refine ⟨outs, hout, hlen, ?_⟩
  intro i x hx
  obtain ⟨y, hy, hfy⟩ := hel i x hx
  rw [Nat.zero_add] at hfy
  exact ⟨y, hy, hfy⟩

theorem mapIfNonEmpty_arr_returns (callee : Str) (xs : List JSVal)
    (f : JSVal → Nat → Except Str JSVal) (h : ∀ x ∈ xs, ∀ k, ∃ y, f x k = .ok y) :
    ∃ mapped, mapIfNonEmpty callee (.arr xs) f = .ok mapped := by
  obtain ⟨outs, houts⟩ := mapIdxM_returns f xs h 0
  rw [mapIfNonEmpty_arr, houts]
  exact ⟨_, rfl⟩

/-! ## C15: the chat response -/

set_option maxRecDepth 100000 in
/-- C15 (as stated, refuted): a non-streaming chat request; the one choice of the upstream
reply has the `finishReason` `""`, which is present.  The mapped choice has the finish_reason
`stop`. -/
theorem C15_empty_finish_reason_replaced :
    ((emptyFinishReasonChatReply.getOpt "choices".toList).getOpt0).getOpt "finishReason".toList
      = .str []
    ∧ (transformGrokChatToOpenAI 1700000000123 emptyFinishReasonChatReply
        sampleChatRequest).toOption.map (fun out => stringifyVal (out.getOpt "choices".toList))
      = some "[\x7b\"index\":0,\"message\":\x7b\"role\":\"assistant\",\"content\":\"hello\"\x7d,\"finish_reason\":\"stop\"\x7d]".toList :=
  ⟨rfl, by decide⟩

/-- C15 (amended): on a non-streaming chat request, the mapped body has object
`chat.completion`, the id `chatcmpl-` followed by the digits of the clock reading, created
equal to the clock reading divided by 1000, and, the upstream `choices` being a list, a
`choices` list of the same length whose i-th element has index i, a message with role
`assistant` and the upstream content, and the upstream `finishReason` as finish_reason when
that is truthy, `stop` otherwise (absent, `null` or the empty string).  The mapper returns
when the request has a body and every upstream choice has a message. -/
theorem C15_chat_response (now : Nat) (g : JSVal) (req : Request)
    (hs : (req.body.getOpt "stream".toList).truthy = false) :
    (∀ out, transformGrokChatToOpenAI now g req = .ok out →
      out.getOpt "object".toList = .str "chat.completion".toList
      ∧ out.getOpt "id".toList = .str ("chatcmpl-".toList ++ natDigits now)
      ∧ out.getOpt "created".toList = .ofNat (now / 1000)
      ∧ ∀ cs, g.getOpt "choices".toList = .arr cs →
          ∃ outs, out.getOpt "choices".toList = .arr outs
            ∧ outs.length = cs.length
            ∧ ∀ (i : Nat) (c : JSVal), cs[i]? = some c →
                ∃ (finish : JSVal),
                  outs[i]? = some (.obj
                    [("index".toList, .ofNat i),
                     ("message".toList, .obj [("role".toList, .str "assistant".toList),
                       ("content".toList,
                         (c.getOpt "message".toList).getOpt "content".toList)]),
                     ("finish_reason".toList, finish)])
                  ∧ ((c.getOpt "finishReason".toList).truthy = true →
                      finish = c.getOpt "finishReason".toList)
                  ∧ ((c.getOpt "finishReason".toList).truthy = false →
                      finish = .str "stop".toList))
    ∧ (req.body.isNullish = false → ∀ cs, g.getOpt "choices".toList = .arr cs →
        (∀ c ∈ cs, (c.getOpt "message".toList).isNullish = false) →
        ∃ out, transformGrokChatToOpenAI now g req = .ok out) := by
  constructor
  · intro out h
    obtain ⟨hb, hg⟩ := not_nullish_of_response_ok now g req out hs (Or.inl h)
    rw [transformGrokChatToOpenAI_eq now g req hb hs hg] at h
    obtain ⟨choices, hch, hout⟩ := Except.map_eq_ok_inv _ _ _ h
    subst hout
    refine ⟨rfl, rfl, rfl, ?_⟩
    intro cs hcs
    rw [hcs] at hch
    obtain ⟨outs, hmapped, hlen, hel⟩ := mapIfNonEmpty_arr_ok _ cs mapChatChoice choices hch
    refine ⟨outs, hmapped, hlen, ?_⟩
    intro i c hc
    obtain ⟨y, hy, hfy⟩ := hel i c hc
    refine ⟨(c.getOpt "finishReason".toList).or (.str "stop".toList), ?_, ?_, ?_⟩
    · rw [hy, mapChatChoice_ok c i y hfy]
    · exact JSVal.or_of_truthy _ _
    · exact JSVal.or_of_falsy _ _
  · intro hb cs hcs hmsg
    have hg := JSVal.isNullish_of_getOpt_arr g _ cs hcs
    rw [transformGrokChatToOpenAI_eq now g req hb hs hg, hcs]
    obtain ⟨mapped, hmapped⟩ := mapIfNonEmpty_arr_returns "grokResponse.choices.map".toList cs
      mapChatChoice (fun c hc k => mapChatChoice_returns c k (hmsg c hc))
    rw [hmapped]
    exact ⟨_, rfl⟩

set_option maxRecDepth 100000 in
/-- C15 (amended), at a reply with two choices, the second without `finishReason`. -/
theorem C15_chat_response_witness :
    (transformGrokChatToOpenAI 1700000000123 sampleChatReply sampleChatRequest).toOption.map
        stringifyVal
      = some "\x7b\"id\":\"chatcmpl-1700000000123\",\"object\":\"chat.completion\",\"created\":1700000000,\"model\":\"gpt-4\",\"choices\":[\x7b\"index\":0,\"message\":\x7b\"role\":\"assistant\",\"content\":\"hello\"\x7d,\"finish_reason\":\"length\"\x7d,\x7b\"index\":1,\"message\":\x7b\"role\":\"assistant\",\"content\":\"bye\"\x7d,\"finish_reason\":\"stop\"\x7d],\"usage\":\x7b\"prompt_tokens\":3,\"completion_tokens\":0,\"total_tokens\":3\x7d\x7d".toList
    ∧ ∃ out, transformGrokChatToOpenAI 1700000000123 sampleChatReply sampleChatRequest
        = .ok out :=
  ⟨by decide,
    (C15_chat_response 1700000000123 sampleChatReply sampleChatRequest rfl).2 rfl
      [.obj [("message".toList, .obj [("content".toList, .str "hello".toList)]),
             ("finishReason".toList, .str "length".toList)],
       .obj [("message".toList, .obj [("content".toList, .str "bye".toList)])]] rfl
      (by
        intro c hc
        simp only [List.mem_cons, List.mem_singleton, List.not_mem_nil, or_false] at hc
        rcases hc with hc | hc <;> subst hc <;> rfl)⟩

theorem not_nullish_of_embeddings_ok (g : JSVal) (req : Request) (out : JSVal)
    (h : transformGrokEmbeddingsToOpenAI g req = .ok out) :
    req.body.isNullish = false ∧ g.isNullish = false := by
  cases hb : req.body.isNullish with
  | true =>
    exfalso
    obtain ⟨m, hm⟩ := JSVal.get_error_of_nullish req.body "model".toList hb
    simp only [transformGrokEmbeddingsToOpenAI, hm, bind, Except.bind] at h
    cases h
  | false =>
    refine ⟨rfl, ?_⟩
    cases hg : g.isNullish with
    | false => rfl
    | true =>
      exfalso
      obtain ⟨m, hm⟩ := JSVal.get_error_of_nullish g "usage".toList hg
      simp only [transformGrokEmbeddingsToOpenAI, JSVal.get_of_not_nullish _ _ hb, hm, bind,
        Except.bind] at h
      cases h

/-! ## C19: the embeddings response -/

/-- C19: the mapped body of an embeddings reply has object `list` and a usage with exactly
the members `prompt_tokens` and `total_tokens`; the upstream `data` being a list of n items,
its `data` is a list of n items, the i-th being the object `embedding` with the i-th upstream
item's embedding and the index i; an absent or empty upstream `data` gives the empty list.
The mapper returns when the request has a body, the reply is not `null` and no item is
`null`. -/
theorem C19_embeddings_response (g : JSVal) (req : Request) :
    (∀ out, transformGrokEmbeddingsToOpenAI g req = .ok out →
      out.getOpt "object".toList = .str "list".toList
      ∧ (∃ p t, out.getOpt "usage".toList
          = .obj [("prompt_tokens".toList, p), ("total_tokens".toList, t)])
      ∧ (∀ items, g.getOpt "data".toList = .arr items →
          ∃ outs, out.getOpt "data".toList = .arr outs
            ∧ outs.length = items.length
            ∧ ∀ (i : Nat) (item : JSVal), items[i]? = some item →
                outs[i]? = some (.obj
                  [("object".toList, .str "embedding".toList),
                   ("embedding".toList, item.getOpt "embedding".toList),
                   ("index".toList, .ofNat i)]))
      ∧ (g.getOpt "data".toList = .undefined ∨ g.getOpt "data".toList = .arr [] →
          out.getOpt "data".toList = .arr []))
    ∧ (req.body.isNullish = false → g.isNullish = false →
        ∀ items, g.getOpt "data".toList = .arr items →
        (∀ item ∈ items, item.isNullish = false) →
        ∃ out, transformGrokEmbeddingsToOpenAI g req = .ok out)
    ∧ (req.body.isNullish = false → g.isNullish = false →
        g.getOpt "data".toList = .undefined →
        ∃ out, transformGrokEmbeddingsToOpenAI g req = .ok out) := by
  refine ⟨?_, ?_, ?_⟩
  · intro out h
    obtain ⟨hb, hg⟩ := not_nullish_of_embeddings_ok g req out h
    rw [transformGrokEmbeddingsToOpenAI_eq g req hb hg] at h
    obtain ⟨data, hdata, hout⟩ := Except.map_eq_ok_inv _ _ _ h
    subst hout
    refine ⟨rfl, ⟨_, _, rfl⟩, ?_, ?_⟩
    · intro items hitems
      rw [hitems] at hdata
      obtain ⟨outs, hmapped, hlen, hel⟩ := mapIfNonEmpty_arr_ok _ items mapEmbedding data hdata
      refine ⟨outs, hmapped, hlen, ?_⟩
      intro i item hitem
      obtain ⟨y, hy, hfy⟩ := hel i item hitem
      rw [hy, mapEmbedding_ok item i y hfy]
    · intro hd
      rcases hd with hd | hd
      · rw [hd, mapIfNonEmpty_of_falsy _ .undefined _ rfl] at hdata
        injection hdata with hdata
        exact hdata.symm
      · rw [hd] at hdata
        injection hdata with hdata
        exact hdata.symm
  · intro hb hg items hitems hnn
    rw [transformGrokEmbeddingsToOpenAI_eq g req hb hg, hitems]
    obtain ⟨mapped, hmapped⟩ := mapIfNonEmpty_arr_returns "grokResponse.data.map".toList items
      mapEmbedding (fun item hi k => mapEmbedding_returns item k (hnn item hi))
    rw [hmapped]
    exact ⟨_, rfl⟩
  · intro hb hg hd
    rw [transformGrokEmbeddingsToOpenAI_eq g req hb hg, hd,
      mapIfNonEmpty_of_falsy _ .undefined _ rfl]
    exact ⟨_, rfl⟩

set_option maxRecDepth 100000 in
/-- C19, at a reply with two items. -/
theorem C19_embeddings_response_witness :
    (transformGrokEmbeddingsToOpenAI sampleEmbeddingsReply sampleEmbeddingsRequest).toOption.map
        stringifyVal
      = some "\x7b\"object\":\"list\",\"data\":[\x7b\"object\":\"embedding\",\"embedding\":[0.5,2],\"index\":0\x7d,\x7b\"object\":\"embedding\",\"embedding\":[1],\"index\":1\x7d],\"model\":\"text-embedding-3\",\"usage\":\x7b\"prompt_tokens\":2,\"total_tokens\":2\x7d\x7d".toList
    ∧ ∃ out, transformGrokEmbeddingsToOpenAI sampleEmbeddingsReply sampleEmbeddingsRequest
        = .ok out :=
  ⟨by decide,
    (C19_embeddings_response sampleEmbeddingsReply sampleEmbeddingsRequest).2.1 rfl rfl
      [.obj [("embedding".toList, .arr [.num 5 1, .num 2 0])],
       .obj [("embedding".toList, .arr [.num 1 0])]] rfl
      (by
        intro c hc
        simp only [List.mem_cons, List.mem_singleton, List.not_mem_nil, or_false] at hc
        rcases hc with hc | hc <;> subst hc <;> rfl)⟩

/-! ## C20: the completions response -/

set_option maxRecDepth 100000 in
/-- C20 (as stated, refuted): a non-streaming completions request; the one choice of the
upstream reply has the `finishReason` `""`, which is present.  The mapped choice has the
finish_reason `stop`. -/
theorem C20_empty_finish_reason_replaced :
    ((emptyFinishReasonCompletionsReply.getOpt "choices".toList).getOpt0).getOpt
        "finishReason".toList = .str []
    ∧ (transformGrokCompletionsToOpenAI 1700000000123 emptyFinishReasonCompletionsReply
        sampleCompletionsRequest).toOption.map
          (fun out => stringifyVal (out.getOpt "choices".toList))
      = some "[\x7b\"index\":0,\"text\":\"hello\",\"finish_reason\":\"stop\"\x7d]".toList :=
  ⟨rfl, by decide⟩

/-- C20 (amended): on a non-streaming completions request, the mapped body has object
`text_completion` and the id `cmpl-` followed by the digits of the clock reading, and, the
upstream `choices` being a list, a `choices` list of the same length whose i-th element has
exactly the members index (i), text (the upstream text) and finish_reason: the upstream
`finishReason` when that is truthy, `stop` otherwise (absent, `null` or the empty string).
The mapper returns when the request has a body and no upstream choice is `null`. -/
theorem C20_completions_response (now : Nat) (g : JSVal) (req : Request)
    (hs : (req.body.getOpt "stream".toList).truthy = false) :
    (∀ out, transformGrokCompletionsToOpenAI now g req = .ok out →
      out.getOpt "object".toList = .str "text_completion".toList
      ∧ out.getOpt "id".toList = .str ("cmpl-".toList ++ natDigits now)
      ∧ ∀ cs, g.getOpt "choices".toList = .arr cs →
          ∃ outs, out.getOpt "choices".toList = .arr outs
            ∧ outs.length = cs.length
            ∧ ∀ (i : Nat) (c : JSVal), cs[i]? = some c →
                ∃ (finish : JSVal),
                  outs[i]? = some (.obj
                    [("index".toList, .ofNat i),
                     ("text".toList, c.getOpt "text".toList),
                     ("finish_reason".toList, finish)])
                  ∧ ((c.getOpt "finishReason".toList).truthy = true →
                      finish = c.getOpt "finishReason".toList)
                  ∧ ((c.getOpt "finishReason".toList).truthy = false →
                      finish = .str "stop".toList))
    ∧ (req.body.isNullish = false → ∀ cs, g.getOpt "choices".toList = .arr cs →
        (∀ c ∈ cs, c.isNullish = false) →
        ∃ out, transformGrokCompletionsToOpenAI now g req = .ok out) := by
  constructor
  · intro out h
    obtain ⟨hb, hg⟩ := not_nullish_of_response_ok now g req out hs (Or.inr (Or.inl h))
    rw [transformGrokCompletionsToOpenAI_eq now g req hb hs hg] at h
    obtain ⟨choices, hch, hout⟩ := Except.map_eq_ok_inv _ _ _ h
    subst hout
    refine ⟨rfl, rfl, ?_⟩
    intro cs hcs
    rw [hcs] at hch
    obtain ⟨outs, hmapped, hlen, hel⟩ :=
      mapIfNonEmpty_arr_ok _ cs mapCompletionChoice choices hch
    refine ⟨outs, hmapped, hlen, ?_⟩
    intro i c hc
    obtain ⟨y, hy, hfy⟩ := hel i c hc
    refine ⟨(c.getOpt "finishReason".toList).or (.str "stop".toList), ?_, ?_, ?_⟩
    · rw [hy, mapCompletionChoice_ok c i y hfy]
    · exact JSVal.or_of_truthy _ _
    · exact JSVal.or_of_falsy _ _
  · intro hb cs hcs hnn
    have hg := JSVal.isNullish_of_getOpt_arr g _ cs hcs
    rw [transformGrokCompletionsToOpenAI_eq now g req hb hs hg, hcs]
    obtain ⟨mapped, hmapped⟩ := mapIfNonEmpty_arr_returns "grokResponse.choices.map".toList cs
      mapCompletionChoice (fun c hc k => mapCompletionChoice_returns c k (hnn c hc))
    rw [hmapped]
    exact ⟨_, rfl⟩

set_option maxRecDepth 100000 in
/-- C20 (amended), at a reply with two choices, the second without `finishReason`. -/
theorem C20_completions_response_witness :
    (transformGrokCompletionsToOpenAI 1700000000123 sampleCompletionsReply
        sampleCompletionsRequest).toOption.map stringifyVal
      = some "\x7b\"id\":\"cmpl-1700000000123\",\"object\":\"text_completion\",\"created\":1700000000,\"model\":\"grok-1\",\"choices\":[\x7b\"index\":0,\"text\":\"hello\",\"finish_reason\":\"length\"\x7d,\x7b\"index\":1,\"text\":\"bye\",\"finish_reason\":\"stop\"\x7d],\"usage\":\x7b\"prompt_tokens\":3,\"completion_tokens\":4,\"total_tokens\":7\x7d\x7d".toList
    ∧ ∃ out, transformGrokCompletionsToOpenAI 1700000000123 sampleCompletionsReply
        sampleCompletionsRequest = .ok out :=
  ⟨by decide,
    (C20_completions_response 1700000000123 sampleCompletionsReply sampleCompletionsRequest
      rfl).2 rfl
      [.obj [("text".toList, .str "hello".toList),
             ("finishReason".toList, .str "length".toList)],
       .obj [("text".toList, .str "bye".toList)]] rfl
      (by
        intro c hc
        simp only [List.mem_cons, List.mem_singleton, List.not_mem_nil, or_false] at hc
        rcases hc with hc | hc <;> subst hc <;> rfl)⟩

/-! ## C16: upstream values in the mapped response -/

theorem JSVal.or_zero_of_number (m : Int) (e : Nat) (h : m = 0 → e = 0) :
    (JSVal.num m e).or (.num 0 0) = .num m e := by
  by_cases hm : m = 0
  · subst hm
    rw [h rfl]
    rfl
  · simp [JSVal.or, JSVal.truthy, hm]

set_option maxRecDepth 100000 in
/-- C16 (as stated, refuted): an embeddings reply whose usage is
`{"promptTokens":2,"completionTokens":5,"totalTokens":7}`.  The usage of the mapped response
is `{"prompt_tokens":2,"total_tokens":7}`: the upstream `completionTokens` is not forwarded, the
response has no `completion_tokens`.  For a reply without usage the mapped usage is
`{"prompt_tokens":0,"total_tokens":0}`, again without `completion_tokens`. -/
theorem C16_embeddings_completion_tokens_dropped :
    stringifyVal (usageEmbeddingsReply.getOpt "usage".toList)
      = "\x7b\"promptTokens\":2,\"completionTokens\":5,\"totalTokens\":7\x7d".toList
    ∧ (transformGrokEmbeddingsToOpenAI usageEmbeddingsReply
        sampleEmbeddingsRequest).toOption.map (fun out => stringifyVal (out.getOpt "usage".toList))
      = some "\x7b\"prompt_tokens\":2,\"total_tokens\":7\x7d".toList
    ∧ (transformGrokEmbeddingsToOpenAI usageEmbeddingsReply
        sampleEmbeddingsRequest).toOption.map
        (fun out => ((out.getOpt "usage".toList).getOpt "completion_tokens".toList).isNullish)
      = some true
    ∧ (transformGrokEmbeddingsToOpenAI (.obj [("data".toList, .arr [])])
        sampleEmbeddingsRequest).toOption.map (fun out => stringifyVal (out.getOpt "usage".toList))
      = some "\x7b\"prompt_tokens\":0,\"total_tokens\":0\x7d".toList := by
  decide

/-- C16 (amended): on a non-streaming request, what the upstream supplied is found unchanged
in the mapped response: the content of the i-th chat choice, the text of the i-th completions
choice, the embedding of the i-th datum, and each token count of `usage` that is a number; a
token count that is absent, like an absent `usage`, gives 0.  On the chat and completions
routes the counts are `prompt_tokens`, `completion_tokens` and `total_tokens`; the usage of an
embeddings response has exactly the two members `prompt_tokens` and `total_tokens`, and no
`completion_tokens` whatever the upstream sent. -/
theorem C16_values_survive (now : Nat) (g : JSVal) (req : Request)
    (hs : (req.body.getOpt "stream".toList).truthy = false) :
    (∀ out, transformGrokChatToOpenAI now g req = .ok out →
      (∀ cs, g.getOpt "choices".toList = .arr cs →
        ∃ outs, out.getOpt "choices".toList = .arr outs ∧ outs.length = cs.length
          ∧ ∀ (i : Nat) (c : JSVal), cs[i]? = some c →
              ∃ o, outs[i]? = some o
                ∧ (o.getOpt "message".toList).getOpt "content".toList
                    = (c.getOpt "message".toList).getOpt "content".toList)
      ∧ (∀ m e, (m = 0 → e = 0) →
          (g.getOpt "usage".toList).getOpt "promptTokens".toList = .num m e →
          (out.getOpt "usage".toList).getOpt "prompt_tokens".toList = .num m e)
      ∧ (∀ m e, (m = 0 → e = 0) →
          (g.getOpt "usage".toList).getOpt "completionTokens".toList = .num m e →
          (out.getOpt "usage".toList).getOpt "completion_tokens".toList = .num m e)
      ∧ (∀ m e, (m = 0 → e = 0) →
          (g.getOpt "usage".toList).getOpt "totalTokens".toList = .num m e →
          (out.getOpt "usage".toList).getOpt "total_tokens".toList = .num m e)
      ∧ ((g.getOpt "usage".toList).getOpt "promptTokens".toList = .undefined →
          (out.getOpt "usage".toList).getOpt "prompt_tokens".toList = .num 0 0)
      ∧ ((g.getOpt "usage".toList).getOpt "completionTokens".toList = .undefined →
          (out.getOpt "usage".toList).getOpt "completion_tokens".toList = .num 0 0)
      ∧ ((g.getOpt "usage".toList).getOpt "totalTokens".toList = .undefined →
          (out.getOpt "usage".toList).getOpt "total_tokens".toList = .num 0 0)
      ∧ (g.getOpt "usage".toList = .undefined →
          out.getOpt "usage".toList = .obj [("prompt_tokens".toList, .num 0 0),
            ("completion_tokens".toList, .num 0 0), ("total_tokens".toList, .num 0 0)]))
    ∧ (∀ out, transformGrokCompletionsToOpenAI now g req = .ok out →
      (∀ cs, g.getOpt "choices".toList = .arr cs →
        ∃ outs, out.getOpt "choices".toList = .arr outs ∧ outs.length = cs.length
          ∧ ∀ (i : Nat) (c : JSVal), cs[i]? = some c →
              ∃ o, outs[i]? = some o
                ∧ o.getOpt "text".toList = c.getOpt "text".toList)
      ∧ (∀ m e, (m = 0 → e = 0) →
          (g.getOpt "usage".toList).getOpt "promptTokens".toList = .num m e →
          (out.getOpt "usage".toList).getOpt "prompt_tokens".toList = .num m e)
      ∧ (∀ m e, (m = 0 → e = 0) →
          (g.getOpt "usage".toList).getOpt "completionTokens".toList = .num m e →
          (out.getOpt "usage".toList).getOpt "completion_tokens".toList = .num m e)
      ∧ (∀ m e, (m = 0 → e = 0) →
          (g.getOpt "usage".toList).getOpt "totalTokens".toList = .num m e →
          (out.getOpt "usage".toList).getOpt "total_tokens".toList = .num m e)
      ∧ ((g.getOpt "usage".toList).getOpt "promptTokens".toList = .undefined →
          (out.getOpt "usage".toList).getOpt "prompt_tokens".toList = .num 0 0)
      ∧ ((g.getOpt "usage".toList).getOpt "completionTokens".toList = .undefined →
          (out.getOpt "usage".toList).getOpt "completion_tokens".toList = .num 0 0)
      ∧ ((g.getOpt "usage".toList).getOpt "totalTokens".toList = .undefined →
          (out.getOpt "usage".toList).getOpt "total_tokens".toList = .num 0 0)
      ∧ (g.getOpt "usage".toList = .undefined →
          out.getOpt "usage".toList = .obj [("prompt_tokens".toList, .num 0 0),
            ("completion_tokens".toList, .num 0 0), ("total_tokens".toList, .num 0 0)]))
    ∧ (∀ out, transformGrokEmbeddingsToOpenAI g req = .ok out →
      (∀ items, g.getOpt "data".toList = .arr items →
        ∃ outs, out.getOpt "data".toList = .arr outs ∧ outs.length = items.length
          ∧ ∀ (i : Nat) (item : JSVal), items[i]? = some item →
              ∃ o, outs[i]? = some o
                ∧ o.getOpt "embedding".toList = item.getOpt "embedding".toList)
      ∧ (∀ m e, (m = 0 → e = 0) →
          (g.getOpt "usage".toList).getOpt "promptTokens".toList = .num m e →
          (out.getOpt "usage".toList).getOpt "prompt_tokens".toList = .num m e)
      ∧ (∀ m e, (m = 0 → e = 0) →
          (g.getOpt "usage".toList).getOpt "totalTokens".toList = .num m e →
          (out.getOpt "usage".toList).getOpt "total_tokens".toList = .num m e)
      ∧ ((g.getOpt "usage".toList).getOpt "promptTokens".toList = .undefined →
          (out.getOpt "usage".toList).getOpt "prompt_tokens".toList = .num 0 0)
      ∧ ((g.getOpt "usage".toList).getOpt "totalTokens".toList = .undefined →
          (out.getOpt "usage".toList).getOpt "total_tokens".toList = .num 0 0)
      ∧ (g.getOpt "usage".toList = .undefined →
          out.getOpt "usage".toList = .obj [("prompt_tokens".toList, .num 0 0),
            ("total_tokens".toList, .num 0 0)])
      ∧ (∃ p t, out.getOpt "usage".toList
          = .obj [("prompt_tokens".toList, p), ("total_tokens".toList, t)])
      ∧ (out.getOpt "usage".toList).getOpt "completion_tokens".toList = .undefined) := by
  have hnum : ∀ (u : JSVal) (m : Int) (e : Nat), (m = 0 → e = 0) → u = .num m e →
      u.or (.num 0 0) = .num m e := by
    intro u m e hme hu
    rw [hu]
    exact JSVal.or_zero_of_number m e hme
  have hundef : ∀ u : JSVal, u = .undefined → u.or (.num 0 0) = .num 0 0 := by
    intro u hu
    rw [hu]
    rfl
  refine ⟨?_, ?_, ?_⟩
  · intro out h
    obtain ⟨hb, hg⟩ := not_nullish_of_response_ok now g req out hs (Or.inl h)
    rw [transformGrokChatToOpenAI_eq now g req hb hs hg] at h
    obtain ⟨choices, hch, hout⟩ := Except.map_eq_ok_inv _ _ _ h
    subst hout
    refine ⟨?_, fun m e hme hu => hnum _ m e hme hu, fun m e hme hu => hnum _ m e hme hu,
      fun m e hme hu => hnum _ m e hme hu, fun hu => hundef _ hu, fun hu => hundef _ hu,
      fun hu => hundef _ hu, ?_⟩
    · intro cs hcs
      rw [hcs] at hch
      obtain ⟨outs, hmapped, hlen, hel⟩ := mapIfNonEmpty_arr_ok _ cs mapChatChoice choices hch
      refine ⟨outs, hmapped, hlen, ?_⟩
      intro i c hc
      obtain ⟨y, hy, hfy⟩ := hel i c hc
      refine ⟨y, hy, ?_⟩
      rw [mapChatChoice_ok c i y hfy]
      rfl
    · intro hu
      show usageOf (g.getOpt "usage".toList) = _
      rw [hu]
      rfl
  · intro out h
    obtain ⟨hb, hg⟩ := not_nullish_of_response_ok now g req out hs (Or.inr (Or.inl h))
    rw [transformGrokCompletionsToOpenAI_eq now g req hb hs hg] at h
    obtain ⟨choices, hch, hout⟩ := Except.map_eq_ok_inv _ _ _ h
    subst hout
    refine ⟨?_, fun m e hme hu => hnum _ m e hme hu, fun m e hme hu => hnum _ m e hme hu,
      fun m e hme hu => hnum _ m e hme hu, fun hu => hundef _ hu, fun hu => hundef _ hu,
      fun hu => hundef _ hu, ?_⟩
    · intro cs hcs
      rw [hcs] at hch
      obtain ⟨outs, hmapped, hlen, hel⟩ :=
        mapIfNonEmpty_arr_ok _ cs mapCompletionChoice choices hch
      refine ⟨outs, hmapped, hlen, ?_⟩
      intro i c hc
      obtain ⟨y, hy, hfy⟩ := hel i c hc
      refine ⟨y, hy, ?_⟩
      rw [mapCompletionChoice_ok c i y hfy]
      rfl
    · intro hu
      show usageOf (g.getOpt "usage".toList) = _
      rw [hu]
      rfl
  · intro out h
    obtain ⟨hb, hg⟩ := not_nullish_of_embeddings_ok g req out h
    rw [transformGrokEmbeddingsToOpenAI_eq g req hb hg] at h
    obtain ⟨data, hdata, hout⟩ := Except.map_eq_ok_inv _ _ _ h
    subst hout
    refine ⟨?_, fun m e hme hu => hnum _ m e hme hu, fun m e hme hu => hnum _ m e hme hu,
      fun hu => hundef _ hu, fun hu => hundef _ hu, ?_, ⟨_, _, rfl⟩, rfl⟩
    · intro items hitems
      rw [hitems] at hdata
      obtain ⟨outs, hmapped, hlen, hel⟩ := mapIfNonEmpty_arr_ok _ items mapEmbedding data hdata
      refine ⟨outs, hmapped, hlen, ?_⟩
      intro i item hitem
      obtain ⟨y, hy, hfy⟩ := hel i item hitem
      refine ⟨y, hy, ?_⟩
      rw [mapEmbedding_ok item i y hfy]
      rfl
    · intro hu
      show JSVal.obj _ = _
      rw [hu]
      rfl

set_option maxRecDepth 100000 in
/-- C16 (amended), at a chat reply whose usage has the token counts 3, 0 and 3. -/
theorem C16_values_survive_witness :
    transformGrokChatToOpenAI 1700000000123 sampleChatReply sampleChatRequest
      = .ok sampleChatMapped
    ∧ (sampleChatMapped.getOpt "usage".toList).getOpt "prompt_tokens".toList = .num 3 0
    ∧ (sampleChatMapped.getOpt "usage".toList).getOpt "completion_tokens".toList = .num 0 0 :=
  ⟨rfl,
    ((C16_values_survive 1700000000123 sampleChatReply sampleChatRequest rfl).1
      sampleChatMapped rfl).2.1 3 0 (by decide) rfl,
    ((C16_values_survive 1700000000123 sampleChatReply sampleChatRequest rfl).1
      sampleChatMapped rfl).2.2.1 0 0 (fun _ => rfl) rfl⟩

/-! ## C17: the model of the mapped response -/

/-- A reply mapped by `transformGrokToOpenAI` was mapped by one of the three mappers. -/
theorem transformGrokToOpenAI_ok_cases (now : Nat) (g : JSVal) (req : Request) (out : JSVal)
    (h : transformGrokToOpenAI now g req = .ok out) :
    transformGrokChatToOpenAI now g req = .ok out
    ∨ transformGrokCompletionsToOpenAI now g req = .ok out
    ∨ transformGrokEmbeddingsToOpenAI g req = .ok out := by
  simp only [transformGrokToOpenAI] at h
  split at h
  · exact Or.inl h
  · split at h
    · exact Or.inr (Or.inl h)
    · split at h
      · exact Or.inr (Or.inr h)
      · cases h

/-- The `model` member of a mapped non-streaming response. -/
theorem response_model (now : Nat) (g : JSVal) (req : Request) (out : JSVal)
    (hs : (req.body.getOpt "stream".toList).truthy = false)
    (h : transformGrokChatToOpenAI now g req = .ok out
      ∨ transformGrokCompletionsToOpenAI now g req = .ok out
      ∨ transformGrokEmbeddingsToOpenAI g req = .ok out) :
    out.getOpt "model".toList = (req.body.getOpt "model".toList).or (.str DEFAULT_MODEL) := by
  obtain ⟨hb, hg⟩ := not_nullish_of_response_ok now g req out hs h
  rcases h with h | h | h
  · rw [transformGrokChatToOpenAI_eq now g req hb hs hg] at h
    obtain ⟨x, _, hout⟩ := Except.map_eq_ok_inv _ _ _ h
    rw [hout]
    rfl
  · rw [transformGrokCompletionsToOpenAI_eq now g req hb hs hg] at h
    obtain ⟨x, _, hout⟩ := Except.map_eq_ok_inv _ _ _ h
    rw [hout]
    rfl
  · rw [transformGrokEmbeddingsToOpenAI_eq g req hb hg] at h
    obtain ⟨x, _, hout⟩ := Except.map_eq_ok_inv _ _ _ h
    rw [hout]
    rfl

set_option maxRecDepth 100000 in
/-- C17 (as stated, refuted): a non-streaming completions request whose `model` is the string
`""`.  The mapped response has the model `grok-1`, not the inbound string. -/
theorem C17_empty_model_replaced :
    emptyModelRequest.body.getOpt "model".toList = .str []
    ∧ (transformGrokToOpenAI 1700000000123 (.obj []) emptyModelRequest).toOption.map
        (fun out => stringifyVal (out.getOpt "model".toList))
      = some "\"grok-1\"".toList :=
  ⟨rfl, by decide⟩

/-- C17 (amended): on a non-streaming request, the `model` of the response mapped by any of
the three response mappers is the `model` string of the inbound request when that string is
not empty, whatever the request mapper sent upstream, and `grok-1` when the inbound request
has no model or the empty string as model. -/
theorem C17_model_echoed (now : Nat) (g : JSVal) (req : Request) (out : JSVal)
    (hs : (req.body.getOpt "stream".toList).truthy = false)
    (h : transformGrokToOpenAI now g req = .ok out
      ∨ transformGrokChatToOpenAI now g req = .ok out
      ∨ transformGrokCompletionsToOpenAI now g req = .ok out
      ∨ transformGrokEmbeddingsToOpenAI g req = .ok out) :
    (∀ s, s ≠ [] → req.body.getOpt "model".toList = .str s →
        out.getOpt "model".toList = .str s)
    ∧ (req.body.getOpt "model".toList = .undefined →
        out.getOpt "model".toList = .str "grok-1".toList)
    ∧ (req.body.getOpt "model".toList = .str [] →
        out.getOpt "model".toList = .str "grok-1".toList) := by
  have h3 : transformGrokChatToOpenAI now g req = .ok out
      ∨ transformGrokCompletionsToOpenAI now g req = .ok out
      ∨ transformGrokEmbeddingsToOpenAI g req = .ok out := by
    rcases h with h | h
    · exact transformGrokToOpenAI_ok_cases now g req out h
    · exact h
  rw [response_model now g req out hs h3]
  refine ⟨?_, ?_, ?_⟩
  · intro s hne hm
    rw [hm]
    cases s with
    | nil => exact absurd rfl hne
    | cons c cs => rfl
  · intro hm
    rw [hm]
    rfl
  · intro hm
    rw [hm]
    rfl

set_option maxRecDepth 100000 in
/-- C17 (amended), at a chat request for `gpt-4`: the request mapper sends `grok-1` upstream
and the mapped response carries `gpt-4`. -/
theorem C17_model_echoed_witness :
    (transformOpenAIToGrok sampleChatRequest).toOption.map
        (fun up => stringifyVal (up.getOpt "model".toList)) = some "\"grok-1\"".toList
    ∧ transformGrokToOpenAI 1700000000123 sampleChatReply sampleChatRequest
        = .ok sampleChatMapped
    ∧ sampleChatMapped.getOpt "model".toList = .str "gpt-4".toList :=
  ⟨by decide, rfl,
    (C17_model_echoed 1700000000123 sampleChatReply sampleChatRequest sampleChatMapped rfl
      (Or.inl rfl)).1 "gpt-4".toList (by decide) rfl⟩

/-! ## C18: minimal upstream replies -/

set_option maxRecDepth 100000 in
/-- C18 (the code breaks it): on non-streaming requests, for the reply `{"choices":[{}]}` the
chat mapper throws, so that `handleRequest` answers 500, and the completions mapper returns a
choice without `text`; for the reply `{"choices":[{"message":{}}]}` the chat mapper returns a
choice whose message has no `content`; for the reply `{"data":[{}]}` the embeddings mapper
returns a datum without `embedding`. -/
theorem C18_minimal_reply_not_completed :
    transformGrokChatToOpenAI 1700000000123 bareChoiceReply sampleChatRequest
      = .error "Cannot read properties of undefined (reading \x27content\x27)".toList
    ∧ (handleRequest emptyEnv (replyFetch bareChoiceReply) 1700000000123
        sampleChatRequest).result.status = 500
    ∧ stringifyHole (handleRequest emptyEnv (replyFetch bareChoiceReply) 1700000000123
        sampleChatRequest).result.body
      = "\x7b\"error\":\x7b\"message\":\"Cannot read properties of undefined (reading \x27content\x27)\",\"type\":\"server_error\"\x7d\x7d".toList
    ∧ (transformGrokChatToOpenAI 1700000000123 noContentReply sampleChatRequest).toOption.map
        (fun out => stringifyVal (out.getOpt "choices".toList))
      = some "[\x7b\"index\":0,\"message\":\x7b\"role\":\"assistant\"\x7d,\"finish_reason\":\"stop\"\x7d]".toList
    ∧ (transformGrokCompletionsToOpenAI 1700000000123 bareChoiceReply
        sampleCompletionsRequest).toOption.map
          (fun out => stringifyVal (out.getOpt "choices".toList))
      = some "[\x7b\"index\":0,\"finish_reason\":\"stop\"\x7d]".toList
    ∧ (transformGrokEmbeddingsToOpenAI bareDatumReply sampleEmbeddingsRequest).toOption.map
          (fun out => stringifyVal (out.getOpt "data".toList))
      = some "[\x7b\"object\":\"embedding\",\"index\":0\x7d]".toList :=
  ⟨rfl, by decide, by decide, by decide, by decide, by decide⟩

/-! ## Lemmas on the translation of a payload -/

/-- The chat translation of a payload other than `null`, for a request that has a body. -/
theorem transformPayload_chat (now : Nat) (d : JSVal) (req : Request)
    (hd : d.isNullish = false) (hb : req.body.isNullish = false)
    (hchat : includes req.path "/chat/completions".toList = true) :
    transformPayload now d req = .ok (.obj
      [("id".toList, .str ("chatcmpl-".toList ++ natDigits now)),
       ("object".toList, .str "chat.completion.chunk".toList),
       ("created".toList, .ofNat (now / 1000)),
       ("model".toList, (req.body.getOpt "model".toList).or (.str DEFAULT_MODEL)),
       ("choices".toList, .arr [.obj
         [("index".toList, .num 0 0),
          ("delta".toList, .obj [("content".toList,
            ((((d.getOpt "choices".toList).getOpt0).getOpt "delta".toList).getOpt
              "content".toList).or (.str []))]),
          ("finish_reason".toList,
            (((d.getOpt "choices".toList).getOpt0).getOpt "finish_reason".toList).or
              .null)]])]) := by
  rw [transformPayload, if_pos hchat, transformGrokChatStreamToOpenAI,
    JSVal.get_of_not_nullish _ _ hb, JSVal.get_of_not_nullish _ _ hd]
  rfl

/-- The completions translation of a payload other than `null`, for a request that has a
body. -/
theorem transformPayload_completions (now : Nat) (d : JSVal) (req : Request)
    (hd : d.isNullish = false) (hb : req.body.isNullish = false)
    (hchat : includes req.path "/chat/completions".toList = false)
    (hcomp : includes req.path "/completions".toList = true) :
    transformPayload now d req = .ok (.obj
      [("id".toList, .str ("cmpl-".toList ++ natDigits now)),
       ("object".toList, .str "text_completion.chunk".toList),
       ("created".toList, .ofNat (now / 1000)),
       ("model".toList, (req.body.getOpt "model".toList).or (.str DEFAULT_MODEL)),
       ("choices".toList, .arr [.obj
         [("index".toList, .num 0 0),
          ("text".toList,
            (((d.getOpt "choices".toList).getOpt0).getOpt "text".toList).or (.str [])),
          ("finish_reason".toList,
            (((d.getOpt "choices".toList).getOpt0).getOpt "finish_reason".toList).or
              .null)]])]) := by
  rw [transformPayload, if_neg (by rw [hchat]; decide), if_pos hcomp,
    transformGrokCompletionStreamToOpenAI,
    JSVal.get_of_not_nullish _ _ hb, JSVal.get_of_not_nullish _ _ hd]
  rfl

/-! ## C21: the shape of a translated chunk -/

set_option maxRecDepth 100000 in
/-- C21 (as stated, refuted): on the chat route the line
`data: {"choices":[{"delta":{"content":null},"finish_reason":""}]}` has a payload that is a
JSON object in which `choices[0].delta.content` and `choices[0].finish_reason` are present.
The translation carries the empty string as content and `null` as finish_reason. -/
theorem C21_falsy_members_replaced :
    (JSON.parse "\x7b\"choices\":[\x7b\"delta\":\x7b\"content\":null\x7d,\"finish_reason\":\"\"\x7d]\x7d".toList).map
        (fun d => stringifyVal ((d.getOpt "choices".toList).getOpt0))
      = some "\x7b\"delta\":\x7b\"content\":null\x7d,\"finish_reason\":\"\"\x7d".toList
    ∧ transformLine 1700000000123 sampleStreamRequest
        "data: \x7b\"choices\":[\x7b\"delta\":\x7b\"content\":null\x7d,\"finish_reason\":\"\"\x7d]\x7d".toList
      = some "data: \x7b\"id\":\"chatcmpl-1700000000123\",\"object\":\"chat.completion.chunk\",\"created\":1700000000,\"model\":\"grok-1\",\"choices\":[\x7b\"index\":0,\"delta\":\x7b\"content\":\"\"\x7d,\"finish_reason\":null\x7d]\x7d".toList := by
  decide

/-- C21 (amended): for a request that has a body and a `data: ` line whose payload parses as
a JSON object, the line is translated to `data: ` followed by the JSON text of an object with
exactly one choice, of index 0.  On a path containing `/chat/completions` the object is a
`chat.completion.chunk` with the id `chatcmpl-` and the clock digits, and `delta.content` is
the upstream `choices[0].delta.content` when that is truthy, the empty string otherwise; on a
path containing `/completions` only, it is a `text_completion.chunk` with the id `cmpl-` and
the clock digits, and `text` is the upstream `choices[0].text` when that is truthy, the empty
string otherwise.  On both, finish_reason is the upstream `choices[0].finish_reason` when
that is truthy and `null` otherwise, and model is the request's model when that is truthy and
`grok-1` otherwise. -/
theorem C21_chunk_shape (now : Nat) (req : Request) (line : Str) (kvs : List (Str × JSVal))
    (hl : "data: ".toList.isPrefixOf line = true)
    (hp : JSON.parse (line.drop 6) = some (.obj kvs))
    (hb : req.body.isNullish = false) :
    (includes req.path "/chat/completions".toList = true →
      ∃ (model content finish : JSVal),
        transformLine now req line = some ("data: ".toList ++ stringifyHole (.obj
          [("id".toList, .str ("chatcmpl-".toList ++ natDigits now)),
           ("object".toList, .str "chat.completion.chunk".toList),
           ("created".toList, .ofNat (now / 1000)),
           ("model".toList, model),
           ("choices".toList, .arr [.obj
             [("index".toList, .num 0 0),
              ("delta".toList, .obj [("content".toList, content)]),
              ("finish_reason".toList, finish)]])]))
        ∧ ((req.body.getOpt "model".toList).truthy = true →
            model = req.body.getOpt "model".toList)
        ∧ ((req.body.getOpt "model".toList).truthy = false → model = .str "grok-1".toList)
        ∧ (((((lookup "choices".toList kvs).getOpt0).getOpt "delta".toList).getOpt
              "content".toList).truthy = true →
            content = (((lookup "choices".toList kvs).getOpt0).getOpt "delta".toList).getOpt
              "content".toList)
        ∧ (((((lookup "choices".toList kvs).getOpt0).getOpt "delta".toList).getOpt
              "content".toList).truthy = false → content = .str [])
        ∧ ((((lookup "choices".toList kvs).getOpt0).getOpt "finish_reason".toList).truthy
              = true →
            finish = ((lookup "choices".toList kvs).getOpt0).getOpt "finish_reason".toList)
        ∧ ((((lookup "choices".toList kvs).getOpt0).getOpt "finish_reason".toList).truthy
              = false → finish = .null))
    ∧ (includes req.path "/chat/completions".toList = false →
        includes req.path "/completions".toList = true →
      ∃ (model text finish : JSVal),
        transformLine now req line = some ("data: ".toList ++ stringifyHole (.obj
          [("id".toList, .str ("cmpl-".toList ++ natDigits now)),
           ("object".toList, .str "text_completion.chunk".toList),
           ("created".toList, .ofNat (now / 1000)),
           ("model".toList, model),
           ("choices".toList, .arr [.obj
             [("index".toList, .num 0 0),
              ("text".toList, text),
              ("finish_reason".toList, finish)]])]))
        ∧ ((req.body.getOpt "model".toList).truthy = true →
            model = req.body.getOpt "model".toList)
        ∧ ((req.body.getOpt "model".toList).truthy = false → model = .str "grok-1".toList)
        ∧ ((((lookup "choices".toList kvs).getOpt0).getOpt "text".toList).truthy = true →
            text = ((lookup "choices".toList kvs).getOpt0).getOpt "text".toList)
        ∧ ((((lookup "choices".toList kvs).getOpt0).getOpt "text".toList).truthy = false →
            text = .str [])
        ∧ ((((lookup "choices".toList kvs).getOpt0).getOpt "finish_reason".toList).truthy
              = true →
            finish = ((lookup "choices".toList kvs).getOpt0).getOpt "finish_reason".toList)
        ∧ ((((lookup "choices".toList kvs).getOpt0).getOpt "finish_reason".toList).truthy
              = false → finish = .null)) := by
  have hld := eq_data_append_of_isPrefixOf line hl
  constructor
  · intro hchat
    have hline := transformLine_data_ok now req (line.drop 6) (.obj kvs) _ hp rfl
      (transformPayload_chat now (.obj kvs) req rfl hb hchat)
    rw [← hld] at hline
    exact ⟨_, _, _, hline, JSVal.or_of_truthy _ _, JSVal.or_of_falsy _ _,
      JSVal.or_of_truthy _ _, JSVal.or_of_falsy _ _, JSVal.or_of_truthy _ _,
      JSVal.or_of_falsy _ _⟩
  · intro hchat hcomp
    have hline := transformLine_data_ok now req (line.drop 6) (.obj kvs) _ hp rfl
      (transformPayload_completions now (.obj kvs) req rfl hb hchat hcomp)
    rw [← hld] at hline
    exact ⟨_, _, _, hline, JSVal.or_of_truthy _ _, JSVal.or_of_falsy _ _,
      JSVal.or_of_truthy _ _, JSVal.or_of_falsy _ _, JSVal.or_of_truthy _ _,
      JSVal.or_of_falsy _ _⟩

set_option maxRecDepth 100000 in
/-- C21 (amended), at the line `data: {"choices":[{"text":"hi"}]}` on the completions
route. -/
theorem C21_chunk_shape_witness :
    transformLine 1700000000123 sampleStreamCompletionsRequest
        "data: \x7b\"choices\":[\x7b\"text\":\"hi\"\x7d]\x7d".toList
      = some "data: \x7b\"id\":\"cmpl-1700000000123\",\"object\":\"text_completion.chunk\",\"created\":1700000000,\"model\":\"grok-1\",\"choices\":[\x7b\"index\":0,\"text\":\"hi\",\"finish_reason\":null\x7d]\x7d".toList
    ∧ ∃ (model text finish : JSVal),
        transformLine 1700000000123 sampleStreamCompletionsRequest
            "data: \x7b\"choices\":[\x7b\"text\":\"hi\"\x7d]\x7d".toList
          = some ("data: ".toList ++ stringifyHole (.obj
            [("id".toList, .str ("cmpl-".toList ++ natDigits 1700000000123)),
             ("object".toList, .str "text_completion.chunk".toList),
             ("created".toList, .ofNat (1700000000123 / 1000)),
             ("model".toList, model),
             ("choices".toList, .arr [.obj
               [("index".toList, .num 0 0),
                ("text".toList, text),
                ("finish_reason".toList, finish)]])])) :=
  ⟨by decide,
    ((C21_chunk_shape 1700000000123 sampleStreamCompletionsRequest
      "data: \x7b\"choices\":[\x7b\"text\":\"hi\"\x7d]\x7d".toList
      [("choices".toList, .arr [.obj [("text".toList, .str "hi".toList)]])]
      (by decide) rfl rfl).2 (by decide) (by decide)).imp fun _ h =>
        h.imp fun _ h => h.imp fun _ h => h.1⟩

/-! ## Lemmas on chunks made of whole frames -/

theorem joinLines_cons_cons (l l' : Str) (ls : List Str) :
    joinLines (l :: l' :: ls) = l ++ '\n' :: joinLines (l' :: ls) := rfl

theorem joinLines_cons_of_ne_nil (l : Str) (ls : List Str) (h : ls ≠ []) :
    joinLines (l :: ls) = l ++ '\n' :: joinLines ls := by
  cases ls with
  | nil => exact absurd rfl h
  | cons l' ls => rfl

/-- The lines of a chunk made of whole frames: each frame gives its `data: ` line and a blank
line, and the last line break leaves one more empty line. -/
theorem splitLines_frames (frames : List (Str × JSVal)) (hf : ∀ p ∈ frames, '\n' ∉ p.1) :
    splitLines (frames.flatMap fun p => "data: ".toList ++ p.1 ++ "\n\n".toList)
      = (frames.flatMap fun p => ["data: ".toList ++ p.1, []]) ++ [[]] := by
  induction frames with
  | nil => rfl
  | cons p ps ih =>
    have hp : '\n' ∉ p.1 := hf p (List.mem_cons_self _ _)
    have hps : ∀ q ∈ ps, '\n' ∉ q.1 := fun q hq => hf q (List.mem_cons_of_mem _ hq)
    rw [List.flatMap_cons, List.flatMap_cons, List.append_assoc]
    show splitLines (("data: ".toList ++ p.1) ++ '\n' :: ('\n' ::
      (ps.flatMap fun p => "data: ".toList ++ p.1 ++ "\n\n".toList))) = _
    rw [splitLines_append_newline _ _ (not_mem_data _ hp), splitLines_newline, ih hps]
    rfl

/-- Joining the translated lines of whole frames gives each line followed by two line
breaks. -/
theorem joinLines_frames (frames : List (Str × JSVal)) (out : Str × JSVal → Str) :
    joinLines ((frames.flatMap fun p => [out p, []]) ++ [[]])
      = frames.flatMap fun p => out p ++ "\n\n".toList := by
  induction frames with
  | nil => rfl
  | cons p ps ih =>
    rw [List.flatMap_cons, List.flatMap_cons, ← ih]
    show joinLines (out p :: [] :: ((ps.flatMap fun p => [out p, []]) ++ [[]])) = _
    rw [joinLines_cons_cons, joinLines_cons_of_ne_nil _ _ (by simp), List.append_assoc]
    rfl

/-- The translated lines of a chunk made of whole frames. -/
theorem filterMap_frames (now : Nat) (req : Request) (frames : List (Str × JSVal))
    (hf : ∀ p ∈ frames, ∃ d, JSON.parse p.1 = some d
      ∧ d.strictEqStr "[DONE]".toList = false ∧ transformPayload now d req = .ok p.2) :
    ((frames.flatMap fun p => ["data: ".toList ++ p.1, []]) ++ [[]]).filterMap
        (transformLine now req)
      = (frames.flatMap fun p => ["data: ".toList ++ stringifyHole p.2, []]) ++ [[]] := by
  induction frames with
  | nil => rfl
  | cons p ps ih =>
    obtain ⟨d, hparse, hdone, ht⟩ := hf p (List.mem_cons_self _ _)
    have hps := ih fun q hq => hf q (List.mem_cons_of_mem _ hq)
    rw [List.flatMap_cons, List.flatMap_cons, List.append_assoc, List.append_assoc]
    show List.filterMap (transformLine now req)
      (("data: ".toList ++ p.1) :: [] :: ((ps.flatMap fun p => ["data: ".toList ++ p.1, []])
        ++ [[]])) = _
    rw [List.filterMap_cons, transformLine_data_ok now req p.1 d p.2 hparse hdone ht,
      List.filterMap_cons, transformLine_nil, hps]
    rfl

/-! ## C22: chunks made of whole frames -/

set_option maxRecDepth 100000 in
/-- C22 (as stated, refuted): on the chat route the chunk made of the one frame
`data: {"choices":[{"delta":{"content":"Hi"}}]}` and its blank line is translated to the
frame of the translated payload followed by two more line breaks, not to that frame
alone. -/
theorem C22_two_more_line_breaks :
    transformStreamChunk 1700000000123
        "data: \x7b\"choices\":[\x7b\"delta\":\x7b\"content\":\"Hi\"\x7d\x7d]\x7d\n\n".toList
        sampleStreamRequest
      = "data: \x7b\"id\":\"chatcmpl-1700000000123\",\"object\":\"chat.completion.chunk\",\"created\":1700000000,\"model\":\"grok-1\",\"choices\":[\x7b\"index\":0,\"delta\":\x7b\"content\":\"Hi\"\x7d,\"finish_reason\":null\x7d]\x7d\n\n\n\n".toList
    ∧ transformStreamChunk 1700000000123
        "data: \x7b\"choices\":[\x7b\"delta\":\x7b\"content\":\"Hi\"\x7d\x7d]\x7d\n\n".toList
        sampleStreamRequest
      ≠ "data: \x7b\"id\":\"chatcmpl-1700000000123\",\"object\":\"chat.completion.chunk\",\"created\":1700000000,\"model\":\"grok-1\",\"choices\":[\x7b\"index\":0,\"delta\":\x7b\"content\":\"Hi\"\x7d,\"finish_reason\":null\x7d]\x7d\n\n".toList := by
  decide

/-- C22 (amended): for a chunk made of one or more whole frames, each a line `data: ` and a
JSON text without a line break that parses, is not the string `[DONE]` and is translated,
followed by a blank line, `transformStreamChunk` returns the frames `data: ` + the translated
JSON + two line breaks, in order, with nothing before or between them, followed by two more
line breaks. -/
theorem C22_whole_frames (now : Nat) (req : Request) (frames : List (Str × JSVal))
    (hne : frames ≠ [])
    (hf : ∀ p ∈ frames, '\n' ∉ p.1 ∧ ∃ d, JSON.parse p.1 = some d
      ∧ d.strictEqStr "[DONE]".toList = false ∧ transformPayload now d req = .ok p.2) :
    transformStreamChunk now
        (frames.flatMap fun p => "data: ".toList ++ p.1 ++ "\n\n".toList) req
      = (frames.flatMap fun p => "data: ".toList ++ stringifyHole p.2 ++ "\n\n".toList)
          ++ "\n\n".toList := by
  have htrim : (trim (frames.flatMap fun p =>
      "data: ".toList ++ p.1 ++ "\n\n".toList)).isEmpty = false := by
    cases frames with
    | nil => exact absurd rfl hne
    | cons p ps =>
      rw [List.flatMap_cons, List.append_assoc, List.append_assoc]
      exact trim_data_ne_nil _
  rw [transformStreamChunk_of_lines now req _ htrim,
    splitLines_frames frames (fun p hp => (hf p hp).1),
    filterMap_frames now req frames (fun p hp => (hf p hp).2),
    joinLines_frames frames (fun p => "data: ".toList ++ stringifyHole p.2)]

set_option maxRecDepth 100000 in
/-- C22 (amended), at a chunk of two frames on the completions route. -/
theorem C22_whole_frames_witness :
    transformStreamChunk 1700000000123
        "data: \x7b\"choices\":[\x7b\"text\":\"a\"\x7d]\x7d\n\ndata: \x7b\"choices\":[\x7b\"text\":\"b\"\x7d]\x7d\n\n".toList
        sampleStreamCompletionsRequest
      = "data: \x7b\"id\":\"cmpl-1700000000123\",\"object\":\"text_completion.chunk\",\"created\":1700000000,\"model\":\"grok-1\",\"choices\":[\x7b\"index\":0,\"text\":\"a\",\"finish_reason\":null\x7d]\x7d\n\ndata: \x7b\"id\":\"cmpl-1700000000123\",\"object\":\"text_completion.chunk\",\"created\":1700000000,\"model\":\"grok-1\",\"choices\":[\x7b\"index\":0,\"text\":\"b\",\"finish_reason\":null\x7d]\x7d\n\n\n\n".toList :=
  C22_whole_frames 1700000000123 sampleStreamCompletionsRequest
    [("\x7b\"choices\":[\x7b\"text\":\"a\"\x7d]\x7d".toList,
        .obj [("id".toList, .str "cmpl-1700000000123".toList),
              ("object".toList, .str "text_completion.chunk".toList),
              ("created".toList, .num 1700000000 0),
              ("model".toList, .str "grok-1".toList),
              ("choices".toList, .arr [.obj [("index".toList, .num 0 0),
                ("text".toList, .str "a".toList), ("finish_reason".toList, .null)]])]),
     ("\x7b\"choices\":[\x7b\"text\":\"b\"\x7d]\x7d".toList,
        .obj [("id".toList, .str "cmpl-1700000000123".toList),
              ("object".toList, .str "text_completion.chunk".toList),
              ("created".toList, .num 1700000000 0),
              ("model".toList, .str "grok-1".toList),
              ("choices".toList, .arr [.obj [("index".toList, .num 0 0),
                ("text".toList, .str "b".toList), ("finish_reason".toList, .null)]])])]
    (by simp)
    (by
      intro p hp
      simp only [List.mem_cons, List.mem_singleton, List.not_mem_nil, or_false] at hp
      rcases hp with rfl | rfl
      · exact ⟨by decide, _, rfl, rfl, rfl⟩
      · exact ⟨by decide, _, rfl, rfl, rfl⟩)

/-! ## Lemmas on the producer -/

/-- The chunk loop when the read after the last chunk fails: the translations of the chunks in
order, then the error frame, then the close. -/
theorem pump_read_error (clock : Nat → Nat) (req : Request) (m : Str) (chunks : List Str) :
    ∀ i, pump clock req (some m) i chunks
      = (chunks.enumFrom i).map
          (fun ic => SinkOp.enqueue (transformStreamChunk (clock ic.1) ic.2 req))
        ++ [.enqueue (errorFrame m), .close] := by
  induction chunks with
  | nil => intro i; rfl
  | cons c cs ih =>
    intro i
    show SinkOp.enqueue _ :: pump clock req (some m) (i + 1) cs = _
    rw [ih (i + 1)]
    rfl

/-- The producer when the upstream call succeeds. -/
theorem runProducer_ok (fetch : Fetch) (clock : Nat → Nat) (p : Producer) (r : Response)
    (hf : fetch p.call = .ok r) (hok : r.ok = true) :
    runProducer fetch clock p = (pump clock p.req r.readError 0 r.chunks, [p.call]) := by
  simp only [runProducer, hf, hok, Bool.not_true, Bool.false_eq_true, if_false]

/-- The producer when the upstream answers with a non-successful status. -/
theorem runProducer_not_ok (fetch : Fetch) (clock : Nat → Nat) (p : Producer) (r : Response)
    (hf : fetch p.call = .ok r) (hok : r.ok = false) :
    runProducer fetch clock p =
      (match r.json with
        | .error m => [.enqueue (errorFrame m), .close]
        | .ok errorData => [.enqueue (dataFrame (.obj [("error".toList, errorData)])), .close],
       [p.call]) := by
  simp only [runProducer, hf, hok, Bool.not_false, if_true]

/-- The producer when the upstream call throws. -/
theorem runProducer_throw (fetch : Fetch) (clock : Nat → Nat) (p : Producer) (m : Str)
    (hf : fetch p.call = .error m) :
    runProducer fetch clock p = ([.enqueue (errorFrame m), .close], [p.call]) := by
  simp only [runProducer, hf]

/-! ## C23: a read error after some chunks -/

/-- The text of the frame the `catch` clause of the producer enqueues. -/
theorem errorFrame_text (m : Str) :
    errorFrame m
      = "data: \x7b\"error\":\x7b\"message\":".toList ++ quote m ++ "\x7d\x7d\n\n".toList := by
  simp [errorFrame, dataFrame, stringifyHole, JSON.stringify, stringifyVal, stringifyMembers,
    quote, quoteChar]

theorem errorFrame_ne_done (m : Str) : errorFrame m ≠ "data: [DONE]\n\n".toList := by
  intro h
  rw [errorFrame_text] at h
  have h2 := congrArg (fun s => (s.drop 6).head?) h
  simp at h2

/-- C23: when the upstream call succeeds, the body delivers k chunks and the next read fails
with the message `m`, the producer enqueues the translations of the k chunks in order, each at
its clock reading, then the one frame `data: {"error":{"message":m}}` with two line breaks,
then closes the sink: k + 2 operations, the close being the last.  The frame that follows the
translations is not the `[DONE]` frame; one upstream call is made. -/
theorem C23_read_error_after_chunks (fetch : Fetch) (clock : Nat → Nat) (p : Producer)
    (response : Response) (m : Str)
    (hf : fetch p.call = .ok response) (hok : response.ok = true)
    (hr : response.readError = some m) :
    (runProducer fetch clock p).1
      = (response.chunks.enumFrom 0).map
          (fun ic => SinkOp.enqueue (transformStreamChunk (clock ic.1) ic.2 p.req))
        ++ [.enqueue ("data: \x7b\"error\":\x7b\"message\":".toList ++ quote m
              ++ "\x7d\x7d\n\n".toList),
            .close]
    ∧ (runProducer fetch clock p).1.length = response.chunks.length + 2
    ∧ "data: \x7b\"error\":\x7b\"message\":".toList ++ quote m ++ "\x7d\x7d\n\n".toList
        ≠ "data: [DONE]\n\n".toList
    ∧ (runProducer fetch clock p).2 = [p.call] := by
  have hops : (runProducer fetch clock p).1
      = (response.chunks.enumFrom 0).map
          (fun ic => SinkOp.enqueue (transformStreamChunk (clock ic.1) ic.2 p.req))
        ++ [.enqueue ("data: \x7b\"error\":\x7b\"message\":".toList ++ quote m
              ++ "\x7d\x7d\n\n".toList),
            .close] := by
    rw [runProducer_ok fetch clock p response hf hok, hr, ← errorFrame_text]
    exact pump_read_error clock p.req m response.chunks 0
  refine ⟨hops, ?_, ?_, ?_⟩
  · rw [hops]
    simp
  · rw [← errorFrame_text]
    exact errorFrame_ne_done m
  · rw [runProducer_ok fetch clock p response hf hok]

set_option maxRecDepth 100000 in
/-- C23, at an upstream that delivers a `data: ` chunk and a comment chunk and then fails the
next read with the message `reset`. -/
theorem C23_read_error_after_chunks_witness :
    (runProducer resetAfterTwoChunksFetch fixedClock sampleProducer).1
      = [.enqueue "data: \x7b\"id\":\"chatcmpl-1700000000123\",\"object\":\"chat.completion.chunk\",\"created\":1700000000,\"model\":\"grok-1\",\"choices\":[\x7b\"index\":0,\"delta\":\x7b\"content\":\"a\"\x7d,\"finish_reason\":null\x7d]\x7d\n\n\n\n".toList,
         .enqueue ": keep-alive\n\n\n\n".toList,
         .enqueue "data: \x7b\"error\":\x7b\"message\":\"reset\"\x7d\x7d\n\n".toList,
         .close] :=
  (C23_read_error_after_chunks resetAfterTwoChunksFetch fixedClock sampleProducer
    { status := 200
      json := .error "body already read".toList
      chunks := ["data: \x7b\"choices\":[\x7b\"delta\":\x7b\"content\":\"a\"\x7d\x7d]\x7d\n\n".toList,
                 ": keep-alive\n\n".toList]
      readError := some "reset".toList }
    "reset".toList rfl rfl rfl).1

/-! ## C24: the error frames of the producer -/

set_option maxRecDepth 100000 in
/-- C24 (the code breaks it): a streaming chat request; the upstream answers 429 with the body
`{"error":{"message":"slow down","code":"rate_limited"}}`.  The producer enqueues one frame,
whose JSON has as `error` member the whole upstream body: that member has an `error` member
and no `message`.  The sibling paths give `error.message`: the `catch` clause of the same
producer, for an upstream call that throws `boom`, and the non-streaming branch of
`handleRequest`, for the same upstream answer. -/
theorem C24_status_frame_wraps_body :
    (runProducer rateLimitedFetch fixedClock sampleProducer).1
      = [.enqueue "data: \x7b\"error\":\x7b\"error\":\x7b\"message\":\"slow down\",\"code\":\"rate_limited\"\x7d\x7d\x7d\n\n".toList,
         .close]
    ∧ (JSON.parse "\x7b\"error\":\x7b\"error\":\x7b\"message\":\"slow down\",\"code\":\"rate_limited\"\x7d\x7d\x7d".toList).map
        (fun v => stringifyHole (v.getOpt "error".toList))
      = some "\x7b\"error\":\x7b\"message\":\"slow down\",\"code\":\"rate_limited\"\x7d\x7d".toList
    ∧ (JSON.parse "\x7b\"error\":\x7b\"error\":\x7b\"message\":\"slow down\",\"code\":\"rate_limited\"\x7d\x7d\x7d".toList).map
        (fun v => ((v.getOpt "error".toList).getOpt "message".toList).isNullish)
      = some true
    ∧ (runProducer failingFetch fixedClock sampleProducer).1
      = [.enqueue "data: \x7b\"error\":\x7b\"message\":\"boom\"\x7d\x7d\n\n".toList, .close]
    ∧ JSON.stringify (handleRequest emptyEnv rateLimitedFetch 0 sampleChatRequest).result.body
      = some "\x7b\"error\":\x7b\"message\":\"slow down\",\"type\":\"api_error\",\"code\":\"rate_limited\"\x7d\x7d".toList := by
  decide

/-! ## C25: the model list -/

/-- C25: for a request with a credential whose path contains `/models`, whatever its method
and body, `handleRequest` returns the immediate result of status 200 whose body is the object
`list` with one model, of id `grok-1`, and makes no upstream call. -/
theorem C25_model_list (env : Env) (fetch : Fetch) (now : Nat) (req : Request)
    (hkey : noKey (getApiKey env req) = false)
    (hmodels : includes req.path "/models".toList = true) :
    (handleRequest env fetch now req).result.status = 200
    ∧ (handleRequest env fetch now req).result.body
        = .obj [("object".toList, .str "list".toList),
                ("data".toList, .arr [.obj [("id".toList, .str "grok-1".toList),
                                            ("object".toList, .str "model".toList),
                                            ("created".toList, .num 1699488000 0),
                                            ("owned_by".toList, .str "grok".toList)]])]
    ∧ (handleRequest env fetch now req).result.stream = none
    ∧ (handleRequest env fetch now req).calls = [] := by
  have h : handleRequest env fetch now req = ⟨modelsResult, []⟩ := by
    simp only [handleRequest, hkey, handleWithKey, hmodels, Bool.false_eq_true, if_false,
      if_true]
  rw [h]
  exact ⟨rfl, rfl, rfl, rfl⟩

set_option maxRecDepth 100000 in
/-- C25, at a `GET` of `/v1/models` without a body and an upstream that would throw. -/
theorem C25_model_list_witness :
    noKey (getApiKey emptyEnv listModelsRequest) = false
    ∧ includes listModelsRequest.path "/models".toList = true
    ∧ (handleRequest emptyEnv failingFetch 0 listModelsRequest).result.status = 200
    ∧ JSON.stringify (handleRequest emptyEnv failingFetch 0 listModelsRequest).result.body
        = some "\x7b\"object\":\"list\",\"data\":[\x7b\"id\":\"grok-1\",\"object\":\"model\",\"created\":1699488000,\"owned_by\":\"grok\"\x7d]\x7d".toList
    ∧ (handleRequest emptyEnv failingFetch 0 listModelsRequest).calls = [] :=
  have h := C25_model_list emptyEnv failingFetch 0 listModelsRequest (by decide) (by decide)
  ⟨by decide, by decide, h.1, by rw [h.2.1]; decide, h.2.2.2⟩

/-! ## Lemmas on the credential -/

theorem replaceFirst_bearer (key : Str) :
    replaceFirst "Bearer ".toList [] ("Bearer ".toList ++ key) = key := by
  show replaceFirst "Bearer ".toList [] ('B' :: ("earer ".toList ++ key)) = key
  rw [replaceFirst]
  simp

/-- The key of a request whose `authorization` header is `Bearer ` and a non-empty key. -/
theorem getApiKey_bearer (env : Env) (req : Request) (key : Str)
    (hh : headerValue "authorization".toList req.headers = some ("Bearer ".toList ++ key))
    (hne : key.isEmpty = false) : getApiKey env req = some key := by
  simp only [getApiKey, hh, replaceFirst_bearer, hne, Bool.false_eq_true, if_false]

/-- Results built after the upstream call hold no producer. -/
theorem afterFetch_stream (now : Nat) (req : Request) (fetched : Except Str Response)
    (r : Result) (h : afterFetch now req fetched = .ok r) : r.stream = none := by
  unfold afterFetch at h
  cases fetched with
  | error m => cases h
  | ok response =>
    simp only [bind, Except.bind] at h
    split at h
    · cases hj : response.json with
      | error m => rw [hj] at h; cases h
      | ok errorData =>
        rw [hj] at h
        simp only [upstreamError, bind, Except.bind] at h
        cases he : errorData.get "error".toList with
        | error m => rw [he] at h; cases h
        | ok e =>
          rw [he] at h
          cases h
          rfl
    · cases hj : response.json with
      | error m => rw [hj] at h; cases h
      | ok g =>
        rw [hj] at h
        simp only at h
        cases ht : transformGrokToOpenAI now g req with
        | error m => rw [ht] at h; cases h
        | ok o =>
          rw [ht] at h
          cases h
          rfl

/-- Every upstream call `handleRequest` makes or hands to a producer is built by `fetchCall`
with the key of the request. -/
theorem handleRequest_calls_of_key (env : Env) (fetch : Fetch) (now : Nat) (req : Request)
    (key : Str) (hkey : getApiKey env req = some key) (hne : key.isEmpty = false) :
    (∀ c ∈ (handleRequest env fetch now req).calls,
        ∃ url grokRequest, c = fetchCall url key grokRequest)
    ∧ (∀ p, (handleRequest env fetch now req).result.stream = some p →
        ∃ url grokRequest, p.call = fetchCall url key grokRequest) := by
  simp only [handleRequest, hkey, noKey_some key hne, handleWithKey, Bool.false_eq_true,
    if_false, Option.getD_some]
  by_cases hm : includes req.path "/models".toList = true
  · simp only [hm, if_true]
    exact ⟨fun c hc => absurd hc (List.not_mem_nil c), fun p hp => by cases hp⟩
  · simp only [hm, Bool.false_eq_true, if_false]
    cases hmap : transformOpenAIToGrok req with
    | error m => exact ⟨fun c hc => absurd hc (List.not_mem_nil c), fun p hp => by cases hp⟩
    | ok g =>
      cases hurl : grokEndpoint env req.path with
      | none => exact ⟨fun c hc => absurd hc (List.not_mem_nil c), fun p hp => by cases hp⟩
      | some url =>
        cases hst : req.body.get "stream".toList with
        | error m =>
          exact ⟨fun c hc => absurd hc (List.not_mem_nil c), fun p hp => by cases hp⟩
        | ok st =>
          by_cases ht : st.truthy = true
          · simp only [ht, if_true]
            refine ⟨fun c hc => absurd hc (List.not_mem_nil c), fun p hp => ?_⟩
            cases hp
            exact ⟨url, g, rfl⟩
          · simp only [ht, Bool.false_eq_true, if_false]
            cases ha : afterFetch now req (fetch (fetchCall url key g)) with
            | error m =>
              refine ⟨fun c hc => ?_, fun p hp => by cases hp⟩
              rw [List.mem_singleton] at hc
              exact ⟨url, g, hc⟩
            | ok r =>
              refine ⟨fun c hc => ?_, fun p hp => ?_⟩
              · rw [List.mem_singleton] at hc
                exact ⟨url, g, hc⟩
              · have := afterFetch_stream now req _ r ha
                simp only at hp
                rw [this] at hp
                cases hp

/-! ## C26: the credential of the upstream call -/

/-- C26: for a request whose `authorization` header is `Bearer ` followed by a non-empty key,
that key is the credential whatever the fallback key of the environment, and every upstream
call, made by `handleRequest` or by the producer it returns, carries the header
`Authorization` with the value `Bearer ` followed by the same key, the value of the inbound
header.  A non-streaming request that is mapped makes exactly one such call, and the producer
of a streaming request makes exactly one. -/
theorem C26_authorization_forwarded (env : Env) (fetch : Fetch) (now : Nat) (req : Request)
    (key : Str)
    (hh : headerValue "authorization".toList req.headers = some ("Bearer ".toList ++ key))
    (hne : key.isEmpty = false) :
    getApiKey env req = some key
    ∧ (∀ c ∈ (handleRequest env fetch now req).calls,
        headerValue "Authorization".toList c.headers = some ("Bearer ".toList ++ key)
        ∧ headerValue "Authorization".toList c.headers
            = headerValue "authorization".toList req.headers)
    ∧ (∀ p, (handleRequest env fetch now req).result.stream = some p →
        headerValue "Authorization".toList p.call.headers = some ("Bearer ".toList ++ key)
        ∧ headerValue "Authorization".toList p.call.headers
            = headerValue "authorization".toList req.headers
        ∧ ∀ clock, (runProducer fetch clock p).2 = [p.call])
    ∧ (∀ url grokRequest st, includes req.path "/models".toList = false →
        transformOpenAIToGrok req = .ok grokRequest → grokEndpoint env req.path = some url →
        req.body.get "stream".toList = .ok st → st.truthy = false →
        (handleRequest env fetch now req).calls = [fetchCall url key grokRequest])
    ∧ (∀ url grokRequest st, includes req.path "/models".toList = false →
        transformOpenAIToGrok req = .ok grokRequest → grokEndpoint env req.path = some url →
        req.body.get "stream".toList = .ok st → st.truthy = true →
        (handleRequest env fetch now req).result.stream
          = some ⟨fetchCall url key grokRequest, req⟩) := by
  have hkey := getApiKey_bearer env req key hh hne
  have hcalls := handleRequest_calls_of_key env fetch now req key hkey hne
  refine ⟨hkey, ?_, ?_, ?_, ?_⟩
  · intro c hc
    obtain ⟨url, g, rfl⟩ := hcalls.1 c hc
    exact ⟨rfl, hh.symm ▸ rfl⟩
  · intro p hp
    obtain ⟨url, g, hpc⟩ := hcalls.2 p hp
    rw [hpc]
    exact ⟨rfl, hh.symm ▸ rfl, fun clock => by rw [← hpc]; rfl⟩
  · intro url g st hmodels hmap hurl hst hfalsy
    rw [handleRequest_nonstreaming env fetch now req key url g st hkey hne hmodels hmap hurl
      hst hfalsy]
    cases afterFetch now req (fetch (fetchCall url key g)) <;> rfl
  · intro url g st hmodels hmap hurl hst htruthy
    rw [handleRequest_streaming env fetch now req key url g st hkey hne hmodels hmap hurl hst
      htruthy]
    rfl

set_option maxRecDepth 100000 in
/-- C26, at a chat request with the header `Bearer k` in an environment whose fallback key is
`fallback`. -/
theorem C26_authorization_forwarded_witness :
    headerValue "authorization".toList sampleChatRequest.headers = some "Bearer k".toList
    ∧ getApiKey fallbackKeyEnv sampleChatRequest = some "k".toList
    ∧ ((handleRequest fallbackKeyEnv (replyFetch sampleChatReply) 0 sampleChatRequest).calls.map
        fun c => headerValue "Authorization".toList c.headers) = [some "Bearer k".toList]
    ∧ ∀ c ∈ (handleRequest fallbackKeyEnv (replyFetch sampleChatReply) 0
          sampleChatRequest).calls,
        headerValue "Authorization".toList c.headers = some ("Bearer ".toList ++ "k".toList)
        ∧ headerValue "Authorization".toList c.headers
            = headerValue "authorization".toList sampleChatRequest.headers :=
  ⟨by decide,
   (C26_authorization_forwarded fallbackKeyEnv (replyFetch sampleChatReply) 0 sampleChatRequest
      "k".toList (by decide) (by decide)).1,
   by decide,
   (C26_authorization_forwarded fallbackKeyEnv (replyFetch sampleChatReply) 0 sampleChatRequest
      "k".toList (by decide) (by decide)).2.1⟩

/-! ## C27: the embeddings request -/

/-- C27: the upstream body of the embeddings mapper has exactly the two members `model` and
`input`, in this order, whatever else the inbound body holds: `input` is the inbound input
itself when that is an array, and the one-element array holding it otherwise.  The mapper
returns for every body that is not `undefined` or `null` and whose `model` is absent, `null`
or a string. -/
theorem C27_embeddings_request (body : JSVal) :
    (∀ up, transformEmbeddings body = .ok up →
      ∃ model input, up = .obj [("model".toList, model), ("input".toList, input)]
        ∧ mapModelToGrok (body.getOpt "model".toList) = .ok model
        ∧ (∀ xs, body.getOpt "input".toList = .arr xs → input = .arr xs)
        ∧ ((body.getOpt "input".toList).isArray = false →
            input = .arr [body.getOpt "input".toList]))
    ∧ (body.isNullish = false →
        (body.getOpt "model".toList = .undefined ∨ body.getOpt "model".toList = .null
          ∨ ∃ s, body.getOpt "model".toList = .str s) →
        ∃ up, transformEmbeddings body = .ok up) := by
  constructor
  · intro up h
    cases hb : body.isNullish with
    | true =>
      obtain ⟨m, hm⟩ := JSVal.get_error_of_nullish body "model".toList hb
      simp only [transformEmbeddings, hm, bind, Except.bind] at h
      cases h
    | false =>
      simp only [transformEmbeddings, JSVal.get_of_not_nullish _ _ hb, bind, Except.bind,
        pure, Except.pure] at h
      cases hmodel : mapModelToGrok (body.getOpt "model".toList) with
      | error m => rw [hmodel] at h; cases h
      | ok model =>
        rw [hmodel] at h
        injection h with h
        refine ⟨model, _, h.symm, rfl, ?_, ?_⟩
        · intro xs hxs
          rw [hxs]
          rfl
        · intro hna
          rw [if_neg (by rw [hna]; decide)]
  · intro hb hm
    obtain ⟨model, hmodel⟩ := mapModelToGrok_returns _ hm
    simp only [transformEmbeddings, JSVal.get_of_not_nullish _ _ hb, bind, Except.bind,
      pure, Except.pure, hmodel]
    exact ⟨_, rfl⟩

set_option maxRecDepth 100000 in
/-- C27, at the body `{"model":"text-embedding-3","input":"x","user":"u","dimensions":3}`. -/
theorem C27_embeddings_request_witness :
    transformEmbeddings (.obj [("model".toList, .str "text-embedding-3".toList),
        ("input".toList, .str "x".toList), ("user".toList, .str "u".toList),
        ("dimensions".toList, .num 3 0)])
      = .ok (.obj [("model".toList, .str "grok-1".toList),
                   ("input".toList, .arr [.str "x".toList])])
    ∧ ∃ model input,
        JSVal.obj [("model".toList, .str "grok-1".toList),
                   ("input".toList, .arr [.str "x".toList])]
          = .obj [("model".toList, model), ("input".toList, input)]
        ∧ input = .arr [.str "x".toList] :=
  ⟨rfl,
   (((C27_embeddings_request (.obj [("model".toList, .str "text-embedding-3".toList),
        ("input".toList, .str "x".toList), ("user".toList, .str "u".toList),
        ("dimensions".toList, .num 3 0)])).1 _ rfl).imp fun _ h =>
      h.imp fun _ h => ⟨h.1, h.2.2.2 rfl⟩)⟩

/-! ## C28: when the upstream body has stop sequences -/

theorem hasKey_append_self (k : Str) (v : JSVal) (kvs : List (Str × JSVal)) :
    hasKey k (kvs ++ [(k, v)]) = true := by
  simp [hasKey]

set_option maxRecDepth 100000 in
/-- C28 (as stated, refuted): the completions body `{"prompt":"hi","stop":""}` has a `stop`
key with a string value, and its upstream body has no `stopSequences` key; the body
`{"prompt":"hi","stop":5}` has a `stop` that is neither a string nor an array, and its
upstream body has the key. -/
theorem C28_empty_stop_dropped :
    (transformCompletions
        (.obj [("prompt".toList, .str "hi".toList), ("stop".toList, .str [])])).toOption.map
        stringifyHole
      = some "\x7b\"model\":\"grok-1\",\"prompt\":\"hi\",\"temperature\":1,\"maxTokens\":1024,\"topP\":1,\"stream\":false\x7d".toList
    ∧ (transformCompletions
        (.obj [("prompt".toList, .str "hi".toList), ("stop".toList, .num 5 0)])).toOption.map
        stringifyHole
      = some "\x7b\"model\":\"grok-1\",\"prompt\":\"hi\",\"temperature\":1,\"maxTokens\":1024,\"topP\":1,\"stream\":false,\"stopSequences\":[5]\x7d".toList := by
  decide

/-- C28 (amended): the upstream body of the chat and of the completions mapper has a
`stopSequences` key exactly when the inbound `stop` is truthy: a non-empty string, an array, or
any other value but `undefined`, `null`, `false`, 0 and the empty string.  When present it is
an array: `stop` itself when that is an array, the one-element array holding it otherwise. -/
theorem C28_stop_sequences_iff_truthy (body up : JSVal)
    (h : transformChatCompletions body = .ok up ∨ transformCompletions body = .ok up) :
    ∃ kvs, up = .obj kvs
      ∧ hasKey "stopSequences".toList kvs = (body.getOpt "stop".toList).truthy
      ∧ (∀ s, body.getOpt "stop".toList = .str s →
          hasKey "stopSequences".toList kvs = !s.isEmpty)
      ∧ (∀ xs, body.getOpt "stop".toList = .arr xs →
          hasKey "stopSequences".toList kvs = true)
      ∧ ((body.getOpt "stop".toList).truthy = true →
          (lookup "stopSequences".toList kvs).isArray = true
          ∧ lookup "stopSequences".toList kvs
              = if (body.getOpt "stop".toList).isArray then body.getOpt "stop".toList
                else .arr [body.getOpt "stop".toList]) := by
  obtain ⟨kvs, hup, hkey, _, _, _, _⟩ := mapper_form body up h
  rw [addStopSequences_eq kvs _ hkey] at hup
  have hk : hasKey "stopSequences".toList
      (if (body.getOpt "stop".toList).truthy = true then
        kvs ++ [("stopSequences".toList,
          if (body.getOpt "stop".toList).isArray = true then body.getOpt "stop".toList
          else .arr [body.getOpt "stop".toList])]
      else kvs) = (body.getOpt "stop".toList).truthy := by
    cases ht : (body.getOpt "stop".toList).truthy with
    | true => rw [if_pos rfl]; exact hasKey_append_self _ _ kvs
    | false => rw [if_neg (by decide)]; exact hkey
  refine ⟨_, hup, hk, ?_, ?_, ?_⟩
  · intro s hs
    rw [hk, hs]
    cases s <;> rfl
  · intro xs hxs
    rw [hk, hxs]
    rfl
  · intro ht
    rw [if_pos ht]
    have hv := lookup_append_self "stopSequences".toList
      (if (body.getOpt "stop".toList).isArray = true then body.getOpt "stop".toList
        else .arr [body.getOpt "stop".toList]) kvs hkey
    refine ⟨?_, hv⟩
    rw [hv]
    cases ha : (body.getOpt "stop".toList).isArray with
    | true => rw [if_pos rfl]; exact ha
    | false => rw [if_neg (by decide)]; rfl

set_option maxRecDepth 100000 in
/-- C28 (amended), at the completions body `{"prompt":"hi","stop":"END"}`. -/
theorem C28_stop_sequences_iff_truthy_witness :
    transformCompletions
        (.obj [("prompt".toList, .str "hi".toList), ("stop".toList, .str "END".toList)])
      = .ok (.obj [("model".toList, .str "grok-1".toList), ("prompt".toList, .str "hi".toList),
          ("temperature".toList, .num 1 0), ("maxTokens".toList, .num 1024 0),
          ("topP".toList, .num 1 0), ("stream".toList, .bool false),
          ("stopSequences".toList, .arr [.str "END".toList])])
    ∧ ∃ kvs, JSVal.obj [("model".toList, .str "grok-1".toList),
          ("prompt".toList, .str "hi".toList),
          ("temperature".toList, .num 1 0), ("maxTokens".toList, .num 1024 0),
          ("topP".toList, .num 1 0), ("stream".toList, .bool false),
          ("stopSequences".toList, .arr [.str "END".toList])] = .obj kvs
        ∧ hasKey "stopSequences".toList kvs = true :=
  ⟨rfl,
   (C28_stop_sequences_iff_truthy
      (.obj [("prompt".toList, .str "hi".toList), ("stop".toList, .str "END".toList)]) _
      (Or.inr rfl)).imp fun _ h => ⟨h.1, h.2.1⟩⟩

/-! ## C29: an upstream error whose body is not JSON -/

set_option maxRecDepth 100000 in
/-- C29 (as stated, refuted): a non-streaming chat request; the upstream answers 502 with a
body that cannot be parsed as JSON.  The result of `handleRequest` has status 500 and type
`server_error`, with the message of the parse failure: neither the status 502 nor the type
`api_error` nor the generic message. -/
theorem C29_unparseable_error_body_gives_500 :
    (badGatewayFetch (fetchCall "https://api.grok.ai/v1/chat/completions".toList "k".toList
        sampleChatUpstream)).toOption.map Response.status = some 502
    ∧ (handleRequest emptyEnv badGatewayFetch 0 sampleChatRequest).result.status = 500
    ∧ JSON.stringify (handleRequest emptyEnv badGatewayFetch 0 sampleChatRequest).result.body
        = some "\x7b\"error\":\x7b\"message\":\"Unexpected token < in JSON at position 0\",\"type\":\"server_error\"\x7d\x7d".toList
    ∧ (handleRequest emptyEnv badGatewayFetch 0 sampleChatRequest).calls
        = [fetchCall "https://api.grok.ai/v1/chat/completions".toList "k".toList
            sampleChatUpstream] := by
  refine ⟨by decide, by decide, by decide, rfl⟩

/-- C29 (amended): for a non-streaming request with a credential on a mapped route whose body
the request mapper accepts, if the upstream answers with a non-successful status and an error
body whose reading as JSON fails with the message `m`, `handleRequest` returns, after that one
upstream call, the immediate result with status 500 and type `server_error` carrying `m`; the
upstream status is not forwarded. -/
theorem C29_unparseable_error_body (env : Env) (fetch : Fetch) (now : Nat) (req : Request)
    (key url m : Str) (grokRequest st : JSVal) (response : Response)
    (hkey : getApiKey env req = some key) (hne : key.isEmpty = false)
    (hmodels : includes req.path "/models".toList = false)
    (hmap : transformOpenAIToGrok req = .ok grokRequest)
    (hurl : grokEndpoint env req.path = some url)
    (hst : req.body.get "stream".toList = .ok st) (hfalsy : st.truthy = false)
    (hfetch : fetch (fetchCall url key grokRequest) = .ok response)
    (hok : response.ok = false)
    (hjson : response.json = .error m) :
    handleRequest env fetch now req
      = ⟨immediate 500 (.obj [("error".toList,
            .obj [("message".toList, .str m), ("type".toList, .str "server_error".toList)])]),
          [fetchCall url key grokRequest]⟩
    ∧ (handleRequest env fetch now req).result.status = 500
    ∧ (handleRequest env fetch now req).result.stream = none
    ∧ ((handleRequest env fetch now req).result.body.getOpt "error".toList).getOpt "type".toList
        = .str "server_error".toList
    ∧ ((handleRequest env fetch now req).result.body.getOpt "error".toList).getOpt
        "message".toList = .str m := by
  have hafter : afterFetch now req (fetch (fetchCall url key grokRequest)) = .error m := by
    rw [hfetch]
    simp only [afterFetch, hok, hjson, bind, Except.bind, Bool.not_false, if_true]
  have hr := handleRequest_nonstreaming env fetch now req key url grokRequest st
    hkey hne hmodels hmap hurl hst hfalsy
  rw [hafter] at hr
  rw [hr]
  exact ⟨rfl, rfl, rfl, rfl, rfl⟩

set_option maxRecDepth 100000 in
/-- C29 (amended), at a chat request and an upstream answering 502 with a body that is not
JSON. -/
theorem C29_unparseable_error_body_witness :
    handleRequest emptyEnv badGatewayFetch 0 sampleChatRequest
      = ⟨immediate 500 (.obj [("error".toList,
            .obj [("message".toList, .str "Unexpected token < in JSON at position 0".toList),
                  ("type".toList, .str "server_error".toList)])]),
          [fetchCall "https://api.grok.ai/v1/chat/completions".toList "k".toList
            sampleChatUpstream]⟩ :=
  (C29_unparseable_error_body emptyEnv badGatewayFetch 0 sampleChatRequest "k".toList
    "https://api.grok.ai/v1/chat/completions".toList
    "Unexpected token < in JSON at position 0".toList sampleChatUpstream .undefined
    { status := 502
      json := .error "Unexpected token < in JSON at position 0".toList
      chunks := []
      readError := none }
    rfl rfl (by decide) rfl rfl rfl rfl rfl (by decide) rfl).1

/-! ## Lemmas on the lines of the output -/

theorem newline_not_mem_of_mem_splitLines (s : Str) : ∀ l ∈ splitLines s, '\n' ∉ l := by
  induction s with
  | nil =>
    intro l hl
    simp [splitLines] at hl
    subst hl
    exact List.not_mem_nil _
  | cons c cs ih =>
    intro l hl
    by_cases hc : c = '\n'
    · subst hc
      rw [splitLines_newline] at hl
      rcases List.mem_cons.mp hl with h | h
      · subst h; exact List.not_mem_nil _
      · exact ih l h
    · rw [splitLines_cons_of_ne c cs hc] at hl
      cases hs : splitLines cs with
      | nil => exact absurd hs (splitLines_ne_nil cs)
      | cons l0 ls =>
        rw [hs] at hl ih
        rcases List.mem_cons.mp hl with h | h
        · subst h
          intro hm
          rcases List.mem_cons.mp hm with h1 | h1
          · exact hc h1.symm
          · exact ih l0 (List.mem_cons_self _ _) h1
        · exact ih l (List.mem_cons_of_mem _ h)

/-- Splitting at a line break: the lines before it, then the lines after it. -/
theorem splitLines_append (a b : Str) :
    splitLines (a ++ '\n' :: b) = splitLines a ++ splitLines b := by
  induction a with
  | nil => exact splitLines_newline b
  | cons c cs ih =>
    show splitLines (c :: (cs ++ '\n' :: b)) = _
    by_cases hc : c = '\n'
    · subst hc
      rw [splitLines_newline, splitLines_newline, ih]
      rfl
    · rw [splitLines_cons_of_ne c _ hc, splitLines_cons_of_ne c cs hc, ih]
      cases hs : splitLines cs with
      | nil => exact absurd hs (splitLines_ne_nil cs)
      | cons l0 ls => rfl

theorem splitLines_joinLines (ts : List Str) (h : ts ≠ []) :
    splitLines (joinLines ts) = ts.flatMap splitLines := by
  induction ts with
  | nil => exact absurd rfl h
  | cons t rest ih =>
    cases rest with
    | nil => simp [joinLines]
    | cons t' rest' =>
      rw [joinLines_cons_cons, splitLines_append, ih (List.cons_ne_nil _ _)]
      simp only [List.flatMap_cons]

/-- A line that does not start with `data: ` is pushed as it is. -/
theorem transformLine_of_not_data (now : Nat) (req : Request) (l : Str)
    (h : "data: ".toList.isPrefixOf l = false) : transformLine now req l = some l := by
  simp only [transformLine, h, Bool.not_false, Bool.or_true, if_true]

/-- The lines that do not start with `data: ` are, in their order, among the lines of the
translated ones. -/
theorem filter_sublist_flatMap (now : Nat) (req : Request) (lines : List Str)
    (hl : ∀ l ∈ lines, '\n' ∉ l) :
    List.Sublist (lines.filter fun l => !"data: ".toList.isPrefixOf l)
      ((lines.filterMap (transformLine now req)).flatMap splitLines) := by
  induction lines with
  | nil => exact List.Sublist.slnil
  | cons l rest ih =>
    have ih2 := ih fun x hx => hl x (List.mem_cons_of_mem _ hx)
    cases hd : "data: ".toList.isPrefixOf l with
    | false =>
      rw [List.filter_cons_of_pos (by rw [hd]; rfl),
        List.filterMap_cons_some (transformLine_of_not_data now req l hd), List.flatMap_cons,
        splitLines_of_no_newline l (hl l (List.mem_cons_self _ _))]
      exact List.Sublist.cons₂ l ih2
    | true =>
      rw [List.filter_cons_of_neg (by rw [hd]; decide)]
      cases ht : transformLine now req l with
      | none =>
        rw [List.filterMap_cons_none ht]
        exact ih2
      | some t =>
        rw [List.filterMap_cons_some ht, List.flatMap_cons]
        exact ih2.trans (List.sublist_append_right _ _)

/-- The lines of the text `transformStreamChunk` returns for a non-blank chunk. -/
theorem splitLines_transformStreamChunk (now : Nat) (req : Request) (chunk : Str)
    (h : (trim chunk).isEmpty = false) :
    splitLines (transformStreamChunk now chunk req)
      = splitLines (joinLines ((splitLines chunk).filterMap (transformLine now req)))
        ++ [[], []] := by
  rw [transformStreamChunk_of_lines now req chunk h]
  show splitLines (_ ++ '\n' :: ['\n']) = _
  rw [splitLines_append]
  rfl

/-! ## C30: lines that are passed through, and the order of the lines -/

/-- C30: for a non-blank chunk, every line that does not start with `data: ` is pushed
unchanged and is a line of the text `transformStreamChunk` returns; these lines occur in the
output in the order they have in the chunk; and what any line of the chunk contributes stands
in the output between what the lines before it and what the lines after it contribute. -/
theorem C30_passthrough_in_order (now : Nat) (chunk : Str) (req : Request)
    (hnb : (trim chunk).isEmpty = false) :
    (∀ l ∈ splitLines chunk, "data: ".toList.isPrefixOf l = false →
        transformLine now req l = some l
        ∧ l ∈ splitLines (transformStreamChunk now chunk req))
    ∧ List.Sublist ((splitLines chunk).filter fun l => !"data: ".toList.isPrefixOf l)
        (splitLines (transformStreamChunk now chunk req))
    ∧ (∀ pre l post, splitLines chunk = pre ++ l :: post →
        transformStreamChunk now chunk req
          = joinLines (pre.filterMap (transformLine now req)
              ++ (transformLine now req l).toList
              ++ post.filterMap (transformLine now req)) ++ "\n\n".toList) := by
  have hsub : List.Sublist ((splitLines chunk).filter fun l => !"data: ".toList.isPrefixOf l)
      (splitLines (transformStreamChunk now chunk req)) := by
    have hflat := filter_sublist_flatMap now req (splitLines chunk)
      (newline_not_mem_of_mem_splitLines chunk)
    rw [splitLines_transformStreamChunk now req chunk hnb]
    cases hts : (splitLines chunk).filterMap (transformLine now req) with
    | nil =>
      rw [hts] at hflat
      exact hflat.trans (List.nil_sublist _)
    | cons t ts =>
      rw [hts] at hflat
      rw [splitLines_joinLines _ (List.cons_ne_nil t ts)]
      exact hflat.trans (List.sublist_append_left _ _)
  refine ⟨?_, hsub, ?_⟩
  · intro l hl hd
    refine ⟨transformLine_of_not_data now req l hd, hsub.subset ?_⟩
    exact List.mem_filter.mpr ⟨hl, by rw [hd]; rfl⟩
  · intro pre l post hsplit
    rw [transformStreamChunk_of_lines now req chunk hnb, hsplit, List.filterMap_append,
      List.filterMap_cons]
    cases transformLine now req l <;> simp

set_option maxRecDepth 100000 in
/-- C30, at a chunk of a comment line, a `data: ` line and an `event: ` line on the chat
route. -/
theorem C30_passthrough_in_order_witness :
    (trim ": ping\ndata: \x7b\"choices\":[]\x7d\nevent: x".toList).isEmpty = false
    ∧ transformStreamChunk 1700000000123
        ": ping\ndata: \x7b\"choices\":[]\x7d\nevent: x".toList sampleStreamRequest
      = ": ping\ndata: \x7b\"id\":\"chatcmpl-1700000000123\",\"object\":\"chat.completion.chunk\",\"created\":1700000000,\"model\":\"grok-1\",\"choices\":[\x7b\"index\":0,\"delta\":\x7b\"content\":\"\"\x7d,\"finish_reason\":null\x7d]\x7d\nevent: x\n\n".toList
    ∧ List.Sublist
        ((splitLines ": ping\ndata: \x7b\"choices\":[]\x7d\nevent: x".toList).filter
          fun l => !"data: ".toList.isPrefixOf l)
        (splitLines (transformStreamChunk 1700000000123
          ": ping\ndata: \x7b\"choices\":[]\x7d\nevent: x".toList sampleStreamRequest)) :=
  ⟨by decide, by decide,
   (C30_passthrough_in_order 1700000000123
      ": ping\ndata: \x7b\"choices\":[]\x7d\nevent: x".toList sampleStreamRequest
      (by decide)).2.1⟩

/-! ## Lemmas on the worker's response mappers -/

theorem Except.toOption_map {α β : Type} (x : Except Str α) (f : α → β) :
    (x.map f).toOption = x.toOption.map f := by
  cases x <;> rfl

theorem Except.toOption_error_of_get (v : JSVal) (k : Str) (h : v.isNullish = true)
    (f : JSVal → Except Str JSVal) : (v.get k >>= f).toOption = none := by
  obtain ⟨m, hm⟩ := JSVal.get_error_of_nullish v k h
  rw [hm]
  rfl

/-- The source text of the callee only shows in the message of a failure: whether the mapping
returns, and what it returns, does not depend on it. -/
theorem mapIfNonEmpty_toOption_callee (callee callee' : Str) (xs : JSVal)
    (f : JSVal → Nat → Except Str JSVal) :
    (mapIfNonEmpty callee xs f).toOption = (mapIfNonEmpty callee' xs f).toOption := by
  have hcall : (callMap callee xs f).toOption = (callMap callee' xs f).toOption := by
    cases xs <;> rfl
  simp only [mapIfNonEmpty, bind, Except.bind]
  by_cases ht : xs.truthy = true
  · simp only [ht, if_true]
    cases xs.get "length".toList with
    | error m => rfl
    | ok len =>
      by_cases hl : len.truthy = true
      · simp only [hl, if_true]
        exact hcall
      · simp only [hl, Bool.false_eq_true, if_false]
  · simp only [ht, Bool.false_eq_true, if_false]

/-- The callbacks of the worker are those of the core. -/
theorem worker_callbacks_eq :
    Worker.mapChatChoice = mapChatChoice ∧ Worker.mapCompletionChoice = mapCompletionChoice
    ∧ Worker.mapEmbedding = mapEmbedding ∧ Worker.usageOf = usageOf :=
  ⟨rfl, rfl, rfl, rfl⟩

/-- The worker's `transformGrokChatToOpenAI` on a response whose body reads as a JSON value
other than `null`. -/
theorem worker_transformGrokChatToOpenAI_eq (now : Nat) (grokResponse : Response) (g : JSVal)
    (req : Request) (hjson : grokResponse.json = .ok g) (hg : g.isNullish = false) :
    Worker.transformGrokChatToOpenAI now grokResponse req =
      (mapIfNonEmpty "responseBody.choices.map".toList (g.getOpt "choices".toList)
        Worker.mapChatChoice).map fun choices =>
        .obj [("id".toList, .str ("chatcmpl-".toList ++ natDigits now)),
              ("object".toList, .str "chat.completion".toList),
              ("created".toList, .ofNat (now / 1000)),
              ("model".toList, .str "grok-1".toList),
              ("choices".toList, choices),
              ("usage".toList, usageOf (g.getOpt "usage".toList))] := by
  simp only [Worker.transformGrokChatToOpenAI, hjson, JSVal.get_of_not_nullish _ _ hg, bind,
    Except.bind, pure, Except.pure, Except.map]
  rfl

/-- The worker's `transformGrokCompletionsToOpenAI` on a response whose body reads as a JSON
value other than `null`. -/
theorem worker_transformGrokCompletionsToOpenAI_eq (now : Nat) (grokResponse : Response)
    (g : JSVal) (req : Request) (hjson : grokResponse.json = .ok g)
    (hg : g.isNullish = false) :
    Worker.transformGrokCompletionsToOpenAI now grokResponse req =
      (mapIfNonEmpty "responseBody.choices.map".toList (g.getOpt "choices".toList)
        Worker.mapCompletionChoice).map fun choices =>
        .obj [("id".toList, .str ("cmpl-".toList ++ natDigits now)),
              ("object".toList, .str "text_completion".toList),
              ("created".toList, .ofNat (now / 1000)),
              ("model".toList, .str "grok-1".toList),
              ("choices".toList, choices),
              ("usage".toList, usageOf (g.getOpt "usage".toList))] := by
  simp only [Worker.transformGrokCompletionsToOpenAI, hjson, JSVal.get_of_not_nullish _ _ hg,
    bind, Except.bind, pure, Except.pure, Except.map]
  rfl

/-- The worker's `transformGrokEmbeddingsToOpenAI` on a response whose body reads as a JSON
value other than `null`. -/
theorem worker_transformGrokEmbeddingsToOpenAI_eq (grokResponse : Response) (g : JSVal)
    (req : Request) (hjson : grokResponse.json = .ok g) (hg : g.isNullish = false) :
    Worker.transformGrokEmbeddingsToOpenAI grokResponse req =
      (mapIfNonEmpty "responseBody.data.map".toList (g.getOpt "data".toList)
        Worker.mapEmbedding).map fun data =>
        .obj [("object".toList, .str "list".toList),
              ("data".toList, data),
              ("model".toList, .str "grok-1".toList),
              ("usage".toList, .obj
                [("prompt_tokens".toList,
                   ((g.getOpt "usage".toList).getOpt "promptTokens".toList).or (.num 0 0)),
                 ("total_tokens".toList,
                   ((g.getOpt "usage".toList).getOpt "totalTokens".toList).or (.num 0 0))])] := by
  simp only [Worker.transformGrokEmbeddingsToOpenAI, hjson, JSVal.get_of_not_nullish _ _ hg,
    bind, Except.bind, pure, Except.pure, Except.map]
  rfl

/-! ## C31: the worker's response mappers against the core's -/

set_option maxRecDepth 100000 in
/-- C31 (the code breaks it): the request asks for the model `gpt-4` and the upstream reply
has two choices.  At the same clock value the core's chat mapping gives the body with the
model `gpt-4`, the worker's chat mapping of the same reply the body with the model `grok-1`:
the two bodies differ, in the member `model` only. -/
theorem C31_worker_reports_default_model :
    (Worker.transformGrokChatToOpenAI 1700000000123 (replyResponse sampleChatReply)
        sampleChatRequest).toOption.map stringifyVal
      = some "\x7b\"id\":\"chatcmpl-1700000000123\",\"object\":\"chat.completion\",\"created\":1700000000,\"model\":\"grok-1\",\"choices\":[\x7b\"index\":0,\"message\":\x7b\"role\":\"assistant\",\"content\":\"hello\"\x7d,\"finish_reason\":\"length\"\x7d,\x7b\"index\":1,\"message\":\x7b\"role\":\"assistant\",\"content\":\"bye\"\x7d,\"finish_reason\":\"stop\"\x7d],\"usage\":\x7b\"prompt_tokens\":3,\"completion_tokens\":0,\"total_tokens\":3\x7d\x7d".toList
    ∧ (transformGrokChatToOpenAI 1700000000123 sampleChatReply
        sampleChatRequest).toOption.map stringifyVal
      = some "\x7b\"id\":\"chatcmpl-1700000000123\",\"object\":\"chat.completion\",\"created\":1700000000,\"model\":\"gpt-4\",\"choices\":[\x7b\"index\":0,\"message\":\x7b\"role\":\"assistant\",\"content\":\"hello\"\x7d,\"finish_reason\":\"length\"\x7d,\x7b\"index\":1,\"message\":\x7b\"role\":\"assistant\",\"content\":\"bye\"\x7d,\"finish_reason\":\"stop\"\x7d],\"usage\":\x7b\"prompt_tokens\":3,\"completion_tokens\":0,\"total_tokens\":3\x7d\x7d".toList
    ∧ (Worker.transformGrokChatToOpenAI 1700000000123 (replyResponse sampleChatReply)
        sampleChatRequest).toOption.map stringifyVal
      ≠ (transformGrokChatToOpenAI 1700000000123 sampleChatReply
        sampleChatRequest).toOption.map stringifyVal := by
  decide

/-- Where the worker's mappers and the core's part: for an upstream response whose body reads
as the JSON value `g` and a request that has a body and does not ask for streaming, at the
same clock value the worker's chat, completions and embeddings mapping returns a body exactly
when the core's does, and the two bodies have the same members in the same order, with the
same values but for `model`, for which the worker writes `grok-1`.  The two bodies are equal
when the request's model is falsy or is `grok-1`. -/
theorem worker_mappers_up_to_model (now : Nat) (grokResponse : Response) (g : JSVal)
    (req : Request) (hjson : grokResponse.json = .ok g)
    (hb : req.body.isNullish = false)
    (hs : (req.body.getOpt "stream".toList).truthy = false) :
    (∃ choices : Option JSVal,
      (Worker.transformGrokChatToOpenAI now grokResponse req).toOption
        = choices.map (fun c => .obj
            [("id".toList, .str ("chatcmpl-".toList ++ natDigits now)),
             ("object".toList, .str "chat.completion".toList),
             ("created".toList, .ofNat (now / 1000)),
             ("model".toList, .str "grok-1".toList),
             ("choices".toList, c),
             ("usage".toList, usageOf (g.getOpt "usage".toList))])
      ∧ (transformGrokChatToOpenAI now g req).toOption
        = choices.map (fun c => .obj
            [("id".toList, .str ("chatcmpl-".toList ++ natDigits now)),
             ("object".toList, .str "chat.completion".toList),
             ("created".toList, .ofNat (now / 1000)),
             ("model".toList, (req.body.getOpt "model".toList).or (.str "grok-1".toList)),
             ("choices".toList, c),
             ("usage".toList, usageOf (g.getOpt "usage".toList))]))
    ∧ (∃ choices : Option JSVal,
      (Worker.transformGrokCompletionsToOpenAI now grokResponse req).toOption
        = choices.map (fun c => .obj
            [("id".toList, .str ("cmpl-".toList ++ natDigits now)),
             ("object".toList, .str "text_completion".toList),
             ("created".toList, .ofNat (now / 1000)),
             ("model".toList, .str "grok-1".toList),
             ("choices".toList, c),
             ("usage".toList, usageOf (g.getOpt "usage".toList))])
      ∧ (transformGrokCompletionsToOpenAI now g req).toOption
        = choices.map (fun c => .obj
            [("id".toList, .str ("cmpl-".toList ++ natDigits now)),
             ("object".toList, .str "text_completion".toList),
             ("created".toList, .ofNat (now / 1000)),
             ("model".toList, (req.body.getOpt "model".toList).or (.str "grok-1".toList)),
             ("choices".toList, c),
             ("usage".toList, usageOf (g.getOpt "usage".toList))]))
    ∧ (∃ data : Option JSVal,
      (Worker.transformGrokEmbeddingsToOpenAI grokResponse req).toOption
        = data.map (fun d => .obj
            [("object".toList, .str "list".toList),
             ("data".toList, d),
             ("model".toList, .str "grok-1".toList),
             ("usage".toList, .obj
               [("prompt_tokens".toList,
                  ((g.getOpt "usage".toList).getOpt "promptTokens".toList).or (.num 0 0)),
                ("total_tokens".toList,
                  ((g.getOpt "usage".toList).getOpt "totalTokens".toList).or (.num 0 0))])])
      ∧ (transformGrokEmbeddingsToOpenAI g req).toOption
        = data.map (fun d => .obj
            [("object".toList, .str "list".toList),
             ("data".toList, d),
             ("model".toList, (req.body.getOpt "model".toList).or (.str "grok-1".toList)),
             ("usage".toList, .obj
               [("prompt_tokens".toList,
                  ((g.getOpt "usage".toList).getOpt "promptTokens".toList).or (.num 0 0)),
                ("total_tokens".toList,
                  ((g.getOpt "usage".toList).getOpt "totalTokens".toList).or (.num 0 0))])]))
    ∧ ((req.body.getOpt "model".toList).truthy = false
        ∨ req.body.getOpt "model".toList = .str "grok-1".toList →
      (Worker.transformGrokChatToOpenAI now grokResponse req).toOption
        = (transformGrokChatToOpenAI now g req).toOption
      ∧ (Worker.transformGrokCompletionsToOpenAI now grokResponse req).toOption
        = (transformGrokCompletionsToOpenAI now g req).toOption
      ∧ (Worker.transformGrokEmbeddingsToOpenAI grokResponse req).toOption
        = (transformGrokEmbeddingsToOpenAI g req).toOption) := by
  have hchat : ∃ choices : Option JSVal,
      (Worker.transformGrokChatToOpenAI now grokResponse req).toOption
        = choices.map (fun c => .obj
            [("id".toList, .str ("chatcmpl-".toList ++ natDigits now)),
             ("object".toList, .str "chat.completion".toList),
             ("created".toList, .ofNat (now / 1000)),
             ("model".toList, .str "grok-1".toList),
             ("choices".toList, c),
             ("usage".toList, usageOf (g.getOpt "usage".toList))])
      ∧ (transformGrokChatToOpenAI now g req).toOption
        = choices.map (fun c => .obj
            [("id".toList, .str ("chatcmpl-".toList ++ natDigits now)),
             ("object".toList, .str "chat.completion".toList),
             ("created".toList, .ofNat (now / 1000)),
             ("model".toList, (req.body.getOpt "model".toList).or (.str "grok-1".toList)),
             ("choices".toList, c),
             ("usage".toList, usageOf (g.getOpt "usage".toList))]) := by
    cases hg : g.isNullish with
    | true =>
      refine ⟨none, ?_, ?_⟩
      · simp only [Worker.transformGrokChatToOpenAI, hjson, bind, Except.bind]
        exact Except.toOption_error_of_get g _ hg _
      · simp only [transformGrokChatToOpenAI, JSVal.get_of_not_nullish _ _ hb, hs, bind,
          Except.bind, Bool.false_eq_true, if_false]
        exact Except.toOption_error_of_get g _ hg _
    | false =>
      refine ⟨(mapIfNonEmpty "grokResponse.choices.map".toList (g.getOpt "choices".toList)
        mapChatChoice).toOption, ?_, ?_⟩
      · rw [worker_transformGrokChatToOpenAI_eq now grokResponse g req hjson hg,
          Except.toOption_map, worker_callbacks_eq.1,
          mapIfNonEmpty_toOption_callee _ "grokResponse.choices.map".toList]
      · rw [transformGrokChatToOpenAI_eq now g req hb hs hg, Except.toOption_map]
        rfl
  have hcomp : ∃ choices : Option JSVal,
      (Worker.transformGrokCompletionsToOpenAI now grokResponse req).toOption
        = choices.map (fun c => .obj
            [("id".toList, .str ("cmpl-".toList ++ natDigits now)),
             ("object".toList, .str "text_completion".toList),
             ("created".toList, .ofNat (now / 1000)),
             ("model".toList, .str "grok-1".toList),
             ("choices".toList, c),
             ("usage".toList, usageOf (g.getOpt "usage".toList))])
      ∧ (transformGrokCompletionsToOpenAI now g req).toOption
        = choices.map (fun c => .obj
            [("id".toList, .str ("cmpl-".toList ++ natDigits now)),
             ("object".toList, .str "text_completion".toList),
             ("created".toList, .ofNat (now / 1000)),
             ("model".toList, (req.body.getOpt "model".toList).or (.str "grok-1".toList)),
             ("choices".toList, c),
             ("usage".toList, usageOf (g.getOpt "usage".toList))]) := by
    cases hg : g.isNullish with
    | true =>
      refine ⟨none, ?_, ?_⟩
      · simp only [Worker.transformGrokCompletionsToOpenAI, hjson, bind, Except.bind]
        exact Except.toOption_error_of_get g _ hg _
      · simp only [transformGrokCompletionsToOpenAI, JSVal.get_of_not_nullish _ _ hb, hs, bind,
          Except.bind, Bool.false_eq_true, if_false]
        exact Except.toOption_error_of_get g _ hg _
    | false =>
      refine ⟨(mapIfNonEmpty "grokResponse.choices.map".toList (g.getOpt "choices".toList)
        mapCompletionChoice).toOption, ?_, ?_⟩
      · rw [worker_transformGrokCompletionsToOpenAI_eq now grokResponse g req hjson hg,
          Except.toOption_map, worker_callbacks_eq.2.1,
          mapIfNonEmpty_toOption_callee _ "grokResponse.choices.map".toList]
      · rw [transformGrokCompletionsToOpenAI_eq now g req hb hs hg, Except.toOption_map]
        rfl
  have hemb : ∃ data : Option JSVal,
      (Worker.transformGrokEmbeddingsToOpenAI grokResponse req).toOption
        = data.map (fun d => .obj
            [("object".toList, .str "list".toList),
             ("data".toList, d),
             ("model".toList, .str "grok-1".toList),
             ("usage".toList, .obj
               [("prompt_tokens".toList,
                  ((g.getOpt "usage".toList).getOpt "promptTokens".toList).or (.num 0 0)),
                ("total_tokens".toList,
                  ((g.getOpt "usage".toList).getOpt "totalTokens".toList).or (.num 0 0))])])
      ∧ (transformGrokEmbeddingsToOpenAI g req).toOption
        = data.map (fun d => .obj
            [("object".toList, .str "list".toList),
             ("data".toList, d),
             ("model".toList, (req.body.getOpt "model".toList).or (.str "grok-1".toList)),
             ("usage".toList, .obj
               [("prompt_tokens".toList,
                  ((g.getOpt "usage".toList).getOpt "promptTokens".toList).or (.num 0 0)),
                ("total_tokens".toList,
                  ((g.getOpt "usage".toList).getOpt "totalTokens".toList).or (.num 0 0))])]) := by
    cases hg : g.isNullish with
    | true =>
      refine ⟨none, ?_, ?_⟩
      · simp only [Worker.transformGrokEmbeddingsToOpenAI, hjson, bind, Except.bind]
        exact Except.toOption_error_of_get g _ hg _
      · simp only [transformGrokEmbeddingsToOpenAI, JSVal.get_of_not_nullish _ _ hb, bind,
          Except.bind]
        exact Except.toOption_error_of_get g _ hg _
    | false =>
      refine ⟨(mapIfNonEmpty "grokResponse.data.map".toList (g.getOpt "data".toList)
        mapEmbedding).toOption, ?_, ?_⟩
      · rw [worker_transformGrokEmbeddingsToOpenAI_eq grokResponse g req hjson hg,
          Except.toOption_map, worker_callbacks_eq.2.2.1,
          mapIfNonEmpty_toOption_callee _ "grokResponse.data.map".toList]
      · rw [transformGrokEmbeddingsToOpenAI_eq g req hb hg, Except.toOption_map]
        rfl
  refine ⟨hchat, hcomp, hemb, ?_⟩
  intro hm
  have hmodel : (req.body.getOpt "model".toList).or (.str "grok-1".toList)
      = .str "grok-1".toList := by
    rcases hm with hm | hm
    · exact JSVal.or_of_falsy _ _ hm
    · rw [hm]; rfl
  obtain ⟨c1, hw1, hc1⟩ := hchat
  obtain ⟨c2, hw2, hc2⟩ := hcomp
  obtain ⟨c3, hw3, hc3⟩ := hemb
  rw [hmodel] at hc1 hc2 hc3
  exact ⟨hw1.trans hc1.symm, hw2.trans hc2.symm, hw3.trans hc3.symm⟩

end GrokProxy
